import Mathlib

/-!
# RDP connection settings and the webcam channel bridge

A shallow embedding of `src/protocols/rdp/settings.c`, `channels/webcam.c`,
`channels/webcam/webcam.c` and `plugins/guacvc/guacvc.c`, with the properties of
the connection parameter resolver, the settings projector, the channel bridges
and the plugin registration stated and proved over it.

Conventions of the embedding:

* a C string is a `String`, a nullable `char*` an `Option String`;
* a C `int` is an `Int`; results of signed addition and multiplication are
  brought back into the 32-bit range with `to_int` (two's-complement
  wrap-around), a conversion to `UINT32` is `to_uint32`;
* an `int` that the source only ever uses as a truth value is a `Bool`;
* an integer division by zero, an integer division whose quotient does not fit
  `int` and a member access through NULL have no result: the operation that
  performs one yields `Except.error`;
* a pointer to an object of a collaborator (a channel, a client) is the number
  that identifies the object, a nullable pointer an `Option`;
* a byte is a natural number below 256, a memory block a list of bytes;
* logging (`guac_user_log`, `guac_client_log`) does not influence any computed
  value and is left out.
-/

namespace GuacRdp

/-! ## Machine integers -/

/-- Smallest value of a C `int`. -/
def INT_MIN : Int := -2147483648

/-- Largest value of a C `int`. -/
def INT_MAX : Int := 2147483647

/-- Conversion of an integer value to a 32-bit `int` (two's-complement wrap-around). -/
def to_int (x : Int) : Int := (x + 2147483648) % 4294967296 - 2147483648

/-- Conversion of an integer value to `UINT32` / `uint32_t`. -/
def to_uint32 (x : Int) : Nat := (x % 4294967296).toNat

/-- Ways in which an operation of the source can have no defined result. -/
inductive Fault where
  /-- An integer division whose divisor is zero. -/
  | division_by_zero
  /-- An integer division whose quotient does not fit `int`: `INT_MIN / -1`. -/
  | division_overflow
  /-- A member access through a NULL pointer. -/
  | null_dereference
  deriving DecidableEq, Repr

deriving instance DecidableEq for Except

/-- The C expression `a * b / c` on `int` operands: the product wraps to 32
bits; a zero divisor is a fault, and so is the division of `INT_MIN` by -1,
whose quotient does not fit `int` (the processor raises the same trap for
both).  Every other quotient fits `int`.  `Int.tdiv` is the truncating division
of C. -/
def c_mul_div (a b c : Int) : Except Fault Int :=
  if c = 0 then Except.error Fault.division_by_zero
  else if to_int (a * b) = INT_MIN ∧ c = -1 then Except.error Fault.division_overflow
  else Except.ok (to_int (Int.tdiv (to_int (a * b)) c))

/-- The C expression `x & ~0x3` on an `int`: the bitwise AND of the 32-bit
patterns of the two operands, read back as an `int`. -/
def c_and_not_3 (x : Int) : Int := to_int (Nat.land (to_uint32 x) (to_uint32 (~~~ 3)))

/-! ## Build configuration and collaborators that are not part of the sources -/

/-- A keymap as far as the settings code reads it (`guac_rdp_keymap`). -/
structure guac_rdp_keymap where
  name : String
  freerdp_keyboard_layout : Nat
  deriving DecidableEq, Repr

/-- The information about the connecting user that `guac_rdp_parse_args` reads
(`user->info`). -/
structure guac_user where
  optimal_width : Int
  optimal_height : Int
  optimal_resolution : Int
  timezone : Option String
  deriving DecidableEq, Repr

/-- Preprocessor switches, macro constants and external functions that the
sources use but do not define.  Each field carries the name it has in the
source. -/
structure Env where
  /-- Whether `ENABLE_COMMON_SSH` is defined. -/
  ENABLE_COMMON_SSH : Bool
  /-- Whether `HAVE_SETTERS_GETTERS` is defined. -/
  HAVE_SETTERS_GETTERS : Bool
  /-- Whether `FreeRDP_VideoCapture` is defined. -/
  FreeRDP_VideoCapture : Bool
  /-- Whether `HAVE_RDPSETTINGS_ALLOWUNANOUNCEDORDERSFROMSERVER` is defined. -/
  HAVE_RDPSETTINGS_ALLOWUNANOUNCEDORDERSFROMSERVER : Bool
  GUAC_RDP_ARGV_DOMAIN : String
  GUAC_RDP_ARGV_USERNAME : String
  GUAC_RDP_ARGV_PASSWORD : String
  RDP_DEFAULT_PORT : Int
  RDP_DEFAULT_VMCONNECT_PORT : Int
  RDP_DEFAULT_TIMEOUT : Int
  RDP_DEFAULT_WIDTH : Int
  RDP_DEFAULT_HEIGHT : Int
  RDP_DEFAULT_DEPTH : Int
  RDP_GFX_REQUIRED_DEPTH : Int
  RDP_DEFAULT_SFTP_TIMEOUT : Int
  RDP_CLIENT_HOSTNAME_SIZE : Nat
  GUAC_RDP_DEFAULT_RECORDING_NAME : String
  GUAC_DEFAULT_KEYMAP : String
  GUAC_COMMON_CLIPBOARD_MIN_LENGTH : Int
  GUAC_COMMON_CLIPBOARD_MAX_LENGTH : Int
  GUAC_WOL_LOCAL_IPV4_BROADCAST : String
  GUAC_WOL_PORT : Int
  GUAC_WOL_DEFAULT_BOOT_WAIT_TIME : Int
  PERF_FLAG_NONE : Nat
  PERF_DISABLE_WALLPAPER : Nat
  PERF_DISABLE_THEMING : Nat
  PERF_ENABLE_FONT_SMOOTHING : Nat
  PERF_DISABLE_FULLWINDOWDRAG : Nat
  PERF_ENABLE_DESKTOP_COMPOSITION : Nat
  PERF_DISABLE_MENUANIMATIONS : Nat
  CONNECTION_TYPE_LAN : Nat
  ENCRYPTION_LEVEL_CLIENT_COMPATIBLE : Nat
  ENCRYPTION_METHOD_40BIT : Nat
  ENCRYPTION_METHOD_128BIT : Nat
  ENCRYPTION_METHOD_FIPS : Nat
  GLYPH_SUPPORT_NONE : Nat
  GLYPH_SUPPORT_FULL : Nat
  OSMAJORTYPE_UNSPECIFIED : Nat
  OSMINORTYPE_UNSPECIFIED : Nat
  /-- Result of `guac_fips_enabled()`. -/
  guac_fips_enabled : Bool
  /-- The function `guac_rdp_suggest_resolution` of `resolution.c`. -/
  guac_rdp_suggest_resolution : guac_user → Int
  /-- The function `guac_rdp_keymap_find`; `none` is the NULL result. -/
  guac_rdp_keymap_find : String → Option guac_rdp_keymap
  /-- The keymap that `guac_rdp_keymap_find (GUAC_DEFAULT_KEYMAP)` yields; the
  generated keymap table always holds it. -/
  default_keymap : guac_rdp_keymap
  /-- The function `guac_split`. -/
  guac_split : String → Char → List String
  /-- The function `guac_strndup`: a copy of at most the given number of bytes. -/
  guac_strndup : String → Nat → String

/-! ## The parameter table and its index enumeration (`settings.c`, lines 56-741) -/

/-- The array `GUAC_RDP_CLIENT_ARGS`: the names before the NULL terminator, in
the order of the source. -/
def GUAC_RDP_CLIENT_ARGS (E : Env) : List String :=
  [ "hostname",
    "port",
    "timeout",
    E.GUAC_RDP_ARGV_DOMAIN,
    E.GUAC_RDP_ARGV_USERNAME,
    E.GUAC_RDP_ARGV_PASSWORD,
    "width",
    "height",
    "dpi",
    "initial-program",
    "color-depth",
    "disable-audio",
    "enable-printing",
    "printer-name",
    "enable-drive",
    "drive-name",
    "drive-path",
    "create-drive-path",
    "disable-download",
    "disable-upload",
    "console",
    "console-audio",
    "server-layout",
    "security",
    "ignore-cert",
    "cert-tofu",
    "cert-fingerprints",
    "disable-auth",
    "remote-app",
    "remote-app-dir",
    "remote-app-args",
    "static-channels",
    "client-name",
    "enable-wallpaper",
    "enable-theming",
    "enable-font-smoothing",
    "enable-full-window-drag",
    "enable-desktop-composition",
    "enable-menu-animations",
    "disable-bitmap-caching",
    "disable-offscreen-caching",
    "disable-glyph-caching",
    "disable-gfx",
    "preconnection-id",
    "preconnection-blob",
    "timezone" ]
  ++ (if E.ENABLE_COMMON_SSH then
  [ "enable-sftp",
    "sftp-hostname",
    "sftp-host-key",
    "sftp-port",
    "sftp-timeout",
    "sftp-username",
    "sftp-password",
    "sftp-private-key",
    "sftp-passphrase",
    "sftp-public-key",
    "sftp-directory",
    "sftp-root-directory",
    "sftp-server-alive-interval",
    "sftp-disable-download",
    "sftp-disable-upload" ] else [])
  ++
  [ "recording-path",
    "recording-name",
    "recording-exclude-output",
    "recording-exclude-mouse",
    "recording-exclude-touch",
    "recording-include-keys",
    "create-recording-path",
    "recording-write-existing",
    "resize-method",
    "enable-audio-input",
    "enable-webcam",
    "enable-touch",
    "enable-webcam",
    "read-only",
    "gateway-hostname",
    "gateway-port",
    "gateway-domain",
    "gateway-username",
    "gateway-password",
    "load-balance-info",
    "clipboard-buffer-size",
    "disable-copy",
    "disable-paste",
    "wol-send-packet",
    "wol-mac-addr",
    "wol-broadcast-addr",
    "wol-udp-port",
    "wol-wait-time",
    "force-lossless",
    "normalize-clipboard" ]

/-- The enumerators of `enum RDP_ARGS_IDX` other than the final
`RDP_ARGS_COUNT`. -/
inductive RDP_ARGS_IDX where
  | IDX_HOSTNAME
  | IDX_PORT
  | IDX_TIMEOUT
  | IDX_DOMAIN
  | IDX_USERNAME
  | IDX_PASSWORD
  | IDX_WIDTH
  | IDX_HEIGHT
  | IDX_DPI
  | IDX_INITIAL_PROGRAM
  | IDX_COLOR_DEPTH
  | IDX_DISABLE_AUDIO
  | IDX_ENABLE_PRINTING
  | IDX_PRINTER_NAME
  | IDX_ENABLE_DRIVE
  | IDX_DRIVE_NAME
  | IDX_DRIVE_PATH
  | IDX_CREATE_DRIVE_PATH
  | IDX_DISABLE_DOWNLOAD
  | IDX_DISABLE_UPLOAD
  | IDX_CONSOLE
  | IDX_CONSOLE_AUDIO
  | IDX_SERVER_LAYOUT
  | IDX_SECURITY
  | IDX_IGNORE_CERT
  | IDX_CERTIFICATE_TOFU
  | IDX_CERTIFICATE_FINGERPRINTS
  | IDX_DISABLE_AUTH
  | IDX_REMOTE_APP
  | IDX_REMOTE_APP_DIR
  | IDX_REMOTE_APP_ARGS
  | IDX_STATIC_CHANNELS
  | IDX_CLIENT_NAME
  | IDX_ENABLE_WALLPAPER
  | IDX_ENABLE_THEMING
  | IDX_ENABLE_FONT_SMOOTHING
  | IDX_ENABLE_FULL_WINDOW_DRAG
  | IDX_ENABLE_DESKTOP_COMPOSITION
  | IDX_ENABLE_MENU_ANIMATIONS
  | IDX_DISABLE_BITMAP_CACHING
  | IDX_DISABLE_OFFSCREEN_CACHING
  | IDX_DISABLE_GLYPH_CACHING
  | IDX_DISABLE_GFX
  | IDX_PRECONNECTION_ID
  | IDX_PRECONNECTION_BLOB
  | IDX_TIMEZONE
  | IDX_ENABLE_SFTP
  | IDX_SFTP_HOSTNAME
  | IDX_SFTP_HOST_KEY
  | IDX_SFTP_PORT
  | IDX_SFTP_TIMEOUT
  | IDX_SFTP_USERNAME
  | IDX_SFTP_PASSWORD
  | IDX_SFTP_PRIVATE_KEY
  | IDX_SFTP_PASSPHRASE
  | IDX_SFTP_PUBLIC_KEY
  | IDX_SFTP_DIRECTORY
  | IDX_SFTP_ROOT_DIRECTORY
  | IDX_SFTP_SERVER_ALIVE_INTERVAL
  | IDX_SFTP_DISABLE_DOWNLOAD
  | IDX_SFTP_DISABLE_UPLOAD
  | IDX_RECORDING_PATH
  | IDX_RECORDING_NAME
  | IDX_RECORDING_EXCLUDE_OUTPUT
  | IDX_RECORDING_EXCLUDE_MOUSE
  | IDX_RECORDING_EXCLUDE_TOUCH
  | IDX_RECORDING_INCLUDE_KEYS
  | IDX_CREATE_RECORDING_PATH
  | IDX_RECORDING_WRITE_EXISTING
  | IDX_RESIZE_METHOD
  | IDX_ENABLE_AUDIO_INPUT
  | IDX_ENABLE_WEBCAM
  | IDX_ENABLE_TOUCH
  | IDX_READ_ONLY
  | IDX_GATEWAY_HOSTNAME
  | IDX_GATEWAY_PORT
  | IDX_GATEWAY_DOMAIN
  | IDX_GATEWAY_USERNAME
  | IDX_GATEWAY_PASSWORD
  | IDX_LOAD_BALANCE_INFO
  | IDX_CLIPBOARD_BUFFER_SIZE
  | IDX_DISABLE_COPY
  | IDX_DISABLE_PASTE
  | IDX_WOL_SEND_PACKET
  | IDX_WOL_MAC_ADDR
  | IDX_WOL_BROADCAST_ADDR
  | IDX_WOL_UDP_PORT
  | IDX_WOL_WAIT_TIME
  | IDX_FORCE_LOSSLESS
  | IDX_NORMALIZE_CLIPBOARD
  deriving DecidableEq, Repr

open RDP_ARGS_IDX

/-- The enumerators that the compiler sees, in declaration order: those between
`#ifdef ENABLE_COMMON_SSH` and `#endif` exist only when the switch is defined. -/
def RDP_ARGS_IDX_declared (E : Env) : List RDP_ARGS_IDX :=
  [ IDX_HOSTNAME, IDX_PORT, IDX_TIMEOUT, IDX_DOMAIN, IDX_USERNAME, IDX_PASSWORD,
    IDX_WIDTH, IDX_HEIGHT, IDX_DPI, IDX_INITIAL_PROGRAM, IDX_COLOR_DEPTH,
    IDX_DISABLE_AUDIO , IDX_ENABLE_PRINTING, IDX_PRINTER_NAME, IDX_ENABLE_DRIVE,
    IDX_DRIVE_NAME, IDX_DRIVE_PATH, IDX_CREATE_DRIVE_PATH, IDX_DISABLE_DOWNLOAD,
    IDX_DISABLE_UPLOAD, IDX_CONSOLE, IDX_CONSOLE_AUDIO , IDX_SERVER_LAYOUT,
    IDX_SECURITY, IDX_IGNORE_CERT, IDX_CERTIFICATE_TOFU,
    IDX_CERTIFICATE_FINGERPRINTS, IDX_DISABLE_AUTH, IDX_REMOTE_APP,
    IDX_REMOTE_APP_DIR, IDX_REMOTE_APP_ARGS, IDX_STATIC_CHANNELS,
    IDX_CLIENT_NAME, IDX_ENABLE_WALLPAPER, IDX_ENABLE_THEMING,
    IDX_ENABLE_FONT_SMOOTHING, IDX_ENABLE_FULL_WINDOW_DRAG,
    IDX_ENABLE_DESKTOP_COMPOSITION, IDX_ENABLE_MENU_ANIMATIONS,
    IDX_DISABLE_BITMAP_CACHING, IDX_DISABLE_OFFSCREEN_CACHING,
    IDX_DISABLE_GLYPH_CACHING, IDX_DISABLE_GFX, IDX_PRECONNECTION_ID,
    IDX_PRECONNECTION_BLOB, IDX_TIMEZONE ]
  ++ (if E.ENABLE_COMMON_SSH then
  [ IDX_ENABLE_SFTP, IDX_SFTP_HOSTNAME, IDX_SFTP_HOST_KEY, IDX_SFTP_PORT,
    IDX_SFTP_TIMEOUT, IDX_SFTP_USERNAME, IDX_SFTP_PASSWORD,
    IDX_SFTP_PRIVATE_KEY, IDX_SFTP_PASSPHRASE, IDX_SFTP_PUBLIC_KEY,
    IDX_SFTP_DIRECTORY, IDX_SFTP_ROOT_DIRECTORY,
    IDX_SFTP_SERVER_ALIVE_INTERVAL, IDX_SFTP_DISABLE_DOWNLOAD,
    IDX_SFTP_DISABLE_UPLOAD ] else [])
  ++
  [ IDX_RECORDING_PATH, IDX_RECORDING_NAME, IDX_RECORDING_EXCLUDE_OUTPUT,
    IDX_RECORDING_EXCLUDE_MOUSE, IDX_RECORDING_EXCLUDE_TOUCH,
    IDX_RECORDING_INCLUDE_KEYS, IDX_CREATE_RECORDING_PATH,
    IDX_RECORDING_WRITE_EXISTING, IDX_RESIZE_METHOD, IDX_ENABLE_AUDIO_INPUT,
    IDX_ENABLE_WEBCAM, IDX_ENABLE_TOUCH, IDX_READ_ONLY, IDX_GATEWAY_HOSTNAME,
    IDX_GATEWAY_PORT, IDX_GATEWAY_DOMAIN, IDX_GATEWAY_USERNAME,
    IDX_GATEWAY_PASSWORD, IDX_LOAD_BALANCE_INFO, IDX_CLIPBOARD_BUFFER_SIZE,
    IDX_DISABLE_COPY, IDX_DISABLE_PASTE, IDX_WOL_SEND_PACKET, IDX_WOL_MAC_ADDR,
    IDX_WOL_BROADCAST_ADDR, IDX_WOL_UDP_PORT, IDX_WOL_WAIT_TIME,
    IDX_FORCE_LOSSLESS, IDX_NORMALIZE_CLIPBOARD ]

/-- The integer value of an enumerator: its position among the declared
enumerators, counted from zero. -/
def RDP_ARGS_IDX.val (E : Env) (i : RDP_ARGS_IDX) : Nat :=
  (RDP_ARGS_IDX_declared E).indexOf i

/-- The enumerator `RDP_ARGS_COUNT`, which closes the enumeration: its value is
the number of enumerators before it. -/
def RDP_ARGS_COUNT (E : Env) : Nat := (RDP_ARGS_IDX_declared E).length

/-! ## Library routines used by the resolver -/

/-- The C library predicate `isspace` in the "C" locale. -/
def isspace (c : Char) : Bool :=
  c.toNat = 32 || (9 ≤ c.toNat && c.toNat ≤ 13)

/-- The C library predicate `isdigit`. -/
def isdigit (c : Char) : Bool :=
  48 ≤ c.toNat && c.toNat ≤ 57

/-- Value of the longest run of decimal digits at the front of `cs`, continuing
from `acc`. -/
def leading_digits (acc : Nat) : List Char → Nat
  | [] => acc
  | c :: cs => if isdigit c then leading_digits (acc * 10 + (c.toNat - 48)) cs else acc

/-- Smallest value of a C `long` (64 bits). -/
def LONG_MIN : Int := -9223372036854775808

/-- Largest value of a C `long` (64 bits). -/
def LONG_MAX : Int := 9223372036854775807

/-- The value that `strtol` returns for a number that it has read: a number
outside the range of `long` gives `LONG_MIN` or `LONG_MAX`. -/
def strtol_clamp (x : Int) : Int :=
  if x < LONG_MIN then LONG_MIN else if x > LONG_MAX then LONG_MAX else x

/-- The C library function `atoi`, which is `(int) strtol (s, NULL, 10)`:
leading white space is skipped, an optional sign is read, then the longest run
of digits; a string without digits gives 0.  The number read is brought into
the range of `long` by `strtol` and then converted to `int` by wrap-around. -/
def atoi (s : String) : Int :=
  match s.data.dropWhile isspace with
  | [] => 0
  | c :: cs =>
    if c = '-' then to_int (strtol_clamp (- (leading_digits 0 cs : Int)))
    else if c = '+' then to_int (strtol_clamp (leading_digits 0 cs))
    else to_int (strtol_clamp (leading_digits 0 (c :: cs)))

/-- What `strtol (value, &end, 10)` reads when it consumes the whole string:
optional white space, an optional sign and at least one digit, nothing after
the digits.  `none` when it stops early or reads no digit. -/
def strtol_whole (s : String) : Option Int :=
  match s.data.dropWhile isspace with
  | [] => none
  | c :: cs =>
    let body := if c = '-' ∨ c = '+' then cs else c :: cs
    if body ≠ [] ∧ body.all isdigit then
      some (if c = '-' then - (leading_digits 0 body : Int) else (leading_digits 0 body : Int))
    else none

/-- Modelled from the spec: `guac_user_parse_args_string` belongs to libguac and
is not among the sources.  Per-field resolution takes the explicit value if the
slot is non-empty and the default otherwise; the default may be NULL. -/
def guac_user_parse_args_string (argv : List String) (index : Nat)
    (default_value : Option String) : Option String :=
  let value := argv.getD index ""
  if value = "" then default_value else some value

/-- Modelled from the spec: `guac_user_parse_args_int` belongs to libguac and is
not among the sources.  A blank slot gives the default, a slot holding a valid
decimal integer within the range of `int` gives that integer, and an invalid
value degrades to the default. -/
def guac_user_parse_args_int (argv : List String) (index : Nat)
    (default_value : Int) : Int :=
  let value := argv.getD index ""
  if value = "" then default_value
  else
    match strtol_whole value with
    | some parsed_value =>
      if parsed_value < INT_MIN ∨ parsed_value > INT_MAX then default_value
      else parsed_value
    | none => default_value

/-- Modelled from the spec: `guac_user_parse_args_boolean` belongs to libguac
and is not among the sources.  A blank slot gives the default, "true" gives
true, "false" gives false, and an invalid value degrades to the default. -/
def guac_user_parse_args_boolean (argv : List String) (index : Nat)
    (default_value : Bool) : Bool :=
  let value := argv.getD index ""
  if value = "" then default_value
  else if value = "true" then true
  else if value = "false" then false
  else default_value

/-! ## The settings record -/

/-- The enumeration `guac_rdp_security`. -/
inductive guac_rdp_security where
  | GUAC_SECURITY_RDP
  | GUAC_SECURITY_TLS
  | GUAC_SECURITY_NLA
  | GUAC_SECURITY_EXTENDED_NLA
  | GUAC_SECURITY_VMCONNECT
  | GUAC_SECURITY_ANY
  deriving DecidableEq, Repr

/-- The enumeration `guac_rdp_resize_method`. -/
inductive guac_rdp_resize_method where
  | GUAC_RESIZE_NONE
  | GUAC_RESIZE_DISPLAY_UPDATE
  | GUAC_RESIZE_RECONNECT
  deriving DecidableEq, Repr

open guac_rdp_security guac_rdp_resize_method

/-- The fields of `guac_rdp_settings` that `settings.c` assigns or reads.  The
SFTP fields exist in the C structure only with `ENABLE_COMMON_SSH`; without it
they keep the values given here by `guac_mem_zalloc`. -/
structure guac_rdp_settings where
  console : Bool
  console_audio : Bool
  ignore_certificate : Bool
  certificate_tofu : Bool
  certificate_fingerprints : Option String
  disable_authentication : Bool
  security_mode : guac_rdp_security
  hostname : Option String
  port : Int
  timeout : Int
  resolution : Int
  width : Int
  height : Int
  lossless : Bool
  domain : Option String
  username : Option String
  password : Option String
  read_only : Bool
  client_name : Option String
  initial_program : Option String
  remote_app : Option String
  remote_app_dir : Option String
  remote_app_args : Option String
  svc_names : Option (List String)
  wallpaper_enabled : Bool
  theming_enabled : Bool
  font_smoothing_enabled : Bool
  full_window_drag_enabled : Bool
  desktop_composition_enabled : Bool
  menu_animations_enabled : Bool
  disable_bitmap_caching : Bool
  disable_offscreen_caching : Bool
  disable_glyph_caching : Bool
  preconnection_id : Int
  preconnection_blob : Option String
  audio_enabled : Bool
  printing_enabled : Bool
  printer_name : Option String
  drive_enabled : Bool
  drive_name : Option String
  drive_path : Option String
  create_drive_path : Bool
  disable_download : Bool
  disable_upload : Bool
  server_layout : guac_rdp_keymap
  timezone : Option String
  enable_sftp : Bool
  sftp_hostname : Option String
  sftp_host_key : Option String
  sftp_port : Option String
  sftp_timeout : Int
  sftp_username : Option String
  sftp_password : Option String
  sftp_private_key : Option String
  sftp_passphrase : Option String
  sftp_public_key : Option String
  sftp_directory : Option String
  sftp_root_directory : Option String
  sftp_server_alive_interval : Int
  sftp_disable_download : Bool
  sftp_disable_upload : Bool
  recording_path : Option String
  recording_name : Option String
  recording_exclude_output : Bool
  recording_exclude_mouse : Bool
  recording_exclude_touch : Bool
  recording_include_keys : Bool
  create_recording_path : Bool
  recording_write_existing : Bool
  resize_method : guac_rdp_resize_method
  enable_gfx : Bool
  color_depth : Int
  enable_touch : Bool
  enable_audio_input : Bool
  enable_webcam : Bool
  gateway_hostname : Option String
  gateway_port : Int
  gateway_domain : Option String
  gateway_username : Option String
  gateway_password : Option String
  load_balance_info : Option String
  clipboard_buffer_size : Int
  disable_copy : Bool
  disable_paste : Bool
  normalize_clipboard : Bool
  clipboard_crlf : Bool
  wol_send_packet : Bool
  wol_mac_addr : Option String
  wol_broadcast_addr : Option String
  wol_udp_port : Nat
  wol_wait_time : Int

/-! ## The resolver `guac_rdp_parse_args` (`settings.c`, lines 743-1403) -/

/-- Whether a quotient of the geometry derivation of `guac_rdp_parse_args`
(lines 870-872 and 889-891) does not fit `int`: the reported resolution is -1
and the product of the reported width or of the reported height with the
resolution in use, as an `int`, is `INT_MIN`. -/
def quotient_overflows (E : Env) (user : guac_user) (argv : List String) : Prop :=
  user.optimal_resolution = -1
  ∧ (to_int (user.optimal_width
          * guac_user_parse_args_int argv (RDP_ARGS_IDX.val E IDX_DPI)
              (E.guac_rdp_suggest_resolution user)) = INT_MIN
      ∨ to_int (user.optimal_height
          * guac_user_parse_args_int argv (RDP_ARGS_IDX.val E IDX_DPI)
              (E.guac_rdp_suggest_resolution user)) = INT_MIN)

/-- The function `guac_rdp_parse_args`.  `Except.ok none` is the NULL result,
`Except.ok (some settings)` a returned record, `Except.error` an execution
that stops at a division without result.  The bindings follow the assignments of the source in
their order; `argv` is read at the positions given by `RDP_ARGS_IDX`. -/
def guac_rdp_parse_args (E : Env) (user : guac_user) (argc : Int)
    (argv : List String) : Except Fault (Option guac_rdp_settings) :=
  let I := RDP_ARGS_IDX.val E
  let arg := fun (i : RDP_ARGS_IDX) => argv.getD (I i) ""
  /- Validate arg count -/
  if argc ≠ (RDP_ARGS_COUNT E : Int) then Except.ok none
  else
  let console := guac_user_parse_args_boolean argv (I IDX_CONSOLE) false
  let console_audio := guac_user_parse_args_boolean argv (I IDX_CONSOLE_AUDIO ) false
  let ignore_certificate := guac_user_parse_args_boolean argv (I IDX_IGNORE_CERT) false
  let certificate_tofu := guac_user_parse_args_boolean argv (I IDX_CERTIFICATE_TOFU) false
  let certificate_fingerprints :=
    guac_user_parse_args_string argv (I IDX_CERTIFICATE_FINGERPRINTS) none
  let disable_authentication := guac_user_parse_args_boolean argv (I IDX_DISABLE_AUTH) false
  /- Security mode -/
  let security_mode :=
    if arg IDX_SECURITY = "nla" then GUAC_SECURITY_NLA
    else if arg IDX_SECURITY = "nla-ext" then GUAC_SECURITY_EXTENDED_NLA
    else if arg IDX_SECURITY = "tls" then GUAC_SECURITY_TLS
    else if arg IDX_SECURITY = "rdp" then GUAC_SECURITY_RDP
    else if arg IDX_SECURITY = "vmconnect" then GUAC_SECURITY_VMCONNECT
    else if arg IDX_SECURITY = "any" then GUAC_SECURITY_ANY
    else GUAC_SECURITY_ANY
  let hostname := guac_user_parse_args_string argv (I IDX_HOSTNAME) (some "")
  /- If port specified, use it, otherwise use an appropriate default -/
  let port := guac_user_parse_args_int argv (I IDX_PORT)
    (if security_mode = GUAC_SECURITY_VMCONNECT then E.RDP_DEFAULT_VMCONNECT_PORT
     else E.RDP_DEFAULT_PORT)
  let timeout := guac_user_parse_args_int argv (I IDX_TIMEOUT) E.RDP_DEFAULT_TIMEOUT
  /- Use suggested resolution unless overridden -/
  let resolution := guac_user_parse_args_int argv (I IDX_DPI)
    (E.guac_rdp_suggest_resolution user)
  /- Use optimal width unless overridden -/
  match c_mul_div user.optimal_width resolution user.optimal_resolution with
  | Except.error fault => Except.error fault
  | Except.ok derived_width =>
  let given_width := if arg IDX_WIDTH ≠ "" then atoi (arg IDX_WIDTH) else derived_width
  /- Use default width if given width is invalid. -/
  let valid_width := if given_width ≤ 0 then E.RDP_DEFAULT_WIDTH else given_width
  /- Round width down to nearest multiple of 4 -/
  let width := c_and_not_3 valid_width
  /- Use optimal height unless overridden -/
  match c_mul_div user.optimal_height resolution user.optimal_resolution with
  | Except.error fault => Except.error fault
  | Except.ok derived_height =>
  let given_height := if arg IDX_HEIGHT ≠ "" then atoi (arg IDX_HEIGHT) else derived_height
  /- Use default height if given height is invalid. -/
  let height := if given_height ≤ 0 then E.RDP_DEFAULT_HEIGHT else given_height
  let lossless := guac_user_parse_args_boolean argv (I IDX_FORCE_LOSSLESS) false
  let domain := guac_user_parse_args_string argv (I IDX_DOMAIN) none
  let username := guac_user_parse_args_string argv (I IDX_USERNAME) none
  let password := guac_user_parse_args_string argv (I IDX_PASSWORD) none
  let read_only := guac_user_parse_args_boolean argv (I IDX_READ_ONLY) false
  let client_name := guac_user_parse_args_string argv (I IDX_CLIENT_NAME) (some "Guacamole RDP")
  let initial_program := guac_user_parse_args_string argv (I IDX_INITIAL_PROGRAM) none
  let remote_app := guac_user_parse_args_string argv (I IDX_REMOTE_APP) none
  let remote_app_dir := guac_user_parse_args_string argv (I IDX_REMOTE_APP_DIR) none
  let remote_app_args := guac_user_parse_args_string argv (I IDX_REMOTE_APP_ARGS) none
  /- Static virtual channels -/
  let svc_names :=
    if arg IDX_STATIC_CHANNELS ≠ "" then some (E.guac_split (arg IDX_STATIC_CHANNELS) ',')
    else none
  /- Performance flags -/
  let wallpaper_enabled := guac_user_parse_args_boolean argv (I IDX_ENABLE_WALLPAPER) false
  let theming_enabled := guac_user_parse_args_boolean argv (I IDX_ENABLE_THEMING) false
  let font_smoothing_enabled :=
    guac_user_parse_args_boolean argv (I IDX_ENABLE_FONT_SMOOTHING) false
  let full_window_drag_enabled :=
    guac_user_parse_args_boolean argv (I IDX_ENABLE_FULL_WINDOW_DRAG) false
  let desktop_composition_enabled :=
    guac_user_parse_args_boolean argv (I IDX_ENABLE_DESKTOP_COMPOSITION) false
  let menu_animations_enabled :=
    guac_user_parse_args_boolean argv (I IDX_ENABLE_MENU_ANIMATIONS) false
  let disable_bitmap_caching :=
    guac_user_parse_args_boolean argv (I IDX_DISABLE_BITMAP_CACHING) false
  let disable_offscreen_caching :=
    guac_user_parse_args_boolean argv (I IDX_DISABLE_OFFSCREEN_CACHING) false
  /- The glyph cache MUST NOT be used; the parsed parameter only selects whether
  a debug message is logged. -/
  let disable_glyph_caching := true
  /- Preconnection ID -/
  let preconnection_id :=
    if arg IDX_PRECONNECTION_ID ≠ "" then
      if atoi (arg IDX_PRECONNECTION_ID) < 0 then -1 else atoi (arg IDX_PRECONNECTION_ID)
    else -1
  /- Preconnection BLOB -/
  let preconnection_blob :=
    if arg IDX_PRECONNECTION_BLOB ≠ "" then some (arg IDX_PRECONNECTION_BLOB) else none
  let audio_enabled := ! guac_user_parse_args_boolean argv (I IDX_DISABLE_AUDIO ) false
  let printing_enabled := guac_user_parse_args_boolean argv (I IDX_ENABLE_PRINTING) false
  let printer_name :=
    guac_user_parse_args_string argv (I IDX_PRINTER_NAME) (some "Guacamole Printer")
  let drive_enabled := guac_user_parse_args_boolean argv (I IDX_ENABLE_DRIVE) false
  let drive_name :=
    guac_user_parse_args_string argv (I IDX_DRIVE_NAME) (some "Guacamole Filesystem")
  let drive_path := guac_user_parse_args_string argv (I IDX_DRIVE_PATH) (some "")
  let create_drive_path := guac_user_parse_args_boolean argv (I IDX_CREATE_DRIVE_PATH) false
  let disable_download := guac_user_parse_args_boolean argv (I IDX_DISABLE_DOWNLOAD) false
  let disable_upload := guac_user_parse_args_boolean argv (I IDX_DISABLE_UPLOAD) false
  /- Pick keymap based on argument; if no keymap requested, use default -/
  let requested_layout :=
    if arg IDX_SERVER_LAYOUT ≠ "" then E.guac_rdp_keymap_find (arg IDX_SERVER_LAYOUT)
    else none
  let server_layout :=
    match requested_layout with
    | some keymap => keymap
    | none => E.default_keymap
  /- Timezone if provided by client, or use handshake version -/
  let timezone := guac_user_parse_args_string argv (I IDX_TIMEZONE) user.timezone
  /- SFTP settings, compiled only with ENABLE_COMMON_SSH -/
  let ssh := E.ENABLE_COMMON_SSH
  let enable_sftp := ssh && guac_user_parse_args_boolean argv (I IDX_ENABLE_SFTP) false
  let sftp_hostname :=
    if ssh then guac_user_parse_args_string argv (I IDX_SFTP_HOSTNAME) hostname else none
  let sftp_host_key :=
    if ssh then guac_user_parse_args_string argv (I IDX_SFTP_HOST_KEY) none else none
  let sftp_port :=
    if ssh then guac_user_parse_args_string argv (I IDX_SFTP_PORT) (some "22") else none
  let sftp_timeout :=
    if ssh then guac_user_parse_args_int argv (I IDX_SFTP_TIMEOUT) E.RDP_DEFAULT_SFTP_TIMEOUT
    else 0
  let sftp_username :=
    if ssh then
      guac_user_parse_args_string argv (I IDX_SFTP_USERNAME)
        (some (match username with | some name => name | none => ""))
    else none
  let sftp_password :=
    if ssh then guac_user_parse_args_string argv (I IDX_SFTP_PASSWORD) (some "") else none
  let sftp_private_key :=
    if ssh then guac_user_parse_args_string argv (I IDX_SFTP_PRIVATE_KEY) none else none
  let sftp_passphrase :=
    if ssh then guac_user_parse_args_string argv (I IDX_SFTP_PASSPHRASE) (some "") else none
  let sftp_public_key :=
    if ssh then guac_user_parse_args_string argv (I IDX_SFTP_PUBLIC_KEY) none else none
  let sftp_directory :=
    if ssh then guac_user_parse_args_string argv (I IDX_SFTP_DIRECTORY) none else none
  let sftp_root_directory :=
    if ssh then guac_user_parse_args_string argv (I IDX_SFTP_ROOT_DIRECTORY) (some "/")
    else none
  let sftp_server_alive_interval :=
    if ssh then guac_user_parse_args_int argv (I IDX_SFTP_SERVER_ALIVE_INTERVAL) 0 else 0
  let sftp_disable_download :=
    ssh && guac_user_parse_args_boolean argv (I IDX_SFTP_DISABLE_DOWNLOAD) false
  let sftp_disable_upload :=
    ssh && guac_user_parse_args_boolean argv (I IDX_SFTP_DISABLE_UPLOAD) false
  /- Session recording -/
  let recording_path := guac_user_parse_args_string argv (I IDX_RECORDING_PATH) none
  let recording_name :=
    guac_user_parse_args_string argv (I IDX_RECORDING_NAME)
      (some E.GUAC_RDP_DEFAULT_RECORDING_NAME)
  let recording_exclude_output :=
    guac_user_parse_args_boolean argv (I IDX_RECORDING_EXCLUDE_OUTPUT) false
  let recording_exclude_mouse :=
    guac_user_parse_args_boolean argv (I IDX_RECORDING_EXCLUDE_MOUSE) false
  let recording_exclude_touch :=
    guac_user_parse_args_boolean argv (I IDX_RECORDING_EXCLUDE_TOUCH) false
  let recording_include_keys :=
    guac_user_parse_args_boolean argv (I IDX_RECORDING_INCLUDE_KEYS) false
  let create_recording_path :=
    guac_user_parse_args_boolean argv (I IDX_CREATE_RECORDING_PATH) false
  let recording_write_existing :=
    guac_user_parse_args_boolean argv (I IDX_RECORDING_WRITE_EXISTING) false
  /- Resize method -/
  let resize_method :=
    if arg IDX_RESIZE_METHOD = "" then GUAC_RESIZE_NONE
    else if arg IDX_RESIZE_METHOD = "reconnect" then GUAC_RESIZE_RECONNECT
    else if arg IDX_RESIZE_METHOD = "display-update" then GUAC_RESIZE_DISPLAY_UPDATE
    else GUAC_RESIZE_NONE
  /- RDP Graphics Pipeline enable/disable -/
  let enable_gfx := ! guac_user_parse_args_boolean argv (I IDX_DISABLE_GFX) false
  /- Session color depth -/
  let color_depth := guac_user_parse_args_int argv (I IDX_COLOR_DEPTH)
    (if enable_gfx then E.RDP_GFX_REQUIRED_DEPTH else E.RDP_DEFAULT_DEPTH)
  let enable_touch := guac_user_parse_args_boolean argv (I IDX_ENABLE_TOUCH) false
  let enable_audio_input := guac_user_parse_args_boolean argv (I IDX_ENABLE_AUDIO_INPUT) false
  let enable_webcam := guac_user_parse_args_boolean argv (I IDX_ENABLE_WEBCAM) false
  /- Gateway -/
  let gateway_hostname := guac_user_parse_args_string argv (I IDX_GATEWAY_HOSTNAME) none
  let gateway_port := guac_user_parse_args_int argv (I IDX_GATEWAY_PORT) 443
  let gateway_domain := guac_user_parse_args_string argv (I IDX_GATEWAY_DOMAIN) none
  let gateway_username := guac_user_parse_args_string argv (I IDX_GATEWAY_USERNAME) none
  let gateway_password := guac_user_parse_args_string argv (I IDX_GATEWAY_PASSWORD) none
  let load_balance_info := guac_user_parse_args_string argv (I IDX_LOAD_BALANCE_INFO) none
  /- Clipboard buffer size, brought into the permitted range -/
  let given_clipboard_size := guac_user_parse_args_int argv (I IDX_CLIPBOARD_BUFFER_SIZE) 0
  let clipboard_buffer_size :=
    if given_clipboard_size < E.GUAC_COMMON_CLIPBOARD_MIN_LENGTH then
      E.GUAC_COMMON_CLIPBOARD_MIN_LENGTH
    else if given_clipboard_size > E.GUAC_COMMON_CLIPBOARD_MAX_LENGTH then
      E.GUAC_COMMON_CLIPBOARD_MAX_LENGTH
    else given_clipboard_size
  let disable_copy := guac_user_parse_args_boolean argv (I IDX_DISABLE_COPY) false
  let disable_paste := guac_user_parse_args_boolean argv (I IDX_DISABLE_PASTE) false
  /- Clipboard line endings: (normalize_clipboard, clipboard_crlf) -/
  let normalize_clipboard :=
    if arg IDX_NORMALIZE_CLIPBOARD = "unix" then true
    else if arg IDX_NORMALIZE_CLIPBOARD = "windows" then true
    else if arg IDX_NORMALIZE_CLIPBOARD = "preserve" then false
    else false
  let clipboard_crlf :=
    if arg IDX_NORMALIZE_CLIPBOARD = "unix" then false
    else if arg IDX_NORMALIZE_CLIPBOARD = "windows" then true
    else if arg IDX_NORMALIZE_CLIPBOARD = "preserve" then false
    else false
  /- Parse Wake-on-LAN (WoL) settings -/
  let wol_requested := guac_user_parse_args_boolean argv (I IDX_WOL_SEND_PACKET) false
  /- If WoL has been requested but no MAC address given, WoL will not be sent. -/
  let wol_send_packet :=
    if wol_requested then (if arg IDX_WOL_MAC_ADDR = "" then false else wol_requested)
    else wol_requested
  let wol_mac_addr :=
    if wol_requested then guac_user_parse_args_string argv (I IDX_WOL_MAC_ADDR) none
    else none
  let wol_broadcast_addr :=
    if wol_requested then
      guac_user_parse_args_string argv (I IDX_WOL_BROADCAST_ADDR)
        (some E.GUAC_WOL_LOCAL_IPV4_BROADCAST)
    else none
  let wol_udp_port :=
    if wol_requested then
      ((guac_user_parse_args_int argv (I IDX_WOL_UDP_PORT) E.GUAC_WOL_PORT) % 65536).toNat
    else 0
  let wol_wait_time :=
    if wol_requested then
      guac_user_parse_args_int argv (I IDX_WOL_WAIT_TIME) E.GUAC_WOL_DEFAULT_BOOT_WAIT_TIME
    else 0
  /- Success -/
  Except.ok (some
    { console, console_audio, ignore_certificate, certificate_tofu,
      certificate_fingerprints, disable_authentication, security_mode, hostname,
      port, timeout, resolution, width, height, lossless, domain, username,
      password, read_only, client_name, initial_program, remote_app,
      remote_app_dir, remote_app_args, svc_names, wallpaper_enabled,
      theming_enabled, font_smoothing_enabled, full_window_drag_enabled,
      desktop_composition_enabled, menu_animations_enabled,
      disable_bitmap_caching, disable_offscreen_caching, disable_glyph_caching,
      preconnection_id, preconnection_blob, audio_enabled, printing_enabled,
      printer_name, drive_enabled, drive_name, drive_path, create_drive_path,
      disable_download, disable_upload, server_layout, timezone, enable_sftp,
      sftp_hostname, sftp_host_key, sftp_port, sftp_timeout, sftp_username,
      sftp_password, sftp_private_key, sftp_passphrase, sftp_public_key,
      sftp_directory, sftp_root_directory, sftp_server_alive_interval,
      sftp_disable_download, sftp_disable_upload, recording_path,
      recording_name, recording_exclude_output, recording_exclude_mouse,
      recording_exclude_touch, recording_include_keys, create_recording_path,
      recording_write_existing, resize_method, enable_gfx, color_depth,
      enable_touch, enable_audio_input, enable_webcam, gateway_hostname,
      gateway_port, gateway_domain, gateway_username, gateway_password,
      load_balance_info, clipboard_buffer_size, disable_copy, disable_paste,
      normalize_clipboard, clipboard_crlf, wol_send_packet, wol_mac_addr,
      wol_broadcast_addr, wol_udp_port, wol_wait_time })

/-! ## The projector `guac_rdp_push_settings` (`settings.c`, lines 1473-2028) -/

/-- The fields of the FreeRDP structure `rdpSettings` that `settings.c`
assigns.  A `UINT32` field holds a natural number below 2^32, a string field is
a nullable pointer. -/
structure rdpSettings where
  Domain : Option String
  Username : Option String
  Password : Option String
  ServerHostname : Option String
  ServerPort : Nat
  TcpAckTimeout : Nat
  DesktopWidth : Nat
  DesktopHeight : Nat
  ColorDepth : Nat
  AlternateShell : Option String
  KeyboardLayout : Nat
  PerformanceFlags : Nat
  ConnectionType : Nat
  FrameMarkerCommandEnabled : Bool
  SurfaceFrameMarkerEnabled : Bool
  FastPathInput : Bool
  FastPathOutput : Bool
  SupportGraphicsPipeline : Bool
  RemoteFxCodec : Bool
  SoftwareGdi : Bool
  AllowFontSmoothing : Bool
  DisableWallpaper : Bool
  DisableFullWindowDrag : Bool
  DisableMenuAnims : Bool
  DisableThemes : Bool
  AllowDesktopComposition : Bool
  ClientHostname : Option String
  ConsoleSession : Bool
  RemoteConsoleAudio : Bool
  AudioPlayback : Bool
  AudioCapture : Bool
  VideoCapture : Bool
  SupportDisplayControl : Bool
  DeviceRedirection : Bool
  RdpSecurity : Bool
  TlsSecurity : Bool
  NlaSecurity : Bool
  ExtSecurity : Bool
  UseRdpSecurityLayer : Bool
  EncryptionLevel : Nat
  EncryptionMethods : Nat
  VmConnectMode : Bool
  Authentication : Bool
  IgnoreCertificate : Bool
  AutoAcceptCertificate : Bool
  CertificateAcceptedFingerprints : Option String
  Workarea : Bool
  RemoteApplicationMode : Bool
  RemoteAppLanguageBarSupported : Bool
  RemoteApplicationProgram : Option String
  ShellWorkingDirectory : Option String
  RemoteApplicationCmdLine : Option String
  NegotiateSecurityLayer : Bool
  SendPreconnectionPdu : Bool
  PreconnectionId : Nat
  PreconnectionBlob : Option String
  GatewayEnabled : Bool
  GatewayHostname : Option String
  GatewayPort : Nat
  GatewayUseSameCredentials : Bool
  GatewayDomain : Option String
  GatewayUsername : Option String
  GatewayPassword : Option String
  LoadBalanceInfo : Option String
  LoadBalanceInfoLength : Nat
  BitmapCacheEnabled : Bool
  OffscreenSupportLevel : Nat
  GlyphSupportLevel : Nat
  OsMajorType : Nat
  OsMinorType : Nat
  DesktopResize : Bool
  AllowUnanouncedOrdersFromServer : Bool

/-- What `guac_rdp_push_settings` writes to: the engine configuration
`GUAC_RDP_CONTEXT(rdp)->settings` and the process environment variable `TZ`. -/
structure freerdp where
  settings : rdpSettings
  TZ : Option String

/-- The function `guac_rdp_get_performance_flags`. -/
def guac_rdp_get_performance_flags (E : Env) (guac_settings : guac_rdp_settings) : Nat :=
  /- No performance flags initially -/
  let flags := E.PERF_FLAG_NONE
  /- Desktop wallpaper -/
  let flags := if ! guac_settings.wallpaper_enabled then flags ||| E.PERF_DISABLE_WALLPAPER else flags
  /- Theming of desktop/windows -/
  let flags := if ! guac_settings.theming_enabled then flags ||| E.PERF_DISABLE_THEMING else flags
  /- Font smoothing (ClearType) -/
  let flags :=
    if guac_settings.font_smoothing_enabled then flags ||| E.PERF_ENABLE_FONT_SMOOTHING else flags
  /- Full-window drag -/
  let flags :=
    if ! guac_settings.full_window_drag_enabled then flags ||| E.PERF_DISABLE_FULLWINDOWDRAG
    else flags
  /- Desktop composition (Aero) -/
  let flags :=
    if guac_settings.desktop_composition_enabled then
      flags ||| E.PERF_ENABLE_DESKTOP_COMPOSITION
    else flags
  /- Menu animations -/
  let flags :=
    if ! guac_settings.menu_animations_enabled then flags ||| E.PERF_DISABLE_MENUANIMATIONS
    else flags
  flags

/-- The function `guac_rdp_get_width`. -/
def guac_rdp_get_width (rdp : freerdp) : Int := to_int rdp.settings.DesktopWidth

/-- The function `guac_rdp_get_height`. -/
def guac_rdp_get_height (rdp : freerdp) : Int := to_int rdp.settings.DesktopHeight

/-- The function `guac_rdp_get_depth`. -/
def guac_rdp_get_depth (rdp : freerdp) : Int := to_int rdp.settings.ColorDepth

/-- The `switch (guac_settings->security_mode)` of `guac_rdp_push_settings` in
the body compiled with `HAVE_SETTERS_GETTERS` (lines 1645-1716). -/
def push_security_setters (E : Env) (security_mode : guac_rdp_security) (r : rdpSettings) :
    rdpSettings :=
  match security_mode with
  /- Legacy RDP encryption -/
  | GUAC_SECURITY_RDP =>
    { r with
      RdpSecurity := true, TlsSecurity := false, NlaSecurity := false,
      ExtSecurity := false, UseRdpSecurityLayer := true,
      EncryptionLevel := E.ENCRYPTION_LEVEL_CLIENT_COMPATIBLE,
      EncryptionMethods :=
        E.ENCRYPTION_METHOD_40BIT ||| E.ENCRYPTION_METHOD_128BIT ||| E.ENCRYPTION_METHOD_FIPS }
  /- TLS encryption -/
  | GUAC_SECURITY_TLS =>
    { r with
      RdpSecurity := false, TlsSecurity := true, NlaSecurity := false, ExtSecurity := false }
  /- Network level authentication -/
  | GUAC_SECURITY_NLA =>
    { r with
      RdpSecurity := false, TlsSecurity := false, NlaSecurity := true, ExtSecurity := false }
  /- Extended network level authentication -/
  | GUAC_SECURITY_EXTENDED_NLA =>
    { r with
      RdpSecurity := false, TlsSecurity := false, NlaSecurity := false, ExtSecurity := true }
  /- Hyper-V "VMConnect" negotiation mode -/
  | GUAC_SECURITY_VMCONNECT =>
    { r with
      RdpSecurity := false, TlsSecurity := true, NlaSecurity := true, ExtSecurity := false,
      VmConnectMode := true }
  /- All security types; NLA is explicitly disabled if FIPS mode is enabled -/
  | GUAC_SECURITY_ANY =>
    { r with
      RdpSecurity := true, TlsSecurity := true,
      NlaSecurity := if E.guac_fips_enabled then false else true,
      ExtSecurity := false }

/-- The `switch (guac_settings->security_mode)` of `guac_rdp_push_settings` in
the body compiled without `HAVE_SETTERS_GETTERS` (lines 1887-1959). -/
def push_security_fields (E : Env) (security_mode : guac_rdp_security) (r : rdpSettings) :
    rdpSettings :=
  match security_mode with
  /- Legacy RDP encryption -/
  | GUAC_SECURITY_RDP =>
    { r with
      RdpSecurity := true, TlsSecurity := false, NlaSecurity := false,
      ExtSecurity := false, UseRdpSecurityLayer := true,
      EncryptionLevel := E.ENCRYPTION_LEVEL_CLIENT_COMPATIBLE,
      EncryptionMethods :=
        E.ENCRYPTION_METHOD_40BIT ||| E.ENCRYPTION_METHOD_128BIT ||| E.ENCRYPTION_METHOD_FIPS }
  /- TLS encryption -/
  | GUAC_SECURITY_TLS =>
    { r with
      RdpSecurity := false, TlsSecurity := true, NlaSecurity := false, ExtSecurity := false }
  /- Network level authentication -/
  | GUAC_SECURITY_NLA =>
    { r with
      RdpSecurity := false, TlsSecurity := false, NlaSecurity := true, ExtSecurity := false }
  /- Extended network level authentication -/
  | GUAC_SECURITY_EXTENDED_NLA =>
    { r with
      RdpSecurity := false, TlsSecurity := false, NlaSecurity := false, ExtSecurity := true }
  /- Hyper-V "VMConnect" negotiation mode -/
  | GUAC_SECURITY_VMCONNECT =>
    { r with
      RdpSecurity := false, TlsSecurity := true, NlaSecurity := true, ExtSecurity := false,
      VmConnectMode := true }
  /- All security types; NLA is explicitly disabled if FIPS mode is enabled -/
  | GUAC_SECURITY_ANY =>
    { r with
      RdpSecurity := true, TlsSecurity := true,
      NlaSecurity := if E.guac_fips_enabled then false else true,
      ExtSecurity := false }

/-- The timezone redirection of `guac_rdp_push_settings`: `setenv ("TZ", ..., 1)`
when a timezone is present. -/
def push_timezone (guac_settings : guac_rdp_settings) (TZ : Option String) : Option String :=
  match guac_settings.timezone with
  | some timezone => some timezone
  | none => TZ

/-- The body of `guac_rdp_push_settings` compiled with `HAVE_SETTERS_GETTERS`
(lines 1548-1786): every assignment is a `freerdp_settings_set_*` call. -/
def guac_rdp_push_settings_setters (E : Env) (guac_settings : guac_rdp_settings)
    (rdp : freerdp) : freerdp :=
  let r := rdp.settings
  /- Authentication, connection, session, performance flags, frame markers -/
  let r := { r with
    Domain := guac_settings.domain,
    Username := guac_settings.username,
    Password := guac_settings.password,
    ServerHostname := guac_settings.hostname,
    ServerPort := to_uint32 guac_settings.port,
    DesktopWidth := to_uint32 guac_settings.width,
    DesktopHeight := to_uint32 guac_settings.height,
    ColorDepth := to_uint32 guac_settings.color_depth,
    AlternateShell := guac_settings.initial_program,
    KeyboardLayout := guac_settings.server_layout.freerdp_keyboard_layout,
    PerformanceFlags := guac_rdp_get_performance_flags E guac_settings,
    ConnectionType := E.CONNECTION_TYPE_LAN,
    FrameMarkerCommandEnabled := true,
    SurfaceFrameMarkerEnabled := true,
    FastPathInput := true,
    FastPathOutput := true }
  /- Enable RemoteFX / Graphics Pipeline: assignments made if enable_gfx -/
  let r := { r with
    SupportGraphicsPipeline :=
      if guac_settings.enable_gfx then true else r.SupportGraphicsPipeline,
    RemoteFxCodec := if guac_settings.enable_gfx then true else r.RemoteFxCodec,
    ColorDepth :=
      if guac_settings.enable_gfx then to_uint32 E.RDP_GFX_REQUIRED_DEPTH else r.ColorDepth,
    SoftwareGdi := if guac_settings.enable_gfx then true else r.SoftwareGdi }
  /- Individual flags -/
  let r := { r with
    AllowFontSmoothing := guac_settings.font_smoothing_enabled,
    DisableWallpaper := ! guac_settings.wallpaper_enabled,
    DisableFullWindowDrag := ! guac_settings.full_window_drag_enabled,
    DisableMenuAnims := ! guac_settings.menu_animations_enabled,
    DisableThemes := ! guac_settings.theming_enabled,
    AllowDesktopComposition := guac_settings.desktop_composition_enabled }
  /- Client name: assigned if client_name is not NULL -/
  let r := { r with
    ClientHostname :=
      match guac_settings.client_name with
      | some client_name => some (E.guac_strndup client_name E.RDP_CLIENT_HOSTNAME_SIZE)
      | none => r.ClientHostname }
  /- Console, audio, audio capture, webcam redirection, Display Update channel -/
  let r := { r with
    ConsoleSession := guac_settings.console,
    RemoteConsoleAudio := guac_settings.console_audio,
    AudioPlayback := guac_settings.audio_enabled,
    AudioCapture := guac_settings.enable_audio_input,
    VideoCapture := if E.FreeRDP_VideoCapture then guac_settings.enable_webcam else r.VideoCapture,
    SupportDisplayControl :=
      decide (guac_settings.resize_method = GUAC_RESIZE_DISPLAY_UPDATE) }
  /- Timezone redirection -/
  let TZ := push_timezone guac_settings rdp.TZ
  /- Device redirection -/
  let r := { r with
    DeviceRedirection :=
      (guac_settings.audio_enabled || guac_settings.drive_enabled
        || guac_settings.printing_enabled || guac_settings.enable_webcam) }
  /- Security -/
  let r := push_security_setters E guac_settings.security_mode r
  let r := { r with
    Authentication := ! guac_settings.disable_authentication,
    IgnoreCertificate := guac_settings.ignore_certificate,
    AutoAcceptCertificate := guac_settings.certificate_tofu,
    CertificateAcceptedFingerprints :=
      if guac_settings.certificate_fingerprints ≠ none then
        guac_settings.certificate_fingerprints
      else r.CertificateAcceptedFingerprints }
  /- RemoteApp: assignments made if remote_app is not NULL -/
  let remote_app_given := guac_settings.remote_app.isSome
  let r := { r with
    Workarea := if remote_app_given then true else r.Workarea,
    RemoteApplicationMode := if remote_app_given then true else r.RemoteApplicationMode,
    RemoteAppLanguageBarSupported :=
      if remote_app_given then true else r.RemoteAppLanguageBarSupported,
    RemoteApplicationProgram :=
      if remote_app_given then guac_settings.remote_app else r.RemoteApplicationProgram,
    ShellWorkingDirectory :=
      if remote_app_given then guac_settings.remote_app_dir else r.ShellWorkingDirectory,
    RemoteApplicationCmdLine :=
      if remote_app_given then guac_settings.remote_app_args else r.RemoteApplicationCmdLine }
  /- Preconnection ID: assignments made if preconnection_id != -1 -/
  let id_given := decide (guac_settings.preconnection_id ≠ -1)
  let r := { r with
    NegotiateSecurityLayer := if id_given then false else r.NegotiateSecurityLayer,
    SendPreconnectionPdu := if id_given then true else r.SendPreconnectionPdu,
    PreconnectionId :=
      if id_given then to_uint32 guac_settings.preconnection_id else r.PreconnectionId }
  /- Preconnection BLOB: assignments made if preconnection_blob is not NULL -/
  let blob_given := guac_settings.preconnection_blob.isSome
  let r := { r with
    NegotiateSecurityLayer := if blob_given then false else r.NegotiateSecurityLayer,
    SendPreconnectionPdu := if blob_given then true else r.SendPreconnectionPdu,
    PreconnectionBlob :=
      if blob_given then guac_settings.preconnection_blob else r.PreconnectionBlob }
  /- Enable use of RD gateway if a gateway hostname is provided -/
  let gateway_given := guac_settings.gateway_hostname.isSome
  let r := { r with
    GatewayEnabled := if gateway_given then true else r.GatewayEnabled,
    GatewayHostname :=
      if gateway_given then guac_settings.gateway_hostname else r.GatewayHostname,
    GatewayPort :=
      if gateway_given then to_uint32 guac_settings.gateway_port else r.GatewayPort,
    GatewayUseSameCredentials :=
      if gateway_given then false else r.GatewayUseSameCredentials,
    GatewayDomain := if gateway_given then guac_settings.gateway_domain else r.GatewayDomain,
    GatewayUsername :=
      if gateway_given then guac_settings.gateway_username else r.GatewayUsername,
    GatewayPassword :=
      if gateway_given then guac_settings.gateway_password else r.GatewayPassword }
  /- Store load balance info (and calculate length) if provided -/
  let r := { r with
    LoadBalanceInfo :=
      match guac_settings.load_balance_info with
      | some load_balance_info => some load_balance_info
      | none => r.LoadBalanceInfo,
    LoadBalanceInfoLength :=
      match guac_settings.load_balance_info with
      | some load_balance_info => to_uint32 load_balance_info.utf8ByteSize
      | none => r.LoadBalanceInfoLength }
  let r := { r with
    BitmapCacheEnabled := ! guac_settings.disable_bitmap_caching,
    OffscreenSupportLevel := if ! guac_settings.disable_offscreen_caching then 1 else 0,
    GlyphSupportLevel :=
      if ! guac_settings.disable_glyph_caching then E.GLYPH_SUPPORT_FULL
      else E.GLYPH_SUPPORT_NONE,
    OsMajorType := E.OSMAJORTYPE_UNSPECIFIED,
    OsMinorType := E.OSMINORTYPE_UNSPECIFIED,
    DesktopResize := true }
  /- Do not consider server use of unannounced orders to be a fatal error -/
  let r := { r with
    AllowUnanouncedOrdersFromServer :=
      if E.HAVE_RDPSETTINGS_ALLOWUNANOUNCEDORDERSFROMSERVER then true
      else r.AllowUnanouncedOrdersFromServer }
  { settings := r, TZ := TZ }

/-- The body of `guac_rdp_push_settings` compiled without `HAVE_SETTERS_GETTERS`
(lines 1789-2026): the fields of `rdpSettings` are assigned directly. -/
def guac_rdp_push_settings_fields (E : Env) (guac_settings : guac_rdp_settings)
    (rdp : freerdp) : freerdp :=
  let r := rdp.settings
  /- Authentication, connection, session, performance flags, frame markers -/
  let r := { r with
    Domain := guac_settings.domain,
    Username := guac_settings.username,
    Password := guac_settings.password,
    ServerHostname := guac_settings.hostname,
    ServerPort := to_uint32 guac_settings.port,
    TcpAckTimeout := to_uint32 (to_int (guac_settings.timeout * 1000)),
    ColorDepth := to_uint32 guac_settings.color_depth,
    DesktopWidth := to_uint32 guac_settings.width,
    DesktopHeight := to_uint32 guac_settings.height,
    AlternateShell := guac_settings.initial_program,
    KeyboardLayout := guac_settings.server_layout.freerdp_keyboard_layout,
    PerformanceFlags := guac_rdp_get_performance_flags E guac_settings,
    ConnectionType := E.CONNECTION_TYPE_LAN,
    FrameMarkerCommandEnabled := true,
    SurfaceFrameMarkerEnabled := true,
    FastPathInput := true,
    FastPathOutput := true }
  /- Enable RemoteFX / Graphics Pipeline: assignments made if enable_gfx -/
  let r := { r with
    SupportGraphicsPipeline :=
      if guac_settings.enable_gfx then true else r.SupportGraphicsPipeline,
    RemoteFxCodec := if guac_settings.enable_gfx then true else r.RemoteFxCodec,
    ColorDepth :=
      if guac_settings.enable_gfx then to_uint32 E.RDP_GFX_REQUIRED_DEPTH else r.ColorDepth,
    SoftwareGdi := if guac_settings.enable_gfx then true else r.SoftwareGdi }
  /- Individual flags -/
  let r := { r with
    AllowFontSmoothing := guac_settings.font_smoothing_enabled,
    DisableWallpaper := ! guac_settings.wallpaper_enabled,
    DisableFullWindowDrag := ! guac_settings.full_window_drag_enabled,
    DisableMenuAnims := ! guac_settings.menu_animations_enabled,
    DisableThemes := ! guac_settings.theming_enabled,
    AllowDesktopComposition := guac_settings.desktop_composition_enabled }
  /- Client name: assigned if client_name is not NULL -/
  let r := { r with
    ClientHostname :=
      match guac_settings.client_name with
      | some client_name => some (E.guac_strndup client_name E.RDP_CLIENT_HOSTNAME_SIZE)
      | none => r.ClientHostname }
  /- Console, audio, audio capture, webcam redirection, Display Update channel -/
  let r := { r with
    ConsoleSession := guac_settings.console,
    RemoteConsoleAudio := guac_settings.console_audio,
    AudioPlayback := guac_settings.audio_enabled,
    AudioCapture := guac_settings.enable_audio_input,
    VideoCapture := if E.FreeRDP_VideoCapture then guac_settings.enable_webcam else r.VideoCapture,
    SupportDisplayControl :=
      decide (guac_settings.resize_method = GUAC_RESIZE_DISPLAY_UPDATE) }
  /- Timezone redirection -/
  let TZ := push_timezone guac_settings rdp.TZ
  /- Device redirection -/
  let r := { r with
    DeviceRedirection :=
      (guac_settings.audio_enabled || guac_settings.drive_enabled
        || guac_settings.printing_enabled || guac_settings.enable_webcam) }
  /- Security -/
  let r := push_security_fields E guac_settings.security_mode r
  let r := { r with
    Authentication := ! guac_settings.disable_authentication,
    IgnoreCertificate := guac_settings.ignore_certificate,
    AutoAcceptCertificate := guac_settings.certificate_tofu,
    CertificateAcceptedFingerprints :=
      if guac_settings.certificate_fingerprints ≠ none then
        guac_settings.certificate_fingerprints
      else r.CertificateAcceptedFingerprints }
  /- RemoteApp: assignments made if remote_app is not NULL -/
  let remote_app_given := guac_settings.remote_app.isSome
  let r := { r with
    Workarea := if remote_app_given then true else r.Workarea,
    RemoteApplicationMode := if remote_app_given then true else r.RemoteApplicationMode,
    RemoteAppLanguageBarSupported :=
      if remote_app_given then true else r.RemoteAppLanguageBarSupported,
    RemoteApplicationProgram :=
      if remote_app_given then guac_settings.remote_app else r.RemoteApplicationProgram,
    ShellWorkingDirectory :=
      if remote_app_given then guac_settings.remote_app_dir else r.ShellWorkingDirectory,
    RemoteApplicationCmdLine :=
      if remote_app_given then guac_settings.remote_app_args else r.RemoteApplicationCmdLine }
  /- Preconnection ID: assignments made if preconnection_id != -1 -/
  let id_given := decide (guac_settings.preconnection_id ≠ -1)
  let r := { r with
    NegotiateSecurityLayer := if id_given then false else r.NegotiateSecurityLayer,
    SendPreconnectionPdu := if id_given then true else r.SendPreconnectionPdu,
    PreconnectionId :=
      if id_given then to_uint32 guac_settings.preconnection_id else r.PreconnectionId }
  /- Preconnection BLOB: assignments made if preconnection_blob is not NULL -/
  let blob_given := guac_settings.preconnection_blob.isSome
  let r := { r with
    NegotiateSecurityLayer := if blob_given then false else r.NegotiateSecurityLayer,
    SendPreconnectionPdu := if blob_given then true else r.SendPreconnectionPdu,
    PreconnectionBlob :=
      if blob_given then guac_settings.preconnection_blob else r.PreconnectionBlob }
  /- Enable use of RD gateway if a gateway hostname is provided -/
  let gateway_given := guac_settings.gateway_hostname.isSome
  let r := { r with
    GatewayEnabled := if gateway_given then true else r.GatewayEnabled,
    GatewayHostname :=
      if gateway_given then guac_settings.gateway_hostname else r.GatewayHostname,
    GatewayPort :=
      if gateway_given then to_uint32 guac_settings.gateway_port else r.GatewayPort,
    GatewayUseSameCredentials :=
      if gateway_given then false else r.GatewayUseSameCredentials,
    GatewayDomain := if gateway_given then guac_settings.gateway_domain else r.GatewayDomain,
    GatewayUsername :=
      if gateway_given then guac_settings.gateway_username else r.GatewayUsername,
    GatewayPassword :=
      if gateway_given then guac_settings.gateway_password else r.GatewayPassword }
  /- Store load balance info (and calculate length) if provided -/
  let r := { r with
    LoadBalanceInfo :=
      match guac_settings.load_balance_info with
      | some load_balance_info => some load_balance_info
      | none => r.LoadBalanceInfo,
    LoadBalanceInfoLength :=
      match guac_settings.load_balance_info with
      | some load_balance_info => to_uint32 load_balance_info.utf8ByteSize
      | none => r.LoadBalanceInfoLength }
  let r := { r with
    BitmapCacheEnabled := ! guac_settings.disable_bitmap_caching,
    OffscreenSupportLevel := if ! guac_settings.disable_offscreen_caching then 1 else 0,
    GlyphSupportLevel :=
      if ! guac_settings.disable_glyph_caching then E.GLYPH_SUPPORT_FULL
      else E.GLYPH_SUPPORT_NONE,
    OsMajorType := E.OSMAJORTYPE_UNSPECIFIED,
    OsMinorType := E.OSMINORTYPE_UNSPECIFIED,
    DesktopResize := true }
  /- Do not consider server use of unannounced orders to be a fatal error -/
  let r := { r with
    AllowUnanouncedOrdersFromServer :=
      if E.HAVE_RDPSETTINGS_ALLOWUNANOUNCEDORDERSFROMSERVER then true
      else r.AllowUnanouncedOrdersFromServer }
  { settings := r, TZ := TZ }

/-- The function `guac_rdp_push_settings`: the preprocessor keeps one of the two
bodies. -/
def guac_rdp_push_settings (E : Env) (guac_settings : guac_rdp_settings)
    (rdp : freerdp) : freerdp :=
  if E.HAVE_SETTERS_GETTERS then guac_rdp_push_settings_setters E guac_settings rdp
  else guac_rdp_push_settings_fields E guac_settings rdp

/-! ## Channel bridges: what the handlers do to the outside -/

/-- The status codes of `guac_protocol_status` that the bridge sends. -/
inductive guac_protocol_status where
  | GUAC_PROTOCOL_STATUS_SUCCESS
  | GUAC_PROTOCOL_STATUS_SERVER_ERROR
  deriving DecidableEq, Repr

open guac_protocol_status

/-- The calls into collaborators that a handler of the channel bridges makes,
in the order in which it makes them. -/
inductive Event where
  /-- The call `guac_rdp_common_svc_write (svc, output)` with the bytes written
  to the stream `output`. -/
  | svc_write (svc : Nat) (output : List Nat)
  /-- The call `guac_protocol_send_ack (socket, stream, message, status)`. -/
  | send_ack (stream_index : Int) (message : String) (status : guac_protocol_status)
  /-- The call `guac_socket_flush (socket)`. -/
  | socket_flush
  /-- The call `Stream_New (NULL, size)`. -/
  | stream_new (size : Int)
  /-- The call `Stream_Free (stream, TRUE)`. -/
  | stream_free
  /-- The call `pthread_mutex_lock (&message_lock)`. -/
  | mutex_lock
  /-- The call `pthread_mutex_unlock (&message_lock)`. -/
  | mutex_unlock
  /-- The call `channel->Write (channel, cbSize, pBuffer, NULL)` with the
  `cbSize` bytes at `pBuffer`. -/
  | channel_write (channel : Nat) (cbSize : Nat) (buffer : List Nat)
  deriving DecidableEq, Repr

/-- The four bytes of a `uint32_t` in memory, least significant byte first (the
byte order of the hosts the sources are built for). -/
def uint32_bytes (x : Nat) : List Nat :=
  [x % 256, x / 256 % 256, x / 65536 % 256, x / 16777216 % 256]

/-! ## The static channel bridge (`channels/webcam.c`, `channels/webcam.h`) -/

/-- The structure `guac_rdp_webcam`; `svc` is the nullable pointer to the
underlying static virtual channel. -/
structure guac_rdp_webcam where
  client : Nat
  svc : Option Nat
  deriving DecidableEq, Repr

/-- The structure `guac_rdp_webcam_frame_header`: four `uint32_t` members. -/
structure guac_rdp_webcam_frame_header where
  width : Nat
  height : Nat
  format : Nat
  length : Nat
  deriving DecidableEq, Repr

/-- The macro `GUAC_RDP_WEBCAM_FORMAT_RGB24`. -/
def GUAC_RDP_WEBCAM_FORMAT_RGB24 : Nat := 0

/-- The value of `sizeof (guac_rdp_webcam_frame_header)`. -/
def sizeof_guac_rdp_webcam_frame_header : Nat := 16

/-- The object representation of a frame header: its members in declaration
order; four members of four bytes leave no padding. -/
def guac_rdp_webcam_frame_header.bytes (header : guac_rdp_webcam_frame_header) : List Nat :=
  uint32_bytes header.width ++ uint32_bytes header.height
    ++ uint32_bytes header.format ++ uint32_bytes header.length

/-- The function `guac_rdp_webcam_alloc`. -/
def guac_rdp_webcam_alloc (client : Nat) : guac_rdp_webcam :=
  { client := client, svc := none }

/-- The function `guac_rdp_webcam_send_frame`: the return value and the calls
made.  `data` is the block that the pointer `data` refers to; the stream
`output` is the sequence of bytes written to it, and the allocation asked of
`Stream_New` is taken to succeed.  The copy `Stream_Write (output, data,
length)` reads the first `length` bytes of the block; the definition describes
the calls in which `length` is the size of that block (a negative `length`,
for which the C copy has no result, is not among them). -/
def guac_rdp_webcam_send_frame (webcam : Option guac_rdp_webcam) (data : List Nat)
    (length width height : Int) : Int × List Event :=
  match webcam with
  | none => (1, [])
  | some webcam =>
    match webcam.svc with
    | none => (1, [])
    | some svc =>
      let packet_size := to_int (sizeof_guac_rdp_webcam_frame_header + length)
      let header : guac_rdp_webcam_frame_header :=
        { width := to_uint32 width,
          height := to_uint32 height,
          format := GUAC_RDP_WEBCAM_FORMAT_RGB24,
          length := to_uint32 length }
      let output := header.bytes
      let output := output ++ data.take length.toNat
      (0, [Event.stream_new packet_size, Event.svc_write svc output])

/-- The handlers that the bridge installs on a stream, and any other handler a
stream may carry. -/
inductive stream_handler where
  | guac_rdp_webcam_blob_handler
  | guac_rdp_webcam_end_handler
  | other (id : Nat)
  deriving DecidableEq, Repr

/-- What the pointer `stream->data` refers to. -/
inductive stream_data where
  | null
  | rdp_client
  | other (id : Nat)
  deriving DecidableEq, Repr

/-- The members of `guac_stream` that the bridge touches. -/
structure guac_stream where
  index : Int
  data : stream_data
  blob_handler : Option stream_handler
  end_handler : Option stream_handler
  deriving DecidableEq, Repr

/-- The part of `guac_rdp_client` that the dynamic bridge uses: the nullable
pointer `webcam_channel` to the connected `IWTSVirtualChannel`. -/
structure guac_rdp_client where
  webcam_channel : Option Nat
  deriving DecidableEq, Repr

/-- Outcome of a stream handler: its return value, the session and the stream
as the call leaves them, and the calls it made. -/
structure handler_result where
  ret : Int
  rdp_client : guac_rdp_client
  stream : guac_stream
  events : List Event
  deriving DecidableEq, Repr

/-- The function `guac_rdp_webcam_handler`. -/
def guac_rdp_webcam_handler (rdp_client : guac_rdp_client) (stream : guac_stream)
    (_mimetype _name : String) : handler_result :=
  /- Accept only if webcam channel is available -/
  match rdp_client.webcam_channel with
  | none =>
    { ret := 0, rdp_client := rdp_client, stream := stream,
      events :=
        [Event.send_ack stream.index "FAIL" GUAC_PROTOCOL_STATUS_SERVER_ERROR,
         Event.socket_flush] }
  | some _ =>
    let stream := { stream with
      data := stream_data.rdp_client,
      blob_handler := some stream_handler.guac_rdp_webcam_blob_handler,
      end_handler := some stream_handler.guac_rdp_webcam_end_handler }
    { ret := 0, rdp_client := rdp_client, stream := stream,
      events :=
        [Event.send_ack stream.index "OK" GUAC_PROTOCOL_STATUS_SUCCESS,
         Event.socket_flush] }

/-- The function `guac_rdp_webcam_blob_handler`, called on a stream whose
`data` is the session (as `guac_rdp_webcam_handler` leaves it).  `data` is the
block that the pointer `data` refers to. -/
def guac_rdp_webcam_blob_handler (rdp_client : guac_rdp_client) (stream : guac_stream)
    (data : List Nat) (length : Int) : handler_result :=
  match rdp_client.webcam_channel with
  | none => { ret := 0, rdp_client := rdp_client, stream := stream, events := [] }
  | some channel =>
    let out := data.take length.toNat
    { ret := 0, rdp_client := rdp_client, stream := stream,
      events :=
        [Event.stream_new length,
         Event.mutex_lock,
         Event.channel_write channel (to_uint32 out.length) out,
         Event.mutex_unlock,
         Event.stream_free] }

/-- The function `guac_rdp_webcam_end_handler`. -/
def guac_rdp_webcam_end_handler (rdp_client : guac_rdp_client) (stream : guac_stream) :
    handler_result :=
  { ret := 0, rdp_client := rdp_client, stream := stream, events := [] }

/-- Sequential calls of `guac_rdp_webcam_handler` on one session, one call per
entry (stream, mimetype, name): each call starts from the session that the
call before it left.  The result is the final session and the outcome of every
call. -/
def webcam_handler_calls (rdp_client : guac_rdp_client) :
    List (guac_stream × String × String) → guac_rdp_client × List handler_result
  | [] => (rdp_client, [])
  | (stream, mimetype, name) :: rest =>
    let result := guac_rdp_webcam_handler rdp_client stream mimetype name
    let later := webcam_handler_calls result.rdp_client rest
    (later.1, result :: later.2)

/-- Sequential calls of `guac_rdp_webcam_blob_handler` on one session, one call
per entry (stream, data, length). -/
def webcam_blob_handler_calls (rdp_client : guac_rdp_client) :
    List (guac_stream × List Nat × Int) → guac_rdp_client × List handler_result
  | [] => (rdp_client, [])
  | (stream, data, length) :: rest =>
    let result := guac_rdp_webcam_blob_handler rdp_client stream data length
    let later := webcam_blob_handler_calls result.rdp_client rest
    (later.1, result :: later.2)

/-- One call of a stream handler of the dynamic bridge, with the session as it
is when the call is made. -/
inductive webcam_stream_call where
  | handler (rdp_client : guac_rdp_client) (stream : guac_stream) (mimetype name : String)
  | blob_handler (rdp_client : guac_rdp_client) (stream : guac_stream) (data : List Nat)
      (length : Int)
  | end_handler (rdp_client : guac_rdp_client) (stream : guac_stream)
  deriving DecidableEq, Repr

/-- The calls that one stream handler call makes. -/
def webcam_stream_call.events : webcam_stream_call → List Event
  | webcam_stream_call.handler rdp_client stream mimetype name =>
    (guac_rdp_webcam_handler rdp_client stream mimetype name).events
  | webcam_stream_call.blob_handler rdp_client stream data length =>
    (guac_rdp_webcam_blob_handler rdp_client stream data length).events
  | webcam_stream_call.end_handler rdp_client stream =>
    (guac_rdp_webcam_end_handler rdp_client stream).events

/-- The calls that a sequence of stream handler calls makes, one handler call
after the other. -/
def webcam_stream_trace : List webcam_stream_call → List Event
  | [] => []
  | call :: rest => call.events ++ webcam_stream_trace rest

/-! ## The plugin of the dynamic channel (`plugins/guacvc/guacvc.c`, `guacvc.h`) -/

/-- The FreeRDP return code `CHANNEL_RC_OK`. -/
def CHANNEL_RC_OK : Nat := 0

/-- The functions of `guacvc.c` that are stored in callback members. -/
inductive vc_function where
  | guac_rdp_vc_data
  | guac_rdp_vc_close
  | guac_rdp_vc_new_connection
  | guac_rdp_vc_initialize
  | guac_rdp_vc_terminated
  deriving DecidableEq, Repr

/-- The structure `guac_rdp_vc_listener_callback`. -/
structure guac_rdp_vc_listener_callback where
  OnNewChannelConnection : Option vc_function
  client : Nat
  deriving DecidableEq, Repr

/-- The structure `guac_rdp_vc_channel_callback`. -/
structure guac_rdp_vc_channel_callback where
  OnDataReceived : Option vc_function
  OnClose : Option vc_function
  channel : Nat
  client : Nat
  deriving DecidableEq, Repr

/-- The structure `guac_rdp_vc_plugin`. -/
structure guac_rdp_vc_plugin where
  Initialize : Option vc_function
  Terminated : Option vc_function
  listener_callback : Option guac_rdp_vc_listener_callback
  client : Nat
  deriving DecidableEq, Repr

/-- The function `guac_rdp_vc_data`: the channel receives no data from the
server. -/
def guac_rdp_vc_data (_cb : guac_rdp_vc_channel_callback) (_stream : List Nat) : Nat :=
  CHANNEL_RC_OK

/-- The function `guac_rdp_vc_close`: the return code and the session as the
call leaves it.  The handle is cleared whatever it holds; the callback record
is freed. -/
def guac_rdp_vc_close (rdp_client : guac_rdp_client) (_vc_cb : guac_rdp_vc_channel_callback) :
    Nat × guac_rdp_client :=
  (CHANNEL_RC_OK, { rdp_client with webcam_channel := none })

/-- The function `guac_rdp_vc_new_connection`: the return code, the session as
the call leaves it and the callback record stored through `ccb`. -/
def guac_rdp_vc_new_connection (rdp_client : guac_rdp_client)
    (listener : guac_rdp_vc_listener_callback) (channel : Nat) :
    Nat × guac_rdp_client × guac_rdp_vc_channel_callback :=
  let channel_cb : guac_rdp_vc_channel_callback :=
    { OnDataReceived := some vc_function.guac_rdp_vc_data,
      OnClose := some vc_function.guac_rdp_vc_close,
      channel := channel,
      client := listener.client }
  (CHANNEL_RC_OK, { rdp_client with webcam_channel := some channel }, channel_cb)

/-- The function `guac_rdp_vc_initialize`: the return code, the plugin record as
the call leaves it and the listener handed to `manager->CreateListener` under
the channel name "WEBCAM". -/
def guac_rdp_vc_initialize (vc_plugin : guac_rdp_vc_plugin) :
    Nat × guac_rdp_vc_plugin × String × guac_rdp_vc_listener_callback :=
  let listener : guac_rdp_vc_listener_callback :=
    { OnNewChannelConnection := some vc_function.guac_rdp_vc_new_connection,
      client := vc_plugin.client }
  (CHANNEL_RC_OK, { vc_plugin with listener_callback := some listener }, "WEBCAM", listener)

/-- The function `guac_rdp_vc_terminated`: the listener callback and then the
plugin record are freed. -/
def guac_rdp_vc_terminated (_vc_plugin : guac_rdp_vc_plugin) : Nat :=
  CHANNEL_RC_OK

/-- The two members of `IDRDYNVC_ENTRY_POINTS` through which `DVCPluginEntry`
reaches the plugin registry of the engine, over a registry state `R`:
`GetPlugin` looks a name up (`none` is NULL), `RegisterPlugin` yields the
registry with the plugin recorded under the name. -/
structure IDRDYNVC_ENTRY_POINTS (R : Type) where
  GetPlugin : R → String → Option guac_rdp_vc_plugin
  RegisterPlugin : R → String → guac_rdp_vc_plugin → R

/-- The function `DVCPluginEntry`: the return code and the registry as the call
leaves it.  `args` is the argument vector that `GetPluginData` yields, and
`guac_rdp_string_to_ptr` the function of `plugins/ptr-string.c`. -/
def DVCPluginEntry {R : Type} (pEntryPoints : IDRDYNVC_ENTRY_POINTS R) (registry : R)
    (guac_rdp_string_to_ptr : String → Nat) (args : List String) : Nat × R :=
  let client := guac_rdp_string_to_ptr (args.getD 1 "")
  match pEntryPoints.GetPlugin registry "guacvc" with
  | none =>
    let vc_plugin : guac_rdp_vc_plugin :=
      { Initialize := some vc_function.guac_rdp_vc_initialize,
        Terminated := some vc_function.guac_rdp_vc_terminated,
        listener_callback := none,
        client := client }
    (CHANNEL_RC_OK, pEntryPoints.RegisterPlugin registry "guacvc" vc_plugin)
  | some _ => (CHANNEL_RC_OK, registry)

/-- A plugin registry that keeps every registration, the latest first, and
looks a name up among them. -/
def list_registry : IDRDYNVC_ENTRY_POINTS (List (String × guac_rdp_vc_plugin)) :=
  { GetPlugin := fun registry name => (registry.find? (fun entry => entry.1 = name)).map Prod.snd,
    RegisterPlugin := fun registry name plugin => (name, plugin) :: registry }

/-- How many plugins a list registry holds under a name. -/
def registered_count (registry : List (String × guac_rdp_vc_plugin)) (name : String) : Nat :=
  (registry.filter (fun entry => entry.1 = name)).length

/-- Whether a call hands bytes to a channel transport. -/
def Event.is_transport_write : Event → Bool
  | Event.svc_write _ _ => true
  | Event.channel_write _ _ _ => true
  | _ => false

/-- Whether a call is `guac_protocol_send_ack`. -/
def Event.is_acknowledgement : Event → Bool
  | Event.send_ack _ _ _ => true
  | _ => false

/-- Whether `message_lock` is held after the calls of a trace, given whether it
is held when the trace starts. -/
def lock_held_after (held : Bool) : List Event → Bool
  | [] => held
  | Event.mutex_lock :: rest => lock_held_after true rest
  | Event.mutex_unlock :: rest => lock_held_after false rest
  | _ :: rest => lock_held_after held rest

/-- The calls of a trace that are made while `message_lock` is held, given
whether it is held when the trace starts; the lock and unlock calls themselves
are not listed. -/
def calls_under_lock (held : Bool) : List Event → List Event
  | [] => []
  | Event.mutex_lock :: rest => calls_under_lock true rest
  | Event.mutex_unlock :: rest => calls_under_lock false rest
  | call :: rest =>
    if held then call :: calls_under_lock held rest else calls_under_lock held rest

/-- The calls of a trace that are made while `message_lock` is not held. -/
def calls_outside_lock (held : Bool) : List Event → List Event
  | [] => []
  | Event.mutex_lock :: rest => calls_outside_lock true rest
  | Event.mutex_unlock :: rest => calls_outside_lock false rest
  | call :: rest =>
    if held then calls_outside_lock held rest else call :: calls_outside_lock held rest

/-- The four security flags of an engine configuration: `RdpSecurity`,
`TlsSecurity`, `NlaSecurity` and `ExtSecurity`, in this order. -/
def rdpSettings.security_flags (r : rdpSettings) : Bool × Bool × Bool × Bool :=
  (r.RdpSecurity, r.TlsSecurity, r.NlaSecurity, r.ExtSecurity)

/-- The performance flag macros of FreeRDP name six different bits:
`PERF_FLAG_NONE` is zero, none of the six flags is zero and no two of them have
a bit in common.  The macros are not among the sources; the values that the RDP
standard dictates for them have this property. -/
def PERF_flags_distinct (E : Env) : Prop :=
  E.PERF_FLAG_NONE = 0
  ∧ List.Pairwise (fun a b => a &&& b = 0)
      [E.PERF_DISABLE_WALLPAPER, E.PERF_DISABLE_THEMING, E.PERF_ENABLE_FONT_SMOOTHING,
       E.PERF_DISABLE_FULLWINDOWDRAG, E.PERF_ENABLE_DESKTOP_COMPOSITION,
       E.PERF_DISABLE_MENUANIMATIONS]
  ∧ ∀ flag ∈
      [E.PERF_DISABLE_WALLPAPER, E.PERF_DISABLE_THEMING, E.PERF_ENABLE_FONT_SMOOTHING,
       E.PERF_DISABLE_FULLWINDOWDRAG, E.PERF_ENABLE_DESKTOP_COMPOSITION,
       E.PERF_DISABLE_MENUANIMATIONS], flag ≠ 0

/-- An environment with the values that the Guacamole and FreeRDP headers give
to the macros, FIPS mode enabled, SFTP support compiled in and a keymap table
that holds the default keymap only. -/
def reference_env : Env :=
  { ENABLE_COMMON_SSH := true,
    HAVE_SETTERS_GETTERS := true,
    FreeRDP_VideoCapture := false,
    HAVE_RDPSETTINGS_ALLOWUNANOUNCEDORDERSFROMSERVER := true,
    GUAC_RDP_ARGV_DOMAIN := "domain",
    GUAC_RDP_ARGV_USERNAME := "username",
    GUAC_RDP_ARGV_PASSWORD := "password",
    RDP_DEFAULT_PORT := 3389,
    RDP_DEFAULT_VMCONNECT_PORT := 2179,
    RDP_DEFAULT_TIMEOUT := 10,
    RDP_DEFAULT_WIDTH := 1024,
    RDP_DEFAULT_HEIGHT := 768,
    RDP_DEFAULT_DEPTH := 16,
    RDP_GFX_REQUIRED_DEPTH := 32,
    RDP_DEFAULT_SFTP_TIMEOUT := 10,
    RDP_CLIENT_HOSTNAME_SIZE := 32,
    GUAC_RDP_DEFAULT_RECORDING_NAME := "recording",
    GUAC_DEFAULT_KEYMAP := "en-us-qwerty",
    GUAC_COMMON_CLIPBOARD_MIN_LENGTH := 262144,
    GUAC_COMMON_CLIPBOARD_MAX_LENGTH := 52428800,
    GUAC_WOL_LOCAL_IPV4_BROADCAST := "255.255.255.255",
    GUAC_WOL_PORT := 9,
    GUAC_WOL_DEFAULT_BOOT_WAIT_TIME := 0,
    PERF_FLAG_NONE := 0,
    PERF_DISABLE_WALLPAPER := 1,
    PERF_DISABLE_THEMING := 8,
    PERF_ENABLE_FONT_SMOOTHING := 128,
    PERF_DISABLE_FULLWINDOWDRAG := 2,
    PERF_ENABLE_DESKTOP_COMPOSITION := 256,
    PERF_DISABLE_MENUANIMATIONS := 4,
    CONNECTION_TYPE_LAN := 6,
    ENCRYPTION_LEVEL_CLIENT_COMPATIBLE := 2,
    ENCRYPTION_METHOD_40BIT := 1,
    ENCRYPTION_METHOD_128BIT := 2,
    ENCRYPTION_METHOD_FIPS := 16,
    GLYPH_SUPPORT_NONE := 0,
    GLYPH_SUPPORT_FULL := 2,
    OSMAJORTYPE_UNSPECIFIED := 0,
    OSMINORTYPE_UNSPECIFIED := 0,
    guac_fips_enabled := true,
    guac_rdp_suggest_resolution := fun _ => 96,
    guac_rdp_keymap_find := fun _ => none,
    default_keymap := { name := "en-us-qwerty", freerdp_keyboard_layout := 1033 },
    guac_split := fun names _ => [names],
    guac_strndup := fun text size => text.take size }

/-- The reference environment built without SFTP support. -/
def reference_env_no_ssh : Env := { reference_env with ENABLE_COMMON_SSH := false }

/-- A user whose client reports 1920x1080 at 96 DPI. -/
def reference_user : guac_user :=
  { optimal_width := 1920, optimal_height := 1080, optimal_resolution := 96, timezone := none }

/-- A user whose client reports a resolution of zero. -/
def zero_resolution_user : guac_user := { reference_user with optimal_resolution := 0 }

/-- A user whose client reports the width 65536 and the resolution -1. -/
def overflow_user : guac_user :=
  { optimal_width := 65536, optimal_height := 1080, optimal_resolution := -1,
    timezone := none }

/-- The argument vector of the correct length in which every string is empty. -/
def blank_args (E : Env) : List String := List.replicate (RDP_ARGS_COUNT E) ""

/-- The argument vector `argv` with the string at position `i` replaced. -/
def set_arg (E : Env) (argv : List String) (i : RDP_ARGS_IDX) (value : String) : List String :=
  argv.set (RDP_ARGS_IDX.val E i) value

/-- An engine configuration in which every field is zero. -/
def zero_rdpSettings : rdpSettings :=
  { Domain := none, Username := none, Password := none, ServerHostname := none,
    ServerPort := 0, TcpAckTimeout := 0, DesktopWidth := 0, DesktopHeight := 0,
    ColorDepth := 0, AlternateShell := none, KeyboardLayout := 0, PerformanceFlags := 0,
    ConnectionType := 0, FrameMarkerCommandEnabled := false,
    SurfaceFrameMarkerEnabled := false, FastPathInput := false, FastPathOutput := false,
    SupportGraphicsPipeline := false, RemoteFxCodec := false, SoftwareGdi := false,
    AllowFontSmoothing := false, DisableWallpaper := false, DisableFullWindowDrag := false,
    DisableMenuAnims := false, DisableThemes := false, AllowDesktopComposition := false,
    ClientHostname := none, ConsoleSession := false, RemoteConsoleAudio := false,
    AudioPlayback := false, AudioCapture := false, VideoCapture := false,
    SupportDisplayControl := false, DeviceRedirection := false, RdpSecurity := false,
    TlsSecurity := false, NlaSecurity := false, ExtSecurity := false,
    UseRdpSecurityLayer := false, EncryptionLevel := 0, EncryptionMethods := 0,
    VmConnectMode := false, Authentication := false, IgnoreCertificate := false,
    AutoAcceptCertificate := false, CertificateAcceptedFingerprints := none,
    Workarea := false, RemoteApplicationMode := false,
    RemoteAppLanguageBarSupported := false, RemoteApplicationProgram := none,
    ShellWorkingDirectory := none, RemoteApplicationCmdLine := none,
    NegotiateSecurityLayer := false, SendPreconnectionPdu := false, PreconnectionId := 0,
    PreconnectionBlob := none, GatewayEnabled := false, GatewayHostname := none,
    GatewayPort := 0, GatewayUseSameCredentials := false, GatewayDomain := none,
    GatewayUsername := none, GatewayPassword := none, LoadBalanceInfo := none,
    LoadBalanceInfoLength := 0, BitmapCacheEnabled := false, OffscreenSupportLevel := 0,
    GlyphSupportLevel := 0, OsMajorType := 0, OsMinorType := 0, DesktopResize := false,
    AllowUnanouncedOrdersFromServer := false }

/-- A FreeRDP instance whose configuration is all zero and a process without `TZ`. -/
def zero_freerdp : freerdp := { settings := zero_rdpSettings, TZ := none }

/-- The reference environment with the projector body that assigns the fields
of `rdpSettings` directly (built without `HAVE_SETTERS_GETTERS`). -/
def reference_env_fields : Env := { reference_env with HAVE_SETTERS_GETTERS := false }

/-- The reference environment with FIPS mode disabled. -/
def reference_env_no_fips : Env := { reference_env with guac_fips_enabled := false }

/-- The settings record that the resolver gives under the reference environment
for the reference user and the blank argument vector. -/
def reference_settings : guac_rdp_settings :=
  { console := false, console_audio := false, ignore_certificate := false,
    certificate_tofu := false, certificate_fingerprints := none,
    disable_authentication := false, security_mode := GUAC_SECURITY_ANY,
    hostname := some "", port := 3389, timeout := 10, resolution := 96, width := 1920,
    height := 1080, lossless := false, domain := none, username := none, password := none,
    read_only := false, client_name := some "Guacamole RDP", initial_program := none,
    remote_app := none, remote_app_dir := none, remote_app_args := none, svc_names := none,
    wallpaper_enabled := false, theming_enabled := false, font_smoothing_enabled := false,
    full_window_drag_enabled := false, desktop_composition_enabled := false,
    menu_animations_enabled := false, disable_bitmap_caching := false,
    disable_offscreen_caching := false, disable_glyph_caching := true,
    preconnection_id := -1, preconnection_blob := none, audio_enabled := true,
    printing_enabled := false, printer_name := some "Guacamole Printer",
    drive_enabled := false, drive_name := some "Guacamole Filesystem",
    drive_path := some "", create_drive_path := false, disable_download := false,
    disable_upload := false,
    server_layout := { name := "en-us-qwerty", freerdp_keyboard_layout := 1033 },
    timezone := none, enable_sftp := false, sftp_hostname := some "", sftp_host_key := none,
    sftp_port := some "22", sftp_timeout := 10, sftp_username := some "",
    sftp_password := some "", sftp_private_key := none, sftp_passphrase := some "",
    sftp_public_key := none, sftp_directory := none, sftp_root_directory := some "/",
    sftp_server_alive_interval := 0, sftp_disable_download := false,
    sftp_disable_upload := false, recording_path := none,
    recording_name := some "recording", recording_exclude_output := false,
    recording_exclude_mouse := false, recording_exclude_touch := false,
    recording_include_keys := false, create_recording_path := false,
    recording_write_existing := false, resize_method := GUAC_RESIZE_NONE,
    enable_gfx := true, color_depth := 32, enable_touch := false,
    enable_audio_input := false, enable_webcam := false, gateway_hostname := none,
    gateway_port := 443, gateway_domain := none, gateway_username := none,
    gateway_password := none, load_balance_info := none, clipboard_buffer_size := 262144,
    disable_copy := false, disable_paste := false, normalize_clipboard := false,
    clipboard_crlf := false, wol_send_packet := false, wol_mac_addr := none,
    wol_broadcast_addr := none, wol_udp_port := 0, wol_wait_time := 0 }

/-! ## Arithmetic of the embedding -/

theorem to_int_of_range (x : Int) (hlo : INT_MIN ≤ x) (hhi : x ≤ INT_MAX) : to_int x = x := by
  unfold INT_MIN at hlo
  unfold INT_MAX at hhi
  unfold to_int
  omega

theorem to_int_range (x : Int) : INT_MIN ≤ to_int x ∧ to_int x ≤ INT_MAX := by
  unfold INT_MIN INT_MAX to_int
  omega

theorem land_clear_low_bits (n : Nat) (hn : n < 4294967296) :
    Nat.land n 4294967292 = n - n % 4 := by
  have key : ∀ a b : Nat, a < 1073741824 → b < 4 →
      Nat.land (4 * a + b) 4294967292 = 4 * a := by
    intro a b ha hb
    apply Nat.eq_of_testBit_eq
    intro j
    have hmask : Nat.testBit 4294967292 j = (decide (j ≥ 2) && decide (j - 2 < 30)) := by
      have h := Nat.testBit_mul_pow_two (i := 2) (a := 2 ^ 30 - 1) (j := j)
      rw [Nat.testBit_two_pow_sub_one] at h
      exact h
    have hn : Nat.testBit (4 * a + b) j
        = if j < 2 then Nat.testBit b j else Nat.testBit a (j - 2) :=
      Nat.testBit_mul_pow_two_add a (i := 2) hb j
    have h4 : Nat.testBit (4 * a) j = (decide (j ≥ 2) && Nat.testBit a (j - 2)) :=
      Nat.testBit_mul_pow_two (i := 2)
    show Nat.testBit ((4 * a + b) &&& 4294967292) j = _
    rw [Nat.testBit_and, hmask, hn, h4]
    by_cases hj : j < 2
    · have : ¬ j ≥ 2 := by omega
      simp [hj, this]
    · have hj2 : j ≥ 2 := by omega
      by_cases hj30 : j - 2 < 30
      · simp [hj, hj2, hj30]
      · have hfalse : Nat.testBit a (j - 2) = false := by
          apply Nat.testBit_lt_two_pow
          calc a < 2 ^ 30 := ha
            _ ≤ 2 ^ (j - 2) := Nat.pow_le_pow_right (by decide) (by omega)
        simp [hj, hfalse]
  have h := key (n / 4) (n % 4) (by omega) (Nat.mod_lt _ (by decide))
  rw [Nat.div_add_mod] at h
  rw [h]
  omega

/-- On a value of type `int`, `x & ~0x3` is `x` rounded down to a multiple of 4. -/
theorem c_and_not_3_eq (x : Int) (hlo : INT_MIN ≤ x) (hhi : x ≤ INT_MAX) :
    c_and_not_3 x = x - x % 4 := by
  unfold INT_MIN at hlo
  unfold INT_MAX at hhi
  have hmask : to_uint32 (~~~ 3) = 4294967292 := by decide
  have hlt : to_uint32 x < 4294967296 := by
    unfold to_uint32
    omega
  unfold c_and_not_3
  rw [hmask, land_clear_low_bits _ hlt]
  unfold to_int to_uint32
  omega

/-! ## The resolver: when it returns -/

theorem parse_args_wrong_count (E : Env) (user : guac_user) (argc : Int) (argv : List String)
    (h : argc ≠ (RDP_ARGS_COUNT E : Int)) :
    guac_rdp_parse_args E user argc argv = Except.ok none := by
  unfold guac_rdp_parse_args
  simp only [h, ne_eq, not_false_eq_true, if_true]

theorem parse_args_zero_resolution (E : Env) (user : guac_user) (argc : Int)
    (argv : List String) (h : argc = (RDP_ARGS_COUNT E : Int))
    (h0 : user.optimal_resolution = 0) :
    guac_rdp_parse_args E user argc argv = Except.error Fault.division_by_zero := by
  unfold guac_rdp_parse_args
  simp only [c_mul_div, h, h0, ne_eq, not_true_eq_false, if_false, if_true]

theorem c_mul_div_ok (a b c : Int) (h0 : c ≠ 0)
    (hq : ¬ (to_int (a * b) = INT_MIN ∧ c = -1)) :
    c_mul_div a b c = Except.ok (to_int (Int.tdiv (to_int (a * b)) c)) := by
  unfold c_mul_div
  rw [if_neg h0, if_neg hq]

theorem parse_args_returns (E : Env) (user : guac_user) (argc : Int) (argv : List String)
    (h : argc = (RDP_ARGS_COUNT E : Int)) (h0 : user.optimal_resolution ≠ 0)
    (hq : ¬ quotient_overflows E user argv) :
    ∃ s, guac_rdp_parse_args E user argc argv = Except.ok (some s) := by
  have hwidth := c_mul_div_ok user.optimal_width
    (guac_user_parse_args_int argv (RDP_ARGS_IDX.val E IDX_DPI)
      (E.guac_rdp_suggest_resolution user)) user.optimal_resolution h0
    (fun hw => hq ⟨hw.2, Or.inl hw.1⟩)
  have hheight := c_mul_div_ok user.optimal_height
    (guac_user_parse_args_int argv (RDP_ARGS_IDX.val E IDX_DPI)
      (E.guac_rdp_suggest_resolution user)) user.optimal_resolution h0
    (fun hh => hq ⟨hh.2, Or.inr hh.1⟩)
  unfold guac_rdp_parse_args
  simp only [hwidth, hheight, h, ne_eq, not_true_eq_false, if_false]
  exact ⟨_, rfl⟩

theorem parse_args_quotient_overflows (E : Env) (user : guac_user) (argc : Int)
    (argv : List String) (h : argc = (RDP_ARGS_COUNT E : Int))
    (hq : quotient_overflows E user argv) :
    guac_rdp_parse_args E user argc argv = Except.error Fault.division_overflow := by
  obtain ⟨hminus, hproduct⟩ := hq
  have h0 : user.optimal_resolution ≠ 0 := by
    rw [hminus]
    decide
  by_cases hw : to_int (user.optimal_width
      * guac_user_parse_args_int argv (RDP_ARGS_IDX.val E IDX_DPI)
          (E.guac_rdp_suggest_resolution user)) = INT_MIN
  · have hwidth : c_mul_div user.optimal_width
        (guac_user_parse_args_int argv (RDP_ARGS_IDX.val E IDX_DPI)
          (E.guac_rdp_suggest_resolution user)) user.optimal_resolution
        = Except.error Fault.division_overflow := by
      unfold c_mul_div
      rw [if_neg h0, if_pos ⟨hw, hminus⟩]
    unfold guac_rdp_parse_args
    simp only [hwidth, h, ne_eq, not_true_eq_false, if_false]
  · have hh := hproduct.resolve_left hw
    have hwidth := c_mul_div_ok user.optimal_width
      (guac_user_parse_args_int argv (RDP_ARGS_IDX.val E IDX_DPI)
        (E.guac_rdp_suggest_resolution user)) user.optimal_resolution h0
      (fun hboth => hw hboth.1)
    have hheight : c_mul_div user.optimal_height
        (guac_user_parse_args_int argv (RDP_ARGS_IDX.val E IDX_DPI)
          (E.guac_rdp_suggest_resolution user)) user.optimal_resolution
        = Except.error Fault.division_overflow := by
      unfold c_mul_div
      rw [if_neg h0, if_pos ⟨hh, hminus⟩]
    unfold guac_rdp_parse_args
    simp only [hwidth, hheight, h, ne_eq, not_true_eq_false, if_false]

theorem parse_args_some_inv (E : Env) (user : guac_user) (argc : Int) (argv : List String)
    (s : guac_rdp_settings)
    (h : guac_rdp_parse_args E user argc argv = Except.ok (some s)) :
    argc = (RDP_ARGS_COUNT E : Int) ∧ user.optimal_resolution ≠ 0 := by
  by_cases hc : argc = (RDP_ARGS_COUNT E : Int)
  · by_cases h0 : user.optimal_resolution = 0
    · rw [parse_args_zero_resolution E user argc argv hc h0] at h
      cases h
    · exact ⟨hc, h0⟩
  · rw [parse_args_wrong_count E user argc argv hc] at h
    cases h

theorem atoi_range (text : String) : INT_MIN ≤ atoi text ∧ atoi text ≤ INT_MAX := by
  unfold atoi
  split
  · unfold INT_MIN INT_MAX
    omega
  · split
    · exact to_int_range _
    · split
      · exact to_int_range _
      · exact to_int_range _

theorem c_mul_div_range (a b c v : Int) (h : c_mul_div a b c = Except.ok v) :
    INT_MIN ≤ v ∧ v ≤ INT_MAX := by
  unfold c_mul_div at h
  split at h
  · cases h
  · split at h
    · cases h
    · injection h with h
      subst h
      exact to_int_range _

/-- The width of a returned record: the candidate (the explicit width when the
string is non-empty, the derived width otherwise), replaced by the default when
it is not positive, with its two low bits cleared. -/
theorem parse_args_width (E : Env) (user : guac_user) (argc : Int) (argv : List String)
    (s : guac_rdp_settings)
    (h : guac_rdp_parse_args E user argc argv = Except.ok (some s)) :
    ∃ derived candidate : Int,
      c_mul_div user.optimal_width
          (guac_user_parse_args_int argv (RDP_ARGS_IDX.val E IDX_DPI)
            (E.guac_rdp_suggest_resolution user))
          user.optimal_resolution = Except.ok derived
      ∧ candidate
          = (if argv.getD (RDP_ARGS_IDX.val E IDX_WIDTH) "" ≠ ""
              then atoi (argv.getD (RDP_ARGS_IDX.val E IDX_WIDTH) "") else derived)
      ∧ s.width = c_and_not_3 (if candidate ≤ 0 then E.RDP_DEFAULT_WIDTH else candidate) := by
  unfold guac_rdp_parse_args at h
  simp only [] at h
  split at h
  · cases h
  · split at h
    · cases h
    · rename_i derived hderived
      split at h
      · cases h
      · injection h with h
        injection h with h
        subst h
        exact ⟨derived, _, hderived, rfl, rfl⟩

/-! ## Values of the enumerators -/

theorem RDP_ARGS_IDX_declared_ssh (E : Env) (h : E.ENABLE_COMMON_SSH = true) :
    RDP_ARGS_IDX_declared E = RDP_ARGS_IDX_declared reference_env := by
  unfold RDP_ARGS_IDX_declared
  rw [h]
  rfl

theorem RDP_ARGS_IDX_declared_no_ssh (E : Env) (h : E.ENABLE_COMMON_SSH = false) :
    RDP_ARGS_IDX_declared E = RDP_ARGS_IDX_declared reference_env_no_ssh := by
  unfold RDP_ARGS_IDX_declared
  rw [h]
  rfl

/-- The value of an enumerator depends on the build only through
`ENABLE_COMMON_SSH`. -/
theorem RDP_ARGS_IDX_val_eq (E : Env) (i : RDP_ARGS_IDX) :
    RDP_ARGS_IDX.val E i
      = if E.ENABLE_COMMON_SSH then RDP_ARGS_IDX.val reference_env i
        else RDP_ARGS_IDX.val reference_env_no_ssh i := by
  unfold RDP_ARGS_IDX.val
  cases h : E.ENABLE_COMMON_SSH
  · rw [RDP_ARGS_IDX_declared_no_ssh E h]
    rfl
  · rw [RDP_ARGS_IDX_declared_ssh E h]
    rfl

theorem RDP_ARGS_COUNT_eq (E : Env) :
    RDP_ARGS_COUNT E = if E.ENABLE_COMMON_SSH then 90 else 75 := by
  unfold RDP_ARGS_COUNT
  cases h : E.ENABLE_COMMON_SSH
  · rw [RDP_ARGS_IDX_declared_no_ssh E h]
    rfl
  · rw [RDP_ARGS_IDX_declared_ssh E h]
    rfl

/-! ## Claims about the resolver and the projector -/

/-- C1 (fails on the code): with the required argument count and a client that
reports an optimal resolution of zero, `guac_rdp_parse_args` divides by zero
while deriving the width; it returns neither a settings record nor NULL. -/
theorem parse_args_zero_resolution_no_settings :
    (blank_args reference_env).length = RDP_ARGS_COUNT reference_env
    ∧ guac_rdp_parse_args reference_env zero_resolution_user
        (RDP_ARGS_COUNT reference_env) (blank_args reference_env)
      = Except.error Fault.division_by_zero :=
  ⟨by decide, rfl⟩

/-- C2 (fails on the code): the table `GUAC_RDP_CLIENT_ARGS` holds one name more
than `RDP_ARGS_COUNT`, with and without `ENABLE_COMMON_SSH`, because
"enable-webcam" is listed a second time where the enumeration goes on to
`IDX_READ_ONLY`; an argument vector with exactly one string per table entry is
therefore rejected with NULL. -/
theorem client_args_one_more_than_args_count (E : Env) (user : guac_user)
    (value : String → String) :
    (GUAC_RDP_CLIENT_ARGS E).length = RDP_ARGS_COUNT E + 1
    ∧ (GUAC_RDP_CLIENT_ARGS E).getD (RDP_ARGS_IDX.val E IDX_ENABLE_WEBCAM) "" = "enable-webcam"
    ∧ (GUAC_RDP_CLIENT_ARGS E).getD (RDP_ARGS_IDX.val E IDX_READ_ONLY) "" = "enable-webcam"
    ∧ guac_rdp_parse_args E user ((GUAC_RDP_CLIENT_ARGS E).map value).length
        ((GUAC_RDP_CLIENT_ARGS E).map value) = Except.ok none := by
  have hlen : (GUAC_RDP_CLIENT_ARGS E).length = RDP_ARGS_COUNT E + 1 := by
    rw [RDP_ARGS_COUNT_eq]
    unfold GUAC_RDP_CLIENT_ARGS
    cases E.ENABLE_COMMON_SSH <;> rfl
  refine ⟨hlen, ?_, ?_, ?_⟩
  · rw [RDP_ARGS_IDX_val_eq]
    unfold GUAC_RDP_CLIENT_ARGS
    cases E.ENABLE_COMMON_SSH <;> rfl
  · rw [RDP_ARGS_IDX_val_eq]
    unfold GUAC_RDP_CLIENT_ARGS
    cases E.ENABLE_COMMON_SSH <;> rfl
  · apply parse_args_wrong_count
    rw [List.length_map, hlen]
    push_cast
    omega

/-- C3: in every record that `guac_rdp_parse_args` returns the width is
non-negative and divisible by 4, whatever the width string and the geometry
reported by the client; a record is returned whenever the argument count is
right and the reported resolution is not zero and no quotient of the geometry
derivation is `INT_MIN / -1`. `RDP_DEFAULT_WIDTH` is assumed to be a
non-negative `int`. -/
theorem parse_args_width_nonneg_multiple_of_4 (E : Env) (user : guac_user) (argc : Int)
    (argv : List String)
    (hdefault : 0 ≤ E.RDP_DEFAULT_WIDTH ∧ E.RDP_DEFAULT_WIDTH ≤ INT_MAX) :
    (∀ s, guac_rdp_parse_args E user argc argv = Except.ok (some s) →
        0 ≤ s.width ∧ s.width % 4 = 0)
    ∧ (argc = (RDP_ARGS_COUNT E : Int) → user.optimal_resolution ≠ 0 →
        ¬ quotient_overflows E user argv →
        ∃ s, guac_rdp_parse_args E user argc argv = Except.ok (some s)) := by
  refine ⟨?_, parse_args_returns E user argc argv⟩
  intro s h
  obtain ⟨derived, candidate, hderived, hcandidate, hwidth⟩ :=
    parse_args_width E user argc argv s h
  have hrange : INT_MIN ≤ candidate ∧ candidate ≤ INT_MAX := by
    rw [hcandidate]
    split
    · exact atoi_range _
    · exact c_mul_div_range _ _ _ _ hderived
  have hvalid : 0 ≤ (if candidate ≤ 0 then E.RDP_DEFAULT_WIDTH else candidate)
      ∧ (if candidate ≤ 0 then E.RDP_DEFAULT_WIDTH else candidate) ≤ INT_MAX := by
    split
    · exact hdefault
    · exact ⟨by omega, hrange.2⟩
  rw [hwidth, c_and_not_3_eq _ (by unfold INT_MIN; omega) hvalid.2]
  omega

/-- Witness of C3: the theorem applied to the reference inputs with the width
string "-3". -/
theorem parse_args_width_nonneg_multiple_of_4_witness :
    ∃ s, guac_rdp_parse_args reference_env reference_user (RDP_ARGS_COUNT reference_env)
          (set_arg reference_env (blank_args reference_env) IDX_WIDTH "-3")
        = Except.ok (some s)
      ∧ 0 ≤ s.width ∧ s.width % 4 = 0 := by
  have h := parse_args_width_nonneg_multiple_of_4 reference_env reference_user
    (RDP_ARGS_COUNT reference_env)
    (set_arg reference_env (blank_args reference_env) IDX_WIDTH "-3") (by decide)
  obtain ⟨s, hs⟩ := h.2 rfl (by decide)
    (fun hq => absurd hq.1 (by decide))
  exact ⟨s, hs, h.1 s hs⟩

/-! ## Fields of a returned record and of the projected configuration -/

theorem parse_args_disable_glyph_caching (E : Env) (user : guac_user) (argc : Int)
    (argv : List String) (s : guac_rdp_settings)
    (h : guac_rdp_parse_args E user argc argv = Except.ok (some s)) :
    s.disable_glyph_caching = true := by
  unfold guac_rdp_parse_args at h
  simp only [] at h
  split at h
  · cases h
  · split at h
    · cases h
    · split at h
      · cases h
      · injection h with h
        injection h with h
        subst h
        rfl

theorem parse_args_security_mode (E : Env) (user : guac_user) (argc : Int)
    (argv : List String) (s : guac_rdp_settings)
    (h : guac_rdp_parse_args E user argc argv = Except.ok (some s)) :
    s.security_mode
      = (if argv.getD (RDP_ARGS_IDX.val E IDX_SECURITY) "" = "nla" then GUAC_SECURITY_NLA
        else if argv.getD (RDP_ARGS_IDX.val E IDX_SECURITY) "" = "nla-ext" then
          GUAC_SECURITY_EXTENDED_NLA
        else if argv.getD (RDP_ARGS_IDX.val E IDX_SECURITY) "" = "tls" then GUAC_SECURITY_TLS
        else if argv.getD (RDP_ARGS_IDX.val E IDX_SECURITY) "" = "rdp" then GUAC_SECURITY_RDP
        else if argv.getD (RDP_ARGS_IDX.val E IDX_SECURITY) "" = "vmconnect" then
          GUAC_SECURITY_VMCONNECT
        else GUAC_SECURITY_ANY) := by
  unfold guac_rdp_parse_args at h
  simp only [] at h
  split at h
  · cases h
  · split at h
    · cases h
    · split at h
      · cases h
      · injection h with h
        injection h with h
        subst h
        simp only []
        repeat' split
        all_goals rfl

theorem parse_args_wol (E : Env) (user : guac_user) (argc : Int)
    (argv : List String) (s : guac_rdp_settings)
    (h : guac_rdp_parse_args E user argc argv = Except.ok (some s)) :
    s.wol_send_packet
      = (if guac_user_parse_args_boolean argv (RDP_ARGS_IDX.val E IDX_WOL_SEND_PACKET) false
            = true then
          (if argv.getD (RDP_ARGS_IDX.val E IDX_WOL_MAC_ADDR) "" = "" then false else true)
        else false)
    ∧ s.wol_mac_addr
      = (if guac_user_parse_args_boolean argv (RDP_ARGS_IDX.val E IDX_WOL_SEND_PACKET) false
            = true then
          guac_user_parse_args_string argv (RDP_ARGS_IDX.val E IDX_WOL_MAC_ADDR) none
        else none) := by
  unfold guac_rdp_parse_args at h
  simp only [] at h
  split at h
  · cases h
  · split at h
    · cases h
    · split at h
      · cases h
      · injection h with h
        injection h with h
        subst h
        cases hb : guac_user_parse_args_boolean argv (RDP_ARGS_IDX.val E IDX_WOL_SEND_PACKET) false
        · simp [hb]
        · simp [hb]

theorem push_settings_GlyphSupportLevel (E : Env) (s : guac_rdp_settings) (rdp : freerdp) :
    (guac_rdp_push_settings E s rdp).settings.GlyphSupportLevel
      = if s.disable_glyph_caching then E.GLYPH_SUPPORT_NONE else E.GLYPH_SUPPORT_FULL := by
  unfold guac_rdp_push_settings
  cases E.HAVE_SETTERS_GETTERS
  · show (if (! s.disable_glyph_caching) = true then E.GLYPH_SUPPORT_FULL
        else E.GLYPH_SUPPORT_NONE) = _
    cases s.disable_glyph_caching <;> rfl
  · show (if (! s.disable_glyph_caching) = true then E.GLYPH_SUPPORT_FULL
        else E.GLYPH_SUPPORT_NONE) = _
    cases s.disable_glyph_caching <;> rfl

theorem push_settings_NlaSecurity (E : Env) (s : guac_rdp_settings) (rdp : freerdp) :
    (guac_rdp_push_settings E s rdp).settings.NlaSecurity
      = (match s.security_mode with
        | GUAC_SECURITY_RDP => false
        | GUAC_SECURITY_TLS => false
        | GUAC_SECURITY_NLA => true
        | GUAC_SECURITY_EXTENDED_NLA => false
        | GUAC_SECURITY_VMCONNECT => true
        | GUAC_SECURITY_ANY => if E.guac_fips_enabled then false else true) := by
  unfold guac_rdp_push_settings
  cases E.HAVE_SETTERS_GETTERS
  · cases hm : s.security_mode <;>
      (unfold guac_rdp_push_settings_fields; rw [hm]) <;> rfl
  · cases hm : s.security_mode <;>
      (unfold guac_rdp_push_settings_setters; rw [hm]) <;> rfl

/-- C4: every record that `guac_rdp_parse_args` returns has
`disable_glyph_caching` set, whatever the argument vector holds at
"disable-glyph-caching", and `guac_rdp_push_settings` of such a record sets the
glyph support level of the engine to `GLYPH_SUPPORT_NONE`; a record is returned
whenever the argument count is right and the reported resolution is not zero and
no quotient of the geometry derivation is `INT_MIN / -1`. -/
theorem parse_args_glyph_caching_always_disabled (E : Env) (user : guac_user) (argc : Int)
    (argv : List String) :
    (∀ s, guac_rdp_parse_args E user argc argv = Except.ok (some s) →
        s.disable_glyph_caching = true
        ∧ ∀ rdp, (guac_rdp_push_settings E s rdp).settings.GlyphSupportLevel
            = E.GLYPH_SUPPORT_NONE)
    ∧ (argc = (RDP_ARGS_COUNT E : Int) → user.optimal_resolution ≠ 0 →
        ¬ quotient_overflows E user argv →
        ∃ s, guac_rdp_parse_args E user argc argv = Except.ok (some s)) := by
  refine ⟨?_, parse_args_returns E user argc argv⟩
  intro s h
  have hglyph := parse_args_disable_glyph_caching E user argc argv s h
  refine ⟨hglyph, ?_⟩
  intro rdp
  rw [push_settings_GlyphSupportLevel, hglyph]
  rfl

/-- Witness of C4: the theorem applied to the reference inputs with
"disable-glyph-caching" set to "false". -/
theorem parse_args_glyph_caching_always_disabled_witness :
    ∃ s, guac_rdp_parse_args reference_env reference_user (RDP_ARGS_COUNT reference_env)
          (set_arg reference_env (blank_args reference_env) IDX_DISABLE_GLYPH_CACHING "false")
        = Except.ok (some s)
      ∧ s.disable_glyph_caching = true
      ∧ (guac_rdp_push_settings reference_env s zero_freerdp).settings.GlyphSupportLevel
          = reference_env.GLYPH_SUPPORT_NONE := by
  have h := parse_args_glyph_caching_always_disabled reference_env reference_user
    (RDP_ARGS_COUNT reference_env)
    (set_arg reference_env (blank_args reference_env) IDX_DISABLE_GLYPH_CACHING "false")
  obtain ⟨s, hs⟩ := h.2 rfl (by decide)
    (fun hq => absurd hq.1 (by decide))
  exact ⟨s, hs, (h.1 s hs).1, (h.1 s hs).2 zero_freerdp⟩

/-- C5: when "wol-send-packet" parses as true, every returned record has
`wol_send_packet` false if "wol-mac-addr" is the empty string, and has
`wol_send_packet` true and `wol_mac_addr` equal to the given string if it is not
empty; the call does not return NULL for the missing address, and it returns a
record whenever the argument count is right and the reported resolution is not
zero and no quotient of the geometry derivation is `INT_MIN / -1`. -/
theorem parse_args_wol_needs_mac_address (E : Env) (user : guac_user) (argc : Int)
    (argv : List String)
    (hwol : guac_user_parse_args_boolean argv (RDP_ARGS_IDX.val E IDX_WOL_SEND_PACKET) false
      = true) :
    (∀ s, guac_rdp_parse_args E user argc argv = Except.ok (some s) →
        (argv.getD (RDP_ARGS_IDX.val E IDX_WOL_MAC_ADDR) "" = "" →
          s.wol_send_packet = false)
        ∧ (argv.getD (RDP_ARGS_IDX.val E IDX_WOL_MAC_ADDR) "" ≠ "" →
          s.wol_send_packet = true
          ∧ s.wol_mac_addr = some (argv.getD (RDP_ARGS_IDX.val E IDX_WOL_MAC_ADDR) "")))
    ∧ (argc = (RDP_ARGS_COUNT E : Int) →
        guac_rdp_parse_args E user argc argv ≠ Except.ok none)
    ∧ (argc = (RDP_ARGS_COUNT E : Int) → user.optimal_resolution ≠ 0 →
        ¬ quotient_overflows E user argv →
        ∃ s, guac_rdp_parse_args E user argc argv = Except.ok (some s)) := by
  refine ⟨?_, ?_, parse_args_returns E user argc argv⟩
  · intro s h
    obtain ⟨hsend, hmac⟩ := parse_args_wol E user argc argv s h
    rw [hwol] at hsend hmac
    constructor
    · intro hempty
      rw [hsend, if_pos rfl, if_pos hempty]
    · intro hgiven
      constructor
      · rw [hsend, if_pos rfl, if_neg hgiven]
      · rw [hmac, if_pos rfl]
        unfold guac_user_parse_args_string
        exact if_neg hgiven
  · intro hcount hnull
    by_cases h0 : user.optimal_resolution = 0
    · rw [parse_args_zero_resolution E user argc argv hcount h0] at hnull
      cases hnull
    · by_cases hq : quotient_overflows E user argv
      · rw [parse_args_quotient_overflows E user argc argv hcount hq] at hnull
        cases hnull
      · obtain ⟨s, hs⟩ := parse_args_returns E user argc argv hcount h0 hq
        rw [hs] at hnull
        cases hnull

/-- Witness of C5: the theorem applied to the reference inputs with
"wol-send-packet" set to "true" and "wol-mac-addr" left empty. -/
theorem parse_args_wol_needs_mac_address_witness :
    ∃ s, guac_rdp_parse_args reference_env reference_user (RDP_ARGS_COUNT reference_env)
          (set_arg reference_env (blank_args reference_env) IDX_WOL_SEND_PACKET "true")
        = Except.ok (some s)
      ∧ s.wol_send_packet = false := by
  have h := parse_args_wol_needs_mac_address reference_env reference_user
    (RDP_ARGS_COUNT reference_env)
    (set_arg reference_env (blank_args reference_env) IDX_WOL_SEND_PACKET "true") (by decide)
  obtain ⟨s, hs⟩ := h.2.2 rfl (by decide)
    (fun hq => absurd hq.1 (by decide))
  exact ⟨s, hs, (h.1 s hs).1 (by decide)⟩

/-- C6: the security mode of a returned record is determined by the security
string alone: "nla" gives NLA, "nla-ext" extended NLA, "tls" TLS, "rdp" legacy
RDP, "vmconnect" VMConnect, "any" negotiate-any, and every other string (among
them "bogus", the empty string and "NLA") negotiate-any; a record is returned
whenever the argument count is right and the reported resolution is not zero and
no quotient of the geometry derivation is `INT_MIN / -1`. -/
theorem parse_args_security_mode_of_string (E : Env) (user : guac_user) (argc : Int)
    (argv : List String) :
    (∀ s, guac_rdp_parse_args E user argc argv = Except.ok (some s) →
        (argv.getD (RDP_ARGS_IDX.val E IDX_SECURITY) "" = "nla" →
          s.security_mode = GUAC_SECURITY_NLA)
        ∧ (argv.getD (RDP_ARGS_IDX.val E IDX_SECURITY) "" = "nla-ext" →
          s.security_mode = GUAC_SECURITY_EXTENDED_NLA)
        ∧ (argv.getD (RDP_ARGS_IDX.val E IDX_SECURITY) "" = "tls" →
          s.security_mode = GUAC_SECURITY_TLS)
        ∧ (argv.getD (RDP_ARGS_IDX.val E IDX_SECURITY) "" = "rdp" →
          s.security_mode = GUAC_SECURITY_RDP)
        ∧ (argv.getD (RDP_ARGS_IDX.val E IDX_SECURITY) "" = "vmconnect" →
          s.security_mode = GUAC_SECURITY_VMCONNECT)
        ∧ (argv.getD (RDP_ARGS_IDX.val E IDX_SECURITY) "" = "any" →
          s.security_mode = GUAC_SECURITY_ANY)
        ∧ (argv.getD (RDP_ARGS_IDX.val E IDX_SECURITY) "" ∉
              ["nla", "nla-ext", "tls", "rdp", "vmconnect", "any"] →
          s.security_mode = GUAC_SECURITY_ANY)
        ∧ (argv.getD (RDP_ARGS_IDX.val E IDX_SECURITY) "" ∈ ["bogus", "", "NLA"] →
          s.security_mode = GUAC_SECURITY_ANY))
    ∧ (argc = (RDP_ARGS_COUNT E : Int) → user.optimal_resolution ≠ 0 →
        ¬ quotient_overflows E user argv →
        ∃ s, guac_rdp_parse_args E user argc argv = Except.ok (some s)) := by
  refine ⟨?_, parse_args_returns E user argc argv⟩
  intro s h
  have hmode := parse_args_security_mode E user argc argv s h
  generalize argv.getD (RDP_ARGS_IDX.val E IDX_SECURITY) "" = security at hmode
  rw [hmode]
  refine ⟨?_, ?_, ?_, ?_, ?_, ?_, ?_, ?_⟩
  · intro hs; subst hs; decide
  · intro hs; subst hs; decide
  · intro hs; subst hs; decide
  · intro hs; subst hs; decide
  · intro hs; subst hs; decide
  · intro hs; subst hs; decide
  · intro hs
    simp only [List.mem_cons, List.mem_singleton, List.not_mem_nil, or_false, not_or] at hs
    simp [hs.1, hs.2.1, hs.2.2.1, hs.2.2.2.1, hs.2.2.2.2.1]
  · intro hs
    simp only [List.mem_cons, List.mem_singleton, List.not_mem_nil, or_false] at hs
    rcases hs with hs | hs | hs <;> subst hs <;> decide

/-- Witness of C6: the theorem applied to the reference inputs with the
security string "bogus". -/
theorem parse_args_security_mode_of_string_witness :
    ∃ s, guac_rdp_parse_args reference_env reference_user (RDP_ARGS_COUNT reference_env)
          (set_arg reference_env (blank_args reference_env) IDX_SECURITY "bogus")
        = Except.ok (some s)
      ∧ s.security_mode = GUAC_SECURITY_ANY := by
  have h := parse_args_security_mode_of_string reference_env reference_user
    (RDP_ARGS_COUNT reference_env)
    (set_arg reference_env (blank_args reference_env) IDX_SECURITY "bogus")
  obtain ⟨s, hs⟩ := h.2 rfl (by decide)
    (fun hq => absurd hq.1 (by decide))
  exact ⟨s, hs, (h.1 s hs).2.2.2.2.2.2.2 (by decide)⟩

/-- C7 (fails on the code): with FIPS mode enabled and the security string
"nla", `guac_rdp_parse_args` returns a record and `guac_rdp_push_settings` of it
leaves NLA security enabled in the engine configuration. -/
theorem explicit_nla_under_fips_stays_enabled :
    reference_env.guac_fips_enabled = true
    ∧ ∃ s, guac_rdp_parse_args reference_env reference_user (RDP_ARGS_COUNT reference_env)
          (set_arg reference_env (blank_args reference_env) IDX_SECURITY "nla")
        = Except.ok (some s)
      ∧ (guac_rdp_push_settings reference_env s zero_freerdp).settings.NlaSecurity = true := by
  refine ⟨rfl, ?_⟩
  obtain ⟨s, hs⟩ := parse_args_returns reference_env reference_user
    (RDP_ARGS_COUNT reference_env)
    (set_arg reference_env (blank_args reference_env) IDX_SECURITY "nla") rfl (by decide)
    (fun hq => absurd hq.1 (by decide))
  refine ⟨s, hs, ?_⟩
  have hmode := parse_args_security_mode _ _ _ _ s hs
  rw [if_pos (by decide)] at hmode
  rw [push_settings_NlaSecurity, hmode]

/-- C7 as amended: with FIPS mode enabled, a returned record whose security
string is "any" or not one of the recognised names has the negotiate-any mode
and its projection has `NlaSecurity` false; a returned record for the string
"nla" keeps the NLA mode and its projection has `NlaSecurity` true. The resolver
does not return NULL for either string and returns a record whenever the
argument count is right and the reported resolution is not zero and no quotient
of the geometry derivation is `INT_MIN / -1`; the projector is a total function.
-/
theorem fips_excludes_nla_from_negotiation_only (E : Env) (user : guac_user) (argc : Int)
    (argv : List String) (hfips : E.guac_fips_enabled = true) :
    (∀ s, guac_rdp_parse_args E user argc argv = Except.ok (some s) →
        (argv.getD (RDP_ARGS_IDX.val E IDX_SECURITY) "" ∉
              ["nla", "nla-ext", "tls", "rdp", "vmconnect"] →
          s.security_mode = GUAC_SECURITY_ANY
          ∧ ∀ rdp, (guac_rdp_push_settings E s rdp).settings.NlaSecurity = false)
        ∧ (argv.getD (RDP_ARGS_IDX.val E IDX_SECURITY) "" = "nla" →
          s.security_mode = GUAC_SECURITY_NLA
          ∧ ∀ rdp, (guac_rdp_push_settings E s rdp).settings.NlaSecurity = true))
    ∧ (argc = (RDP_ARGS_COUNT E : Int) →
        guac_rdp_parse_args E user argc argv ≠ Except.ok none)
    ∧ (argc = (RDP_ARGS_COUNT E : Int) → user.optimal_resolution ≠ 0 →
        ¬ quotient_overflows E user argv →
        ∃ s, guac_rdp_parse_args E user argc argv = Except.ok (some s)) := by
  refine ⟨?_, ?_, parse_args_returns E user argc argv⟩
  · intro s h
    have hmode := parse_args_security_mode E user argc argv s h
    generalize argv.getD (RDP_ARGS_IDX.val E IDX_SECURITY) "" = security at hmode
    constructor
    · intro hs
      simp only [List.mem_cons, List.mem_singleton, List.not_mem_nil, or_false, not_or] at hs
      have hany : s.security_mode = GUAC_SECURITY_ANY := by
        rw [hmode, if_neg hs.1, if_neg hs.2.1, if_neg hs.2.2.1, if_neg hs.2.2.2.1,
          if_neg hs.2.2.2.2]
      refine ⟨hany, ?_⟩
      intro rdp
      rw [push_settings_NlaSecurity, hany, hfips]
      rfl
    · intro hs
      have hnla : s.security_mode = GUAC_SECURITY_NLA := by
        rw [hmode, if_pos hs]
      refine ⟨hnla, ?_⟩
      intro rdp
      rw [push_settings_NlaSecurity, hnla]
  · intro hcount hnull
    by_cases h0 : user.optimal_resolution = 0
    · rw [parse_args_zero_resolution E user argc argv hcount h0] at hnull
      cases hnull
    · by_cases hq : quotient_overflows E user argv
      · rw [parse_args_quotient_overflows E user argc argv hcount hq] at hnull
        cases hnull
      · obtain ⟨s, hs⟩ := parse_args_returns E user argc argv hcount h0 hq
        rw [hs] at hnull
        cases hnull

/-- Witness of C7 as amended: the theorem applied to the reference inputs,
where FIPS mode is enabled, with the security string left empty. -/
theorem fips_excludes_nla_from_negotiation_only_witness :
    reference_env.guac_fips_enabled = true
    ∧ ∃ s, guac_rdp_parse_args reference_env reference_user (RDP_ARGS_COUNT reference_env)
          (blank_args reference_env) = Except.ok (some s)
      ∧ s.security_mode = GUAC_SECURITY_ANY
      ∧ (guac_rdp_push_settings reference_env s zero_freerdp).settings.NlaSecurity = false := by
  have h := fips_excludes_nla_from_negotiation_only reference_env reference_user
    (RDP_ARGS_COUNT reference_env) (blank_args reference_env) rfl
  obtain ⟨s, hs⟩ := h.2.2 rfl (by decide)
    (fun hq => absurd hq.1 (by decide))
  have hany := (h.1 s hs).1 (by decide)
  exact ⟨rfl, s, hs, hany.1, hany.2 zero_freerdp⟩

/-! ## Claims about the channel bridges -/

theorem to_uint32_of_nonneg (x : Int) (h0 : 0 ≤ x) (hx : x < 4294967296) :
    (to_uint32 x : Int) = x := by
  unfold to_uint32
  omega

/-- C8: `guac_rdp_webcam_send_frame` returns 1 and makes no call at all, hence
no transport write, for every data block, length, width and height when the
webcam record is absent, when its `svc` handle is absent, and in particular on
the record that `guac_rdp_webcam_alloc` yields. -/
theorem send_frame_not_connected (client : Nat) (data : List Nat)
    (length width height : Int) :
    guac_rdp_webcam_send_frame none data length width height = (1, [])
    ∧ guac_rdp_webcam_send_frame (some { client := client, svc := none }) data length
        width height = (1, [])
    ∧ guac_rdp_webcam_send_frame (some (guac_rdp_webcam_alloc client)) data length
        width height = (1, [])
    ∧ (guac_rdp_webcam_send_frame (some { client := client, svc := none }) data length
        width height).2.filter Event.is_transport_write = [] :=
  ⟨rfl, rfl, rfl, rfl⟩

/-- C10: `guac_rdp_webcam_handler` returns 0 and makes no transport write; it
acknowledges OK with the success status exactly when the `webcam_channel`
handle of the session is present, and then binds the blob and end handlers of
the stream; when the handle is absent it acknowledges FAIL with the
server-error status and leaves the stream unchanged. -/
theorem webcam_handler_acknowledges (rdp_client : guac_rdp_client) (stream : guac_stream)
    (mimetype name : String) :
    (guac_rdp_webcam_handler rdp_client stream mimetype name).ret = 0
    ∧ (guac_rdp_webcam_handler rdp_client stream mimetype name).events.filter
        Event.is_transport_write = []
    ∧ (Event.send_ack stream.index "OK" GUAC_PROTOCOL_STATUS_SUCCESS
          ∈ (guac_rdp_webcam_handler rdp_client stream mimetype name).events
        ↔ rdp_client.webcam_channel ≠ none)
    ∧ (rdp_client.webcam_channel ≠ none →
        (guac_rdp_webcam_handler rdp_client stream mimetype name).events
          = [Event.send_ack stream.index "OK" GUAC_PROTOCOL_STATUS_SUCCESS,
             Event.socket_flush]
        ∧ (guac_rdp_webcam_handler rdp_client stream mimetype name).stream
          = { stream with
              data := stream_data.rdp_client,
              blob_handler := some stream_handler.guac_rdp_webcam_blob_handler,
              end_handler := some stream_handler.guac_rdp_webcam_end_handler })
    ∧ (rdp_client.webcam_channel = none →
        (guac_rdp_webcam_handler rdp_client stream mimetype name).events
          = [Event.send_ack stream.index "FAIL" GUAC_PROTOCOL_STATUS_SERVER_ERROR,
             Event.socket_flush]
        ∧ (guac_rdp_webcam_handler rdp_client stream mimetype name).stream = stream) := by
  unfold guac_rdp_webcam_handler
  cases rdp_client.webcam_channel with
  | none => simp [Event.is_transport_write]
  | some channel => simp [Event.is_transport_write]

/-- Witness of C10: the theorem applied to a session without a channel and to
a session whose channel 42 is connected, on a stream that carries no handler. -/
theorem webcam_handler_acknowledges_witness :
    (guac_rdp_webcam_handler { webcam_channel := none }
        { index := 5, data := stream_data.null, blob_handler := none, end_handler := none }
        "video/webm" "camera").events
      = [Event.send_ack 5 "FAIL" GUAC_PROTOCOL_STATUS_SERVER_ERROR, Event.socket_flush]
    ∧ (guac_rdp_webcam_handler { webcam_channel := some 42 }
        { index := 5, data := stream_data.null, blob_handler := none, end_handler := none }
        "video/webm" "camera").stream.blob_handler
      = some stream_handler.guac_rdp_webcam_blob_handler :=
  ⟨((webcam_handler_acknowledges { webcam_channel := none }
        { index := 5, data := stream_data.null, blob_handler := none, end_handler := none }
        "video/webm" "camera").2.2.2.2 rfl).1,
   congrArg guac_stream.blob_handler
    ((webcam_handler_acknowledges { webcam_channel := some 42 }
        { index := 5, data := stream_data.null, blob_handler := none, end_handler := none }
        "video/webm" "camera").2.2.2.1 (by decide)).2⟩

/-! ## Claims about the dynamic channel bridge and its plugin -/

theorem webcam_handler_keeps_session (rdp_client : guac_rdp_client) (stream : guac_stream)
    (mimetype name : String) :
    (guac_rdp_webcam_handler rdp_client stream mimetype name).rdp_client = rdp_client := by
  unfold guac_rdp_webcam_handler
  cases rdp_client.webcam_channel <;> rfl

theorem webcam_handler_calls_connected (rdp_client : guac_rdp_client)
    (channel : Nat) (hchannel : rdp_client.webcam_channel = some channel)
    (calls : List (guac_stream × String × String)) :
    (webcam_handler_calls rdp_client calls).1 = rdp_client
    ∧ (webcam_handler_calls rdp_client calls).2.map (fun result => (result.ret, result.events))
      = calls.map (fun call =>
          ((0 : Int), [Event.send_ack call.1.index "OK" GUAC_PROTOCOL_STATUS_SUCCESS,
            Event.socket_flush])) := by
  induction calls with
  | nil => exact ⟨rfl, rfl⟩
  | cons call rest ih =>
    obtain ⟨stream, mimetype, name⟩ := call
    have hkeep := webcam_handler_keeps_session rdp_client stream mimetype name
    have hfirst : ((guac_rdp_webcam_handler rdp_client stream mimetype name).ret,
        (guac_rdp_webcam_handler rdp_client stream mimetype name).events)
        = ((0 : Int), [Event.send_ack stream.index "OK" GUAC_PROTOCOL_STATUS_SUCCESS,
            Event.socket_flush]) := by
      unfold guac_rdp_webcam_handler
      rw [hchannel]
    unfold webcam_handler_calls
    simp only [hkeep, List.map_cons, hfirst]
    exact ⟨ih.1, by rw [ih.2]⟩

/-- C11: `guac_rdp_webcam_handler` leaves the session, and with it the
`webcam_channel` handle, as it found it; hence in any sequence of calls made on
the session that `guac_rdp_vc_new_connection` leaves, every call returns 0 and
acknowledges OK with the success status, whatever calls came before it, and
the handle is still the connected channel afterwards. -/
theorem webcam_handler_calls_all_acknowledged (rdp_client : guac_rdp_client)
    (listener : guac_rdp_vc_listener_callback) (channel : Nat)
    (calls : List (guac_stream × String × String)) :
    (∀ session stream mimetype name,
        (guac_rdp_webcam_handler session stream mimetype name).rdp_client = session)
    ∧ (guac_rdp_vc_new_connection rdp_client listener channel).2.1.webcam_channel
        = some channel
    ∧ (webcam_handler_calls (guac_rdp_vc_new_connection rdp_client listener channel).2.1
        calls).1 = (guac_rdp_vc_new_connection rdp_client listener channel).2.1
    ∧ (webcam_handler_calls (guac_rdp_vc_new_connection rdp_client listener channel).2.1
        calls).2.map (fun result => (result.ret, result.events))
      = calls.map (fun call =>
          ((0 : Int), [Event.send_ack call.1.index "OK" GUAC_PROTOCOL_STATUS_SUCCESS,
            Event.socket_flush])) :=
  ⟨webcam_handler_keeps_session, rfl,
    (webcam_handler_calls_connected _ channel rfl calls).1,
    (webcam_handler_calls_connected _ channel rfl calls).2⟩

theorem webcam_blob_handler_closed (rdp_client : guac_rdp_client)
    (hclosed : rdp_client.webcam_channel = none) (stream : guac_stream) (data : List Nat)
    (length : Int) :
    guac_rdp_webcam_blob_handler rdp_client stream data length
      = { ret := 0, rdp_client := rdp_client, stream := stream, events := [] } := by
  unfold guac_rdp_webcam_blob_handler
  rw [hclosed]

theorem webcam_blob_handler_calls_closed (rdp_client : guac_rdp_client)
    (hclosed : rdp_client.webcam_channel = none)
    (calls : List (guac_stream × List Nat × Int)) :
    webcam_blob_handler_calls rdp_client calls
      = (rdp_client, calls.map (fun call =>
          { ret := 0, rdp_client := rdp_client, stream := call.1, events := [] })) := by
  induction calls with
  | nil => rfl
  | cons call rest ih =>
    obtain ⟨stream, data, length⟩ := call
    unfold webcam_blob_handler_calls
    simp only [webcam_blob_handler_closed rdp_client hclosed, ih, List.map_cons]

/-- C12: `guac_rdp_vc_close` returns `CHANNEL_RC_OK` and leaves the
`webcam_channel` handle of the session absent, whatever it held; on that
session every call of `guac_rdp_webcam_blob_handler`, for any stream, data and
length and after any number of earlier such calls, returns 0, makes no call at
all (no transport write, no lock of `message_lock`) and leaves session and
stream unchanged. -/
theorem webcam_blob_handler_after_close (rdp_client : guac_rdp_client)
    (vc_cb : guac_rdp_vc_channel_callback) (stream : guac_stream) (data : List Nat)
    (length : Int) (calls : List (guac_stream × List Nat × Int)) :
    (guac_rdp_vc_close rdp_client vc_cb).1 = CHANNEL_RC_OK
    ∧ (guac_rdp_vc_close rdp_client vc_cb).2.webcam_channel = none
    ∧ guac_rdp_webcam_blob_handler (guac_rdp_vc_close rdp_client vc_cb).2 stream data length
      = { ret := 0, rdp_client := (guac_rdp_vc_close rdp_client vc_cb).2, stream := stream,
          events := [] }
    ∧ Event.mutex_lock ∉
        (guac_rdp_webcam_blob_handler (guac_rdp_vc_close rdp_client vc_cb).2 stream data
          length).events
    ∧ (guac_rdp_webcam_blob_handler (guac_rdp_vc_close rdp_client vc_cb).2 stream data
          length).events.filter Event.is_transport_write = []
    ∧ webcam_blob_handler_calls (guac_rdp_vc_close rdp_client vc_cb).2 calls
      = ((guac_rdp_vc_close rdp_client vc_cb).2, calls.map (fun call =>
          { ret := 0, rdp_client := (guac_rdp_vc_close rdp_client vc_cb).2, stream := call.1,
            events := [] })) := by
  have hclosed : (guac_rdp_vc_close rdp_client vc_cb).2.webcam_channel = none := rfl
  have hcall := webcam_blob_handler_closed _ hclosed stream data length
  refine ⟨rfl, hclosed, hcall, ?_, ?_, webcam_blob_handler_calls_closed _ hclosed calls⟩
  · rw [hcall]
    simp
  · rw [hcall]
    rfl

/-- C13: with the `webcam_channel` handle present, `guac_rdp_webcam_blob_handler`
on a blob of `n` bytes (`n` within the range of `int`) returns 0, makes exactly
one `Write` call, on that channel, with byte count `n` and the bytes of the
blob in their order, and leaves the session unchanged; the call is made between
the lock and the unlock of `message_lock`. -/
theorem webcam_blob_handler_forwards_blob (rdp_client : guac_rdp_client) (channel : Nat)
    (stream : guac_stream) (data : List Nat)
    (hchannel : rdp_client.webcam_channel = some channel)
    (hlength : (data.length : Int) ≤ INT_MAX) :
    (guac_rdp_webcam_blob_handler rdp_client stream data data.length).ret = 0
    ∧ (guac_rdp_webcam_blob_handler rdp_client stream data data.length).rdp_client = rdp_client
    ∧ (guac_rdp_webcam_blob_handler rdp_client stream data data.length).events.filter
        Event.is_transport_write = [Event.channel_write channel data.length data]
    ∧ (guac_rdp_webcam_blob_handler rdp_client stream data data.length).events
      = [Event.stream_new data.length, Event.mutex_lock,
         Event.channel_write channel data.length data, Event.mutex_unlock,
         Event.stream_free] := by
  have hsize : to_uint32 (data.length : Int) = data.length := by
    unfold INT_MAX at hlength
    unfold to_uint32
    omega
  unfold guac_rdp_webcam_blob_handler
  rw [hchannel]
  simp [Event.is_transport_write, hsize]

/-- Witness of C13: the theorem applied to a blob of three bytes on a session
whose channel 42 is connected. -/
theorem webcam_blob_handler_forwards_blob_witness :
    (guac_rdp_webcam_blob_handler { webcam_channel := some 42 }
        { index := 5, data := stream_data.rdp_client,
          blob_handler := some stream_handler.guac_rdp_webcam_blob_handler,
          end_handler := some stream_handler.guac_rdp_webcam_end_handler }
        [10, 20, 30] 3).events.filter Event.is_transport_write
      = [Event.channel_write 42 3 [10, 20, 30]] :=
  (webcam_blob_handler_forwards_blob { webcam_channel := some 42 } 42
    { index := 5, data := stream_data.rdp_client,
      blob_handler := some stream_handler.guac_rdp_webcam_blob_handler,
      end_handler := some stream_handler.guac_rdp_webcam_end_handler }
    [10, 20, 30] rfl (by decide)).2.2.1

/-- Witness of C11: the theorem applied to two sequential calls on a session
that has just been connected to channel 42. -/
theorem webcam_handler_calls_all_acknowledged_witness :
    (webcam_handler_calls
        (guac_rdp_vc_new_connection { webcam_channel := none }
          { OnNewChannelConnection := some vc_function.guac_rdp_vc_new_connection,
            client := 7 } 42).2.1
        [({ index := 1, data := stream_data.null, blob_handler := none,
            end_handler := none }, "video/webm", "first"),
         ({ index := 2, data := stream_data.null, blob_handler := none,
            end_handler := none }, "video/webm", "second")]).2.map
        (fun result => (result.ret, result.events))
      = [((0 : Int), [Event.send_ack 1 "OK" GUAC_PROTOCOL_STATUS_SUCCESS, Event.socket_flush]),
         ((0 : Int), [Event.send_ack 2 "OK" GUAC_PROTOCOL_STATUS_SUCCESS, Event.socket_flush])] :=
  (webcam_handler_calls_all_acknowledged { webcam_channel := none }
    { OnNewChannelConnection := some vc_function.guac_rdp_vc_new_connection, client := 7 } 42
    [({ index := 1, data := stream_data.null, blob_handler := none, end_handler := none },
        "video/webm", "first"),
     ({ index := 2, data := stream_data.null, blob_handler := none, end_handler := none },
        "video/webm", "second")]).2.2.2

theorem list_registry_lookup (registry : List (String × guac_rdp_vc_plugin)) (name : String)
    (plugin : guac_rdp_vc_plugin) :
    list_registry.GetPlugin (list_registry.RegisterPlugin registry name plugin) name
      = some plugin := by
  simp [list_registry]

theorem list_registry_absent (registry : List (String × guac_rdp_vc_plugin)) (name : String)
    (h : registered_count registry name = 0) :
    list_registry.GetPlugin registry name = none := by
  unfold registered_count at h
  have hnil : registry.filter (fun entry => decide (entry.1 = name)) = [] :=
    List.length_eq_zero.mp h
  simp only [list_registry, Option.map_eq_none', List.find?_eq_none]
  intro entry hentry
  have := (List.filter_eq_nil_iff.mp hnil) entry hentry
  exact this

/-- C15: `DVCPluginEntry` returns `CHANNEL_RC_OK`, and it registers a "guacvc"
plugin only when the lookup of "guacvc" finds none.  Over every registry in
which a registered plugin is found by later lookups, a second call leaves the
registry as the first call left it; over the registry that keeps all
registrations, two calls starting without a "guacvc" plugin leave exactly one,
and a call on a registry that holds one adds none. -/
theorem DVCPluginEntry_registers_once {R : Type} (pEntryPoints : IDRDYNVC_ENTRY_POINTS R)
    (registry : R) (to_ptr to_ptr2 : String → Nat) (args args2 : List String)
    (known : List (String × guac_rdp_vc_plugin))
    (hlookup : ∀ (r : R) (name : String) (plugin : guac_rdp_vc_plugin),
      pEntryPoints.GetPlugin (pEntryPoints.RegisterPlugin r name plugin) name = some plugin) :
    (DVCPluginEntry pEntryPoints registry to_ptr args).1 = CHANNEL_RC_OK
    ∧ (pEntryPoints.GetPlugin registry "guacvc" ≠ none →
        (DVCPluginEntry pEntryPoints registry to_ptr args).2 = registry)
    ∧ DVCPluginEntry pEntryPoints (DVCPluginEntry pEntryPoints registry to_ptr args).2
        to_ptr2 args2
      = (CHANNEL_RC_OK, (DVCPluginEntry pEntryPoints registry to_ptr args).2)
    ∧ (registered_count known "guacvc" = 0 →
        registered_count
          (DVCPluginEntry list_registry (DVCPluginEntry list_registry known to_ptr args).2
            to_ptr2 args2).2 "guacvc" = 1)
    ∧ (registered_count known "guacvc" ≠ 0 →
        (DVCPluginEntry list_registry known to_ptr args).2 = known) := by
  have hfound : ∀ r, pEntryPoints.GetPlugin
      (DVCPluginEntry pEntryPoints r to_ptr args).2 "guacvc" ≠ none := by
    intro r
    unfold DVCPluginEntry
    cases hget : pEntryPoints.GetPlugin r "guacvc" with
    | none => simp only [hlookup]; exact Option.some_ne_none _
    | some plugin => simp only [hget]; exact Option.some_ne_none _
  have hsame : ∀ {Q : Type} (ops : IDRDYNVC_ENTRY_POINTS Q) (r : Q) (f : String → Nat)
      (a : List String), ops.GetPlugin r "guacvc" ≠ none →
      DVCPluginEntry ops r f a = (CHANNEL_RC_OK, r) := by
    intro Q ops r f a hsome
    unfold DVCPluginEntry
    cases hget : ops.GetPlugin r "guacvc" with
    | none => exact absurd hget hsome
    | some plugin => rfl
  refine ⟨?_, ?_, ?_, ?_, ?_⟩
  · unfold DVCPluginEntry
    cases pEntryPoints.GetPlugin registry "guacvc" <;> rfl
  · intro hsome
    rw [hsame pEntryPoints registry to_ptr args hsome]
  · exact hsame pEntryPoints _ to_ptr2 args2 (hfound registry)
  · intro hnone
    have habsent := list_registry_absent known "guacvc" hnone
    obtain ⟨plugin, hfirst⟩ : ∃ plugin : guac_rdp_vc_plugin,
        (DVCPluginEntry list_registry known to_ptr args).2 = ("guacvc", plugin) :: known := by
      unfold DVCPluginEntry
      rw [habsent]
      exact ⟨_, rfl⟩
    have hsecond := hsame list_registry (DVCPluginEntry list_registry known to_ptr args).2
      to_ptr2 args2 (by rw [hfirst]; simp [list_registry])
    rw [hsecond, hfirst]
    unfold registered_count at hnone ⊢
    simp only [List.filter_cons, decide_True, if_true, List.length_cons, hnone]
  · intro hsome
    apply congrArg Prod.snd (hsame list_registry known to_ptr args ?_)
    intro hnone
    apply hsome
    unfold registered_count
    simp only [list_registry, Option.map_eq_none', List.find?_eq_none] at hnone
    rw [List.length_eq_zero, List.filter_eq_nil_iff]
    exact hnone

/-- Witness of C15: the theorem applied to the registry that keeps all
registrations, starting empty. -/
theorem DVCPluginEntry_registers_once_witness :
    registered_count
        (DVCPluginEntry list_registry
          (DVCPluginEntry list_registry [] (fun _ => 7) ["guacvc", "0x7"]).2
          (fun _ => 7) ["guacvc", "0x7"]).2 "guacvc" = 1 :=
  (DVCPluginEntry_registers_once list_registry [] (fun _ => 7) (fun _ => 7)
    ["guacvc", "0x7"] ["guacvc", "0x7"] [] list_registry_lookup).2.2.2.1 rfl

/-! ## Further fields of a returned record -/

theorem parse_args_geometry (E : Env) (user : guac_user) (argc : Int) (argv : List String)
    (s : guac_rdp_settings)
    (h : guac_rdp_parse_args E user argc argv = Except.ok (some s)) :
    s.resolution
      = guac_user_parse_args_int argv (RDP_ARGS_IDX.val E IDX_DPI)
          (E.guac_rdp_suggest_resolution user)
    ∧ ∃ derived_width derived_height : Int,
        c_mul_div user.optimal_width s.resolution user.optimal_resolution
          = Except.ok derived_width
        ∧ c_mul_div user.optimal_height s.resolution user.optimal_resolution
          = Except.ok derived_height
        ∧ s.width
          = c_and_not_3
              (if (if argv.getD (RDP_ARGS_IDX.val E IDX_WIDTH) "" ≠ ""
                    then atoi (argv.getD (RDP_ARGS_IDX.val E IDX_WIDTH) "")
                    else derived_width) ≤ 0
                then E.RDP_DEFAULT_WIDTH
                else (if argv.getD (RDP_ARGS_IDX.val E IDX_WIDTH) "" ≠ ""
                    then atoi (argv.getD (RDP_ARGS_IDX.val E IDX_WIDTH) "")
                    else derived_width))
        ∧ s.height
          = (if (if argv.getD (RDP_ARGS_IDX.val E IDX_HEIGHT) "" ≠ ""
                    then atoi (argv.getD (RDP_ARGS_IDX.val E IDX_HEIGHT) "")
                    else derived_height) ≤ 0
                then E.RDP_DEFAULT_HEIGHT
                else (if argv.getD (RDP_ARGS_IDX.val E IDX_HEIGHT) "" ≠ ""
                    then atoi (argv.getD (RDP_ARGS_IDX.val E IDX_HEIGHT) "")
                    else derived_height)) := by
  unfold guac_rdp_parse_args at h
  simp only [] at h
  split at h
  · cases h
  · split at h
    · cases h
    · rename_i derived_width hwidth
      split at h
      · cases h
      · rename_i derived_height hheight
        injection h with h
        injection h with h
        subst h
        exact ⟨rfl, derived_width, derived_height, hwidth, hheight, rfl, rfl⟩

theorem parse_args_port (E : Env) (user : guac_user) (argc : Int) (argv : List String)
    (s : guac_rdp_settings)
    (h : guac_rdp_parse_args E user argc argv = Except.ok (some s)) :
    s.port
      = guac_user_parse_args_int argv (RDP_ARGS_IDX.val E IDX_PORT)
          (if s.security_mode = GUAC_SECURITY_VMCONNECT then E.RDP_DEFAULT_VMCONNECT_PORT
            else E.RDP_DEFAULT_PORT) := by
  unfold guac_rdp_parse_args at h
  simp only [] at h
  split at h
  · cases h
  · split at h
    · cases h
    · split at h
      · cases h
      · injection h with h
        injection h with h
        subst h
        rfl

theorem parse_args_gfx_and_depth (E : Env) (user : guac_user) (argc : Int)
    (argv : List String) (s : guac_rdp_settings)
    (h : guac_rdp_parse_args E user argc argv = Except.ok (some s)) :
    s.enable_gfx
      = (! guac_user_parse_args_boolean argv (RDP_ARGS_IDX.val E IDX_DISABLE_GFX) false)
    ∧ s.color_depth
      = guac_user_parse_args_int argv (RDP_ARGS_IDX.val E IDX_COLOR_DEPTH)
          (if s.enable_gfx then E.RDP_GFX_REQUIRED_DEPTH else E.RDP_DEFAULT_DEPTH) := by
  unfold guac_rdp_parse_args at h
  simp only [] at h
  split at h
  · cases h
  · split at h
    · cases h
    · split at h
      · cases h
      · injection h with h
        injection h with h
        subst h
        exact ⟨rfl, rfl⟩

theorem parse_args_clipboard_buffer_size (E : Env) (user : guac_user) (argc : Int)
    (argv : List String) (s : guac_rdp_settings)
    (h : guac_rdp_parse_args E user argc argv = Except.ok (some s)) :
    s.clipboard_buffer_size
      = (if guac_user_parse_args_int argv (RDP_ARGS_IDX.val E IDX_CLIPBOARD_BUFFER_SIZE) 0
            < E.GUAC_COMMON_CLIPBOARD_MIN_LENGTH then
          E.GUAC_COMMON_CLIPBOARD_MIN_LENGTH
        else if guac_user_parse_args_int argv (RDP_ARGS_IDX.val E IDX_CLIPBOARD_BUFFER_SIZE) 0
            > E.GUAC_COMMON_CLIPBOARD_MAX_LENGTH then
          E.GUAC_COMMON_CLIPBOARD_MAX_LENGTH
        else guac_user_parse_args_int argv (RDP_ARGS_IDX.val E IDX_CLIPBOARD_BUFFER_SIZE) 0) := by
  unfold guac_rdp_parse_args at h
  simp only [] at h
  split at h
  · cases h
  · split at h
    · cases h
    · split at h
      · cases h
      · injection h with h
        injection h with h
        subst h
        rfl

theorem parse_args_not_null (E : Env) (user : guac_user) (argc : Int) (argv : List String)
    (h : argc = (RDP_ARGS_COUNT E : Int)) :
    guac_rdp_parse_args E user argc argv ≠ Except.ok none := by
  intro hnull
  by_cases h0 : user.optimal_resolution = 0
  · rw [parse_args_zero_resolution E user argc argv h h0] at hnull
    cases hnull
  · by_cases hq : quotient_overflows E user argv
    · rw [parse_args_quotient_overflows E user argc argv h hq] at hnull
      cases hnull
    · obtain ⟨s, hs⟩ := parse_args_returns E user argc argv h h0 hq
      rw [hs] at hnull
      cases hnull

/-! ## The helpers that read one slot of the argument vector -/

theorem parse_args_int_blank (argv : List String) (index : Nat) (default_value : Int)
    (h : argv.getD index "" = "") :
    guac_user_parse_args_int argv index default_value = default_value := by
  unfold guac_user_parse_args_int
  exact if_pos h

theorem strtol_whole_empty : strtol_whole "" = none := rfl

theorem parse_args_int_valid (argv : List String) (index : Nat) (default_value value : Int)
    (h : strtol_whole (argv.getD index "") = some value)
    (hlo : INT_MIN ≤ value) (hhi : value ≤ INT_MAX) :
    guac_user_parse_args_int argv index default_value = value := by
  have hne : argv.getD index "" ≠ "" := by
    intro hempty
    rw [hempty, strtol_whole_empty] at h
    cases h
  unfold guac_user_parse_args_int
  simp only []
  rw [if_neg hne, h]
  simp only []
  rw [if_neg (by omega)]

theorem parse_args_int_invalid (argv : List String) (index : Nat) (default_value : Int)
    (h : strtol_whole (argv.getD index "") = none) :
    guac_user_parse_args_int argv index default_value = default_value := by
  unfold guac_user_parse_args_int
  simp only []
  split
  · rfl
  · rw [h]

theorem parse_args_boolean_blank (argv : List String) (index : Nat) (default_value : Bool)
    (h : argv.getD index "" = "") :
    guac_user_parse_args_boolean argv index default_value = default_value := by
  unfold guac_user_parse_args_boolean
  exact if_pos h

theorem c_mul_div_exact (a b c v : Int) (h : c_mul_div a b c = Except.ok v)
    (hlo : INT_MIN < a * b) (hhi : a * b ≤ INT_MAX) : v = Int.tdiv (a * b) c := by
  unfold c_mul_div at h
  split at h
  · cases h
  · split at h
    · cases h
    · injection h with h
      rw [← h, to_int_of_range (a * b) (le_of_lt hlo) hhi]
      have habs : (Int.tdiv (a * b) c).natAbs ≤ (a * b).natAbs := by
        rw [Int.natAbs_tdiv]
        exact Nat.div_le_self _ _
      unfold INT_MIN at hlo
      unfold INT_MAX at hhi
      apply to_int_of_range
      · unfold INT_MIN
        omega
      · unfold INT_MAX
        omega

theorem leading_digits_of_no_digit (cs : List Char) (h : ∀ c ∈ cs, isdigit c = false) :
    leading_digits 0 cs = 0 := by
  cases cs with
  | nil => rfl
  | cons c rest =>
    unfold leading_digits
    rw [h c (List.mem_cons_self c rest)]
    rfl

/-- A string without any digit reads as 0. -/
theorem atoi_of_no_digit (text : String) (h : ∀ c ∈ text.data, isdigit c = false) :
    atoi text = 0 := by
  have hsub : ∀ c ∈ text.data.dropWhile isspace, isdigit c = false := fun c hc =>
    h c ((List.dropWhile_sublist isspace).subset hc)
  unfold atoi
  split
  · rfl
  · rename_i c cs hdrop
    rw [hdrop] at hsub
    have hrest : leading_digits 0 cs = 0 :=
      leading_digits_of_no_digit cs (fun d hd => hsub d (List.mem_cons_of_mem c hd))
    have hall : leading_digits 0 (c :: cs) = 0 := leading_digits_of_no_digit (c :: cs) hsub
    split
    · rw [hrest]; rfl
    · split
      · rw [hrest]; rfl
      · rw [hall]; rfl

/-! ## Claims about the resolution of single parameters -/

/-- C16: given MIN <= MAX for the two clipboard length macros, the
`clipboard_buffer_size` of every returned record lies between them: a parsed
value below MIN gives MIN, one above MAX gives MAX, one inside the range is
kept. An empty or invalid string parses to 0 and so gives MIN when MIN is
positive. A record is returned whenever the argument count is right and the
reported resolution is not zero and no quotient of the geometry derivation is
`INT_MIN / -1`. -/
theorem parse_args_clipboard_buffer_size_clamped (E : Env) (user : guac_user) (argc : Int)
    (argv : List String)
    (hminmax : E.GUAC_COMMON_CLIPBOARD_MIN_LENGTH ≤ E.GUAC_COMMON_CLIPBOARD_MAX_LENGTH) :
    (∀ s, guac_rdp_parse_args E user argc argv = Except.ok (some s) →
        E.GUAC_COMMON_CLIPBOARD_MIN_LENGTH ≤ s.clipboard_buffer_size
        ∧ s.clipboard_buffer_size ≤ E.GUAC_COMMON_CLIPBOARD_MAX_LENGTH
        ∧ (guac_user_parse_args_int argv (RDP_ARGS_IDX.val E IDX_CLIPBOARD_BUFFER_SIZE) 0
              < E.GUAC_COMMON_CLIPBOARD_MIN_LENGTH →
            s.clipboard_buffer_size = E.GUAC_COMMON_CLIPBOARD_MIN_LENGTH)
        ∧ (guac_user_parse_args_int argv (RDP_ARGS_IDX.val E IDX_CLIPBOARD_BUFFER_SIZE) 0
              > E.GUAC_COMMON_CLIPBOARD_MAX_LENGTH →
            s.clipboard_buffer_size = E.GUAC_COMMON_CLIPBOARD_MAX_LENGTH)
        ∧ (E.GUAC_COMMON_CLIPBOARD_MIN_LENGTH
              ≤ guac_user_parse_args_int argv (RDP_ARGS_IDX.val E IDX_CLIPBOARD_BUFFER_SIZE) 0 →
            guac_user_parse_args_int argv (RDP_ARGS_IDX.val E IDX_CLIPBOARD_BUFFER_SIZE) 0
              ≤ E.GUAC_COMMON_CLIPBOARD_MAX_LENGTH →
            s.clipboard_buffer_size
              = guac_user_parse_args_int argv (RDP_ARGS_IDX.val E IDX_CLIPBOARD_BUFFER_SIZE) 0)
        ∧ (argv.getD (RDP_ARGS_IDX.val E IDX_CLIPBOARD_BUFFER_SIZE) "" = "" →
            0 < E.GUAC_COMMON_CLIPBOARD_MIN_LENGTH →
            s.clipboard_buffer_size = E.GUAC_COMMON_CLIPBOARD_MIN_LENGTH)
        ∧ (strtol_whole (argv.getD (RDP_ARGS_IDX.val E IDX_CLIPBOARD_BUFFER_SIZE) "") = none →
            0 < E.GUAC_COMMON_CLIPBOARD_MIN_LENGTH →
            s.clipboard_buffer_size = E.GUAC_COMMON_CLIPBOARD_MIN_LENGTH))
    ∧ (argc = (RDP_ARGS_COUNT E : Int) → user.optimal_resolution ≠ 0 →
        ¬ quotient_overflows E user argv →
        ∃ s, guac_rdp_parse_args E user argc argv = Except.ok (some s)) := by
  refine ⟨?_, parse_args_returns E user argc argv⟩
  intro s h
  have hsize := parse_args_clipboard_buffer_size E user argc argv s h
  have hblank := parse_args_int_blank argv (RDP_ARGS_IDX.val E IDX_CLIPBOARD_BUFFER_SIZE) 0
  have hinvalid := parse_args_int_invalid argv (RDP_ARGS_IDX.val E IDX_CLIPBOARD_BUFFER_SIZE) 0
  generalize guac_user_parse_args_int argv (RDP_ARGS_IDX.val E IDX_CLIPBOARD_BUFFER_SIZE) 0
    = parsed at hsize hblank hinvalid
  refine ⟨?_, ?_, ?_, ?_, ?_, ?_, ?_⟩
  · rw [hsize]; split
    · exact le_refl _
    · split
      · exact hminmax
      · omega
  · rw [hsize]; split
    · exact hminmax
    · split
      · exact le_refl _
      · omega
  · intro hlow
    rw [hsize, if_pos hlow]
  · intro hhigh
    rw [hsize, if_neg (by omega), if_pos hhigh]
  · intro hlow hhigh
    rw [hsize, if_neg (by omega), if_neg (by omega)]
  · intro hempty hpos
    rw [hsize, hblank hempty, if_pos hpos]
  · intro hnone hpos
    rw [hsize, hinvalid hnone, if_pos hpos]

/-- Witness of C16: the theorem applied to the reference inputs with the
clipboard buffer size "99999999999", which is no valid `int`. -/
theorem parse_args_clipboard_buffer_size_clamped_witness :
    ∃ s, guac_rdp_parse_args reference_env reference_user (RDP_ARGS_COUNT reference_env)
          (set_arg reference_env (blank_args reference_env) IDX_CLIPBOARD_BUFFER_SIZE
            "99999999999")
        = Except.ok (some s)
      ∧ 262144 ≤ s.clipboard_buffer_size ∧ s.clipboard_buffer_size ≤ 52428800 := by
  have h := parse_args_clipboard_buffer_size_clamped reference_env reference_user
    (RDP_ARGS_COUNT reference_env)
    (set_arg reference_env (blank_args reference_env) IDX_CLIPBOARD_BUFFER_SIZE "99999999999")
    (by decide)
  obtain ⟨s, hs⟩ := h.2 rfl (by decide)
    (fun hq => absurd hq.1 (by decide))
  exact ⟨s, hs, (h.1 s hs).1, (h.1 s hs).2.1⟩

/-- C17: in every returned record, a candidate width (the integer that `atoi`
reads from a non-empty width string, otherwise the derived width) that is not
positive gives the width `RDP_DEFAULT_WIDTH & ~3`, which is `RDP_DEFAULT_WIDTH`
rounded down to a multiple of 4, and a candidate height that is not positive
gives the height `RDP_DEFAULT_HEIGHT`. In particular a non-empty string that
reads as a negative number or that holds no digit gives the default. The
resolver does not return NULL in these cases and returns a record whenever the
argument count is right and the reported resolution is not zero and no quotient
of the geometry derivation is `INT_MIN / -1`. -/
theorem parse_args_geometry_fallback (E : Env) (user : guac_user) (argc : Int)
    (argv : List String) :
    (∀ s, guac_rdp_parse_args E user argc argv = Except.ok (some s) →
        ∃ derived_width derived_height : Int,
          c_mul_div user.optimal_width s.resolution user.optimal_resolution
            = Except.ok derived_width
          ∧ c_mul_div user.optimal_height s.resolution user.optimal_resolution
            = Except.ok derived_height
          ∧ ((if argv.getD (RDP_ARGS_IDX.val E IDX_WIDTH) "" ≠ ""
                then atoi (argv.getD (RDP_ARGS_IDX.val E IDX_WIDTH) "")
                else derived_width) ≤ 0 →
              s.width = c_and_not_3 E.RDP_DEFAULT_WIDTH)
          ∧ ((if argv.getD (RDP_ARGS_IDX.val E IDX_HEIGHT) "" ≠ ""
                then atoi (argv.getD (RDP_ARGS_IDX.val E IDX_HEIGHT) "")
                else derived_height) ≤ 0 →
              s.height = E.RDP_DEFAULT_HEIGHT)
          ∧ (argv.getD (RDP_ARGS_IDX.val E IDX_WIDTH) "" ≠ "" →
              atoi (argv.getD (RDP_ARGS_IDX.val E IDX_WIDTH) "") ≤ 0
                ∨ (∀ c ∈ (argv.getD (RDP_ARGS_IDX.val E IDX_WIDTH) "").data,
                    isdigit c = false) →
              s.width = c_and_not_3 E.RDP_DEFAULT_WIDTH)
          ∧ (argv.getD (RDP_ARGS_IDX.val E IDX_HEIGHT) "" ≠ "" →
              atoi (argv.getD (RDP_ARGS_IDX.val E IDX_HEIGHT) "") ≤ 0
                ∨ (∀ c ∈ (argv.getD (RDP_ARGS_IDX.val E IDX_HEIGHT) "").data,
                    isdigit c = false) →
              s.height = E.RDP_DEFAULT_HEIGHT))
    ∧ (INT_MIN ≤ E.RDP_DEFAULT_WIDTH → E.RDP_DEFAULT_WIDTH ≤ INT_MAX →
        c_and_not_3 E.RDP_DEFAULT_WIDTH = E.RDP_DEFAULT_WIDTH - E.RDP_DEFAULT_WIDTH % 4)
    ∧ (argc = (RDP_ARGS_COUNT E : Int) →
        guac_rdp_parse_args E user argc argv ≠ Except.ok none)
    ∧ (argc = (RDP_ARGS_COUNT E : Int) → user.optimal_resolution ≠ 0 →
        ¬ quotient_overflows E user argv →
        ∃ s, guac_rdp_parse_args E user argc argv = Except.ok (some s)) := by
  refine ⟨?_, c_and_not_3_eq E.RDP_DEFAULT_WIDTH, parse_args_not_null E user argc argv,
    parse_args_returns E user argc argv⟩
  intro s h
  obtain ⟨-, derived_width, derived_height, hdw, hdh, hwidth, hheight⟩ :=
    parse_args_geometry E user argc argv s h
  generalize argv.getD (RDP_ARGS_IDX.val E IDX_WIDTH) "" = width_text at hwidth
  generalize argv.getD (RDP_ARGS_IDX.val E IDX_HEIGHT) "" = height_text at hheight
  refine ⟨derived_width, derived_height, hdw, hdh, ?_, ?_, ?_, ?_⟩
  · intro hle
    rw [hwidth, if_pos hle]
  · intro hle
    rw [hheight, if_pos hle]
  · intro hgiven hbad
    have hle : atoi width_text ≤ 0 := by
      rcases hbad with hle | hnone
      · exact hle
      · rw [atoi_of_no_digit width_text hnone]
    rw [hwidth, if_pos hgiven, if_pos hle]
  · intro hgiven hbad
    have hle : atoi height_text ≤ 0 := by
      rcases hbad with hle | hnone
      · exact hle
      · rw [atoi_of_no_digit height_text hnone]
    rw [hheight, if_pos hgiven, if_pos hle]

/-- Witness of C17: the theorem applied to the reference inputs with the width
string "abc" and the height string "-5". -/
theorem parse_args_geometry_fallback_witness :
    ∃ s, guac_rdp_parse_args reference_env reference_user (RDP_ARGS_COUNT reference_env)
          (set_arg reference_env (set_arg reference_env (blank_args reference_env)
            IDX_WIDTH "abc") IDX_HEIGHT "-5")
        = Except.ok (some s)
      ∧ s.width = 1024 ∧ s.height = 768 := by
  have h := parse_args_geometry_fallback reference_env reference_user
    (RDP_ARGS_COUNT reference_env)
    (set_arg reference_env (set_arg reference_env (blank_args reference_env)
      IDX_WIDTH "abc") IDX_HEIGHT "-5")
  obtain ⟨s, hs⟩ := h.2.2.2 rfl (by decide)
    (fun hq => absurd hq.1 (by decide))
  obtain ⟨derived_width, derived_height, -, -, -, -, hwidth, hheight⟩ := h.1 s hs
  refine ⟨s, hs, ?_, ?_⟩
  · rw [hwidth (by decide) (Or.inl (by decide))]
    decide
  · rw [hheight (by decide) (Or.inl (by decide))]
    rfl

/-- C18: in every returned record the resolution is the suggested resolution
when the dpi string is empty and the integer of a valid dpi string otherwise;
the candidate width (height) is the integer that `atoi` reads from a non-empty
width (height) string and otherwise `optimal_width (optimal_height) * resolution
/ optimal_resolution` in `int` arithmetic, which is the truncated quotient of
the exact product whenever that product is within the range of `int`. A positive
candidate `c` gives the width `c - c % 4`, the largest multiple of 4 not above
`c`, and a positive candidate height is the height. A record is returned
whenever the argument count is right and the reported resolution is not zero and
no quotient of the geometry derivation is `INT_MIN / -1`. -/
theorem parse_args_geometry_derivation (E : Env) (user : guac_user) (argc : Int)
    (argv : List String) :
    (∀ s, guac_rdp_parse_args E user argc argv = Except.ok (some s) →
        (argv.getD (RDP_ARGS_IDX.val E IDX_DPI) "" = "" →
          s.resolution = E.guac_rdp_suggest_resolution user)
        ∧ (∀ dpi : Int, strtol_whole (argv.getD (RDP_ARGS_IDX.val E IDX_DPI) "") = some dpi →
            INT_MIN ≤ dpi → dpi ≤ INT_MAX → s.resolution = dpi)
        ∧ ∃ derived_width derived_height candidate_width candidate_height : Int,
            c_mul_div user.optimal_width s.resolution user.optimal_resolution
              = Except.ok derived_width
            ∧ c_mul_div user.optimal_height s.resolution user.optimal_resolution
              = Except.ok derived_height
            ∧ (INT_MIN < user.optimal_width * s.resolution →
                user.optimal_width * s.resolution ≤ INT_MAX →
                derived_width
                  = Int.tdiv (user.optimal_width * s.resolution) user.optimal_resolution)
            ∧ (INT_MIN < user.optimal_height * s.resolution →
                user.optimal_height * s.resolution ≤ INT_MAX →
                derived_height
                  = Int.tdiv (user.optimal_height * s.resolution) user.optimal_resolution)
            ∧ candidate_width
              = (if argv.getD (RDP_ARGS_IDX.val E IDX_WIDTH) "" ≠ ""
                  then atoi (argv.getD (RDP_ARGS_IDX.val E IDX_WIDTH) "")
                  else derived_width)
            ∧ candidate_height
              = (if argv.getD (RDP_ARGS_IDX.val E IDX_HEIGHT) "" ≠ ""
                  then atoi (argv.getD (RDP_ARGS_IDX.val E IDX_HEIGHT) "")
                  else derived_height)
            ∧ (0 < candidate_width →
                s.width = candidate_width - candidate_width % 4
                ∧ s.width % 4 = 0
                ∧ s.width ≤ candidate_width
                ∧ candidate_width < s.width + 4)
            ∧ (0 < candidate_height → s.height = candidate_height))
    ∧ (argc = (RDP_ARGS_COUNT E : Int) → user.optimal_resolution ≠ 0 →
        ¬ quotient_overflows E user argv →
        ∃ s, guac_rdp_parse_args E user argc argv = Except.ok (some s)) := by
  refine ⟨?_, parse_args_returns E user argc argv⟩
  intro s h
  obtain ⟨hres, derived_width, derived_height, hdw, hdh, hwidth, hheight⟩ :=
    parse_args_geometry E user argc argv s h
  refine ⟨?_, ?_, derived_width, derived_height, _, _, hdw, hdh, ?_, ?_, rfl, rfl, ?_, ?_⟩
  · intro hblank
    rw [hres, parse_args_int_blank argv _ _ hblank]
  · intro dpi hdpi hlo hhi
    rw [hres, parse_args_int_valid argv _ _ dpi hdpi hlo hhi]
  · exact c_mul_div_exact _ _ _ _ hdw
  · exact c_mul_div_exact _ _ _ _ hdh
  · intro hpos
    have hrange : INT_MIN ≤ (if argv.getD (RDP_ARGS_IDX.val E IDX_WIDTH) "" ≠ ""
          then atoi (argv.getD (RDP_ARGS_IDX.val E IDX_WIDTH) "") else derived_width)
        ∧ (if argv.getD (RDP_ARGS_IDX.val E IDX_WIDTH) "" ≠ ""
          then atoi (argv.getD (RDP_ARGS_IDX.val E IDX_WIDTH) "") else derived_width)
          ≤ INT_MAX := by
      split
      · exact atoi_range _
      · exact c_mul_div_range _ _ _ _ hdw
    rw [hwidth, if_neg (by omega), c_and_not_3_eq _ hrange.1 hrange.2]
    omega
  · intro hpos
    rw [hheight, if_neg (by omega)]

/-- C19: in every returned record the port is the default that the resolved
security mode selects when the port string is empty,
`RDP_DEFAULT_VMCONNECT_PORT` for the security string "vmconnect" and
`RDP_DEFAULT_PORT` for every other security string, and it is the integer of a
valid port string whatever the security string is. A record is returned whenever
the argument count is right and the reported resolution is not zero and no
quotient of the geometry derivation is `INT_MIN / -1`. -/
theorem parse_args_port_default_by_security (E : Env) (user : guac_user) (argc : Int)
    (argv : List String) :
    (∀ s, guac_rdp_parse_args E user argc argv = Except.ok (some s) →
        (s.security_mode = GUAC_SECURITY_VMCONNECT
          ↔ argv.getD (RDP_ARGS_IDX.val E IDX_SECURITY) "" = "vmconnect")
        ∧ (argv.getD (RDP_ARGS_IDX.val E IDX_PORT) "" = "" →
            argv.getD (RDP_ARGS_IDX.val E IDX_SECURITY) "" = "vmconnect" →
            s.port = E.RDP_DEFAULT_VMCONNECT_PORT)
        ∧ (argv.getD (RDP_ARGS_IDX.val E IDX_PORT) "" = "" →
            argv.getD (RDP_ARGS_IDX.val E IDX_SECURITY) "" ≠ "vmconnect" →
            s.port = E.RDP_DEFAULT_PORT)
        ∧ (∀ port : Int, strtol_whole (argv.getD (RDP_ARGS_IDX.val E IDX_PORT) "") = some port →
            INT_MIN ≤ port → port ≤ INT_MAX → s.port = port))
    ∧ (argc = (RDP_ARGS_COUNT E : Int) → user.optimal_resolution ≠ 0 →
        ¬ quotient_overflows E user argv →
        ∃ s, guac_rdp_parse_args E user argc argv = Except.ok (some s)) := by
  refine ⟨?_, parse_args_returns E user argc argv⟩
  intro s h
  have hport := parse_args_port E user argc argv s h
  have hmode := parse_args_security_mode E user argc argv s h
  have hiff : s.security_mode = GUAC_SECURITY_VMCONNECT
      ↔ argv.getD (RDP_ARGS_IDX.val E IDX_SECURITY) "" = "vmconnect" := by
    generalize argv.getD (RDP_ARGS_IDX.val E IDX_SECURITY) "" = security at hmode
    rw [hmode]
    constructor
    · intro hvm
      by_contra hne
      rw [if_neg hne] at hvm
      repeat' split at hvm
      all_goals cases hvm
    · intro hvm
      subst hvm
      decide
  refine ⟨hiff, ?_, ?_, ?_⟩
  · intro hblank hvm
    rw [hport, parse_args_int_blank argv _ _ hblank, if_pos (hiff.mpr hvm)]
  · intro hblank hvm
    rw [hport, parse_args_int_blank argv _ _ hblank, if_neg (fun hm => hvm (hiff.mp hm))]
  · intro port hvalid hlo hhi
    rw [hport, parse_args_int_valid argv _ _ port hvalid hlo hhi]

/-- C20: in every returned record `enable_gfx` is the negation of the parsed
"disable-gfx" flag, hence true when that string is empty, and with an empty
"color-depth" string `color_depth` is `RDP_GFX_REQUIRED_DEPTH` when `enable_gfx`
is true and `RDP_DEFAULT_DEPTH` when it is false. A record is returned whenever
the argument count is right and the reported resolution is not zero and no
quotient of the geometry derivation is `INT_MIN / -1`. -/
theorem parse_args_depth_default_by_gfx (E : Env) (user : guac_user) (argc : Int)
    (argv : List String) :
    (∀ s, guac_rdp_parse_args E user argc argv = Except.ok (some s) →
        s.enable_gfx
          = (! guac_user_parse_args_boolean argv (RDP_ARGS_IDX.val E IDX_DISABLE_GFX) false)
        ∧ (argv.getD (RDP_ARGS_IDX.val E IDX_DISABLE_GFX) "" = "" → s.enable_gfx = true)
        ∧ (argv.getD (RDP_ARGS_IDX.val E IDX_COLOR_DEPTH) "" = "" → s.enable_gfx = true →
            s.color_depth = E.RDP_GFX_REQUIRED_DEPTH)
        ∧ (argv.getD (RDP_ARGS_IDX.val E IDX_COLOR_DEPTH) "" = "" → s.enable_gfx = false →
            s.color_depth = E.RDP_DEFAULT_DEPTH))
    ∧ (argc = (RDP_ARGS_COUNT E : Int) → user.optimal_resolution ≠ 0 →
        ¬ quotient_overflows E user argv →
        ∃ s, guac_rdp_parse_args E user argc argv = Except.ok (some s)) := by
  refine ⟨?_, parse_args_returns E user argc argv⟩
  intro s h
  obtain ⟨hgfx, hdepth⟩ := parse_args_gfx_and_depth E user argc argv s h
  refine ⟨hgfx, ?_, ?_, ?_⟩
  · intro hblank
    rw [hgfx, parse_args_boolean_blank argv _ _ hblank]
    rfl
  · intro hblank htrue
    rw [hdepth, parse_args_int_blank argv _ _ hblank, htrue]
    rfl
  · intro hblank hfalse
    rw [hdepth, parse_args_int_blank argv _ _ hblank, hfalse]
    rfl

/-- Witness of C18: the theorem applied to the reference inputs (1920x1080 at
96 DPI) with the dpi string "192", an empty width string and the height
string "1001". -/
theorem parse_args_geometry_derivation_witness :
    ∃ s, guac_rdp_parse_args reference_env reference_user (RDP_ARGS_COUNT reference_env)
          (set_arg reference_env (set_arg reference_env (blank_args reference_env)
            IDX_DPI "192") IDX_HEIGHT "1001")
        = Except.ok (some s)
      ∧ s.resolution = 192 ∧ s.width = 3840 ∧ s.height = 1001 := by
  have h := parse_args_geometry_derivation reference_env reference_user
    (RDP_ARGS_COUNT reference_env)
    (set_arg reference_env (set_arg reference_env (blank_args reference_env)
      IDX_DPI "192") IDX_HEIGHT "1001")
  obtain ⟨s, hs⟩ := h.2 rfl (by decide)
    (fun hq => absurd hq.1 (by decide))
  obtain ⟨-, hdpi, dw, dh, cw, ch, hdw, -, -, -, hcw, hch, hwidth, hheight⟩ := h.1 s hs
  have hres : s.resolution = 192 := hdpi 192 (by decide) (by decide) (by decide)
  rw [hres] at hdw
  have hdw3840 : dw = 3840 := by
    have : c_mul_div reference_user.optimal_width 192 reference_user.optimal_resolution
        = Except.ok 3840 := by decide
    rw [this] at hdw
    injection hdw with hdw
    exact hdw.symm
  have hcw3840 : cw = 3840 := by
    rw [hcw, if_neg (by decide), hdw3840]
  have hch1001 : ch = 1001 := by
    rw [hch, if_pos (by decide)]
    decide
  refine ⟨s, hs, hres, ?_, ?_⟩
  · rw [(hwidth (by omega)).1, hcw3840]
    decide
  · rw [hheight (by omega), hch1001]

/-- Witness of C19: the theorem applied to the reference inputs with the
security string "vmconnect" and an empty port string. -/
theorem parse_args_port_default_by_security_witness :
    ∃ s, guac_rdp_parse_args reference_env reference_user (RDP_ARGS_COUNT reference_env)
          (set_arg reference_env (blank_args reference_env) IDX_SECURITY "vmconnect")
        = Except.ok (some s)
      ∧ s.port = 2179 := by
  have h := parse_args_port_default_by_security reference_env reference_user
    (RDP_ARGS_COUNT reference_env)
    (set_arg reference_env (blank_args reference_env) IDX_SECURITY "vmconnect")
  obtain ⟨s, hs⟩ := h.2 rfl (by decide)
    (fun hq => absurd hq.1 (by decide))
  exact ⟨s, hs, (h.1 s hs).2.1 (by decide) (by decide)⟩

/-- Witness of C20: the theorem applied to the reference inputs with
"disable-gfx" set to "true" and an empty "color-depth" string. -/
theorem parse_args_depth_default_by_gfx_witness :
    ∃ s, guac_rdp_parse_args reference_env reference_user (RDP_ARGS_COUNT reference_env)
          (set_arg reference_env (blank_args reference_env) IDX_DISABLE_GFX "true")
        = Except.ok (some s)
      ∧ s.enable_gfx = false ∧ s.color_depth = 16 := by
  have h := parse_args_depth_default_by_gfx reference_env reference_user
    (RDP_ARGS_COUNT reference_env)
    (set_arg reference_env (blank_args reference_env) IDX_DISABLE_GFX "true")
  obtain ⟨s, hs⟩ := h.2 rfl (by decide)
    (fun hq => absurd hq.1 (by decide))
  have hgfx : s.enable_gfx = false := by
    rw [(h.1 s hs).1]
    decide
  exact ⟨s, hs, hgfx, (h.1 s hs).2.2.2 (by decide) hgfx⟩

/-! ## Fields that the projector assigns before the security switch -/

theorem to_int_to_uint32 (x : Int) : to_int (to_uint32 x) = to_int x := by
  unfold to_int to_uint32
  have h : ((x % 4294967296).toNat : Int) = x % 4294967296 :=
    Int.toNat_of_nonneg (Int.emod_nonneg _ (by decide))
  rw [h]
  omega

theorem push_settings_gfx (E : Env) (s : guac_rdp_settings) (rdp : freerdp) :
    (guac_rdp_push_settings E s rdp).settings.ColorDepth
        = (if s.enable_gfx then to_uint32 E.RDP_GFX_REQUIRED_DEPTH
            else to_uint32 s.color_depth)
    ∧ (guac_rdp_push_settings E s rdp).settings.SupportGraphicsPipeline
        = (if s.enable_gfx then true else rdp.settings.SupportGraphicsPipeline)
    ∧ (guac_rdp_push_settings E s rdp).settings.RemoteFxCodec
        = (if s.enable_gfx then true else rdp.settings.RemoteFxCodec)
    ∧ (guac_rdp_push_settings E s rdp).settings.SoftwareGdi
        = (if s.enable_gfx then true else rdp.settings.SoftwareGdi) := by
  unfold guac_rdp_push_settings
  cases E.HAVE_SETTERS_GETTERS
  · cases hm : s.security_mode <;>
      (unfold guac_rdp_push_settings_fields; rw [hm]) <;> exact ⟨rfl, rfl, rfl, rfl⟩
  · cases hm : s.security_mode <;>
      (unfold guac_rdp_push_settings_setters; rw [hm]) <;> exact ⟨rfl, rfl, rfl, rfl⟩

theorem push_settings_setters_DeviceRedirection (E : Env) (s : guac_rdp_settings)
    (rdp : freerdp) :
    (guac_rdp_push_settings_setters E s rdp).settings.DeviceRedirection
      = (s.audio_enabled || s.drive_enabled || s.printing_enabled || s.enable_webcam) := by
  cases hm : s.security_mode <;>
    (unfold guac_rdp_push_settings_setters; rw [hm]) <;> rfl

theorem push_settings_fields_DeviceRedirection (E : Env) (s : guac_rdp_settings)
    (rdp : freerdp) :
    (guac_rdp_push_settings_fields E s rdp).settings.DeviceRedirection
      = (s.audio_enabled || s.drive_enabled || s.printing_enabled || s.enable_webcam) := by
  cases hm : s.security_mode <;>
    (unfold guac_rdp_push_settings_fields; rw [hm]) <;> rfl

theorem push_settings_setters_TcpAckTimeout (E : Env) (s : guac_rdp_settings)
    (rdp : freerdp) :
    (guac_rdp_push_settings_setters E s rdp).settings.TcpAckTimeout
      = rdp.settings.TcpAckTimeout := by
  cases hm : s.security_mode <;>
    (unfold guac_rdp_push_settings_setters; rw [hm]) <;> rfl

theorem push_settings_fields_TcpAckTimeout (E : Env) (s : guac_rdp_settings)
    (rdp : freerdp) :
    (guac_rdp_push_settings_fields E s rdp).settings.TcpAckTimeout
      = to_uint32 (to_int (s.timeout * 1000)) := by
  cases hm : s.security_mode <;>
    (unfold guac_rdp_push_settings_fields; rw [hm]) <;> rfl

theorem push_settings_security (E : Env) (s : guac_rdp_settings) (rdp : freerdp) :
    (guac_rdp_push_settings E s rdp).settings.security_flags
        = (match s.security_mode with
          | GUAC_SECURITY_RDP => (true, false, false, false)
          | GUAC_SECURITY_TLS => (false, true, false, false)
          | GUAC_SECURITY_NLA => (false, false, true, false)
          | GUAC_SECURITY_EXTENDED_NLA => (false, false, false, true)
          | GUAC_SECURITY_VMCONNECT => (false, true, true, false)
          | GUAC_SECURITY_ANY =>
            (true, true, if E.guac_fips_enabled then false else true, false))
    ∧ (guac_rdp_push_settings E s rdp).settings.VmConnectMode
        = (match s.security_mode with
          | GUAC_SECURITY_VMCONNECT => true
          | _ => rdp.settings.VmConnectMode) := by
  unfold guac_rdp_push_settings
  cases E.HAVE_SETTERS_GETTERS
  · cases hm : s.security_mode <;>
      (unfold guac_rdp_push_settings_fields; rw [hm]) <;> exact ⟨rfl, rfl⟩
  · cases hm : s.security_mode <;>
      (unfold guac_rdp_push_settings_setters; rw [hm]) <;> exact ⟨rfl, rfl⟩

theorem push_settings_performance (E : Env) (s : guac_rdp_settings) (rdp : freerdp) :
    (guac_rdp_push_settings E s rdp).settings.PerformanceFlags
        = guac_rdp_get_performance_flags E s
    ∧ (guac_rdp_push_settings E s rdp).settings.DisableWallpaper = (! s.wallpaper_enabled)
    ∧ (guac_rdp_push_settings E s rdp).settings.DisableThemes = (! s.theming_enabled)
    ∧ (guac_rdp_push_settings E s rdp).settings.AllowFontSmoothing = s.font_smoothing_enabled
    ∧ (guac_rdp_push_settings E s rdp).settings.DisableFullWindowDrag
        = (! s.full_window_drag_enabled)
    ∧ (guac_rdp_push_settings E s rdp).settings.AllowDesktopComposition
        = s.desktop_composition_enabled
    ∧ (guac_rdp_push_settings E s rdp).settings.DisableMenuAnims
        = (! s.menu_animations_enabled) := by
  unfold guac_rdp_push_settings
  cases E.HAVE_SETTERS_GETTERS
  · cases hm : s.security_mode <;>
      (unfold guac_rdp_push_settings_fields; rw [hm]) <;>
      exact ⟨rfl, rfl, rfl, rfl, rfl, rfl, rfl⟩
  · cases hm : s.security_mode <;>
      (unfold guac_rdp_push_settings_setters; rw [hm]) <;>
      exact ⟨rfl, rfl, rfl, rfl, rfl, rfl, rfl⟩

theorem parse_args_blank :
    guac_rdp_parse_args reference_env reference_user (RDP_ARGS_COUNT reference_env)
      (blank_args reference_env) = Except.ok (some reference_settings) := rfl

/-- C21: for every settings record, after `guac_rdp_push_settings` (either body)
the engine's `ColorDepth` is `RDP_GFX_REQUIRED_DEPTH` when `enable_gfx` is true,
whatever `color_depth` holds, and `SupportGraphicsPipeline`, `RemoteFxCodec` and
`SoftwareGdi` are enabled; when `enable_gfx` is false `ColorDepth` is the
settings' `color_depth`.  `ColorDepth` is a `UINT32` that receives an `int`: it
holds the same number for a non-negative value, and `guac_rdp_get_depth` reads
back the same `int` for every value. -/
theorem push_settings_color_depth_by_gfx (E : Env) (s : guac_rdp_settings) (rdp : freerdp) :
    (s.enable_gfx = true →
        (guac_rdp_push_settings E s rdp).settings.ColorDepth
            = to_uint32 E.RDP_GFX_REQUIRED_DEPTH
        ∧ (0 ≤ E.RDP_GFX_REQUIRED_DEPTH → E.RDP_GFX_REQUIRED_DEPTH ≤ INT_MAX →
            ((guac_rdp_push_settings E s rdp).settings.ColorDepth : Int)
                = E.RDP_GFX_REQUIRED_DEPTH
            ∧ guac_rdp_get_depth (guac_rdp_push_settings E s rdp)
                = E.RDP_GFX_REQUIRED_DEPTH)
        ∧ (guac_rdp_push_settings E s rdp).settings.SupportGraphicsPipeline = true
        ∧ (guac_rdp_push_settings E s rdp).settings.RemoteFxCodec = true
        ∧ (guac_rdp_push_settings E s rdp).settings.SoftwareGdi = true)
    ∧ (s.enable_gfx = false →
        (guac_rdp_push_settings E s rdp).settings.ColorDepth = to_uint32 s.color_depth
        ∧ (0 ≤ s.color_depth → s.color_depth ≤ INT_MAX →
            ((guac_rdp_push_settings E s rdp).settings.ColorDepth : Int) = s.color_depth)
        ∧ (INT_MIN ≤ s.color_depth → s.color_depth ≤ INT_MAX →
            guac_rdp_get_depth (guac_rdp_push_settings E s rdp) = s.color_depth)) := by
  obtain ⟨hdepth, hpipeline, hcodec, hgdi⟩ := push_settings_gfx E s rdp
  have hnat : ∀ x : Int, 0 ≤ x → x ≤ INT_MAX → ((to_uint32 x : Nat) : Int) = x := by
    intro x h0 hx
    unfold INT_MAX at hx
    exact to_uint32_of_nonneg x h0 (by omega)
  constructor
  · intro hgfx
    rw [hgfx, if_pos rfl] at hdepth hpipeline hcodec hgdi
    refine ⟨hdepth, ?_, hpipeline, hcodec, hgdi⟩
    intro h0 hmax
    refine ⟨?_, ?_⟩
    · rw [hdepth]
      exact hnat _ h0 hmax
    · unfold guac_rdp_get_depth
      rw [hdepth, to_int_to_uint32]
      exact to_int_of_range _ (by unfold INT_MIN; omega) hmax
  · intro hgfx
    rw [hgfx, if_neg Bool.false_ne_true] at hdepth
    refine ⟨hdepth, ?_, ?_⟩
    · intro h0 hmax
      rw [hdepth]
      exact hnat _ h0 hmax
    · intro hmin hmax
      unfold guac_rdp_get_depth
      rw [hdepth, to_int_to_uint32]
      exact to_int_of_range _ hmin hmax

/-- Witness of C21: the theorem applied to the reference settings (graphics
pipeline enabled) with a requested depth of 16, and to the same record with the
graphics pipeline disabled. -/
theorem push_settings_color_depth_by_gfx_witness :
    (guac_rdp_push_settings reference_env { reference_settings with color_depth := 16 }
        zero_freerdp).settings.ColorDepth = 32
    ∧ guac_rdp_get_depth
        (guac_rdp_push_settings reference_env_fields
          { reference_settings with enable_gfx := false, color_depth := 16 } zero_freerdp)
      = 16 :=
  ⟨((push_settings_color_depth_by_gfx reference_env
        { reference_settings with color_depth := 16 } zero_freerdp).1 rfl).1,
   ((push_settings_color_depth_by_gfx reference_env_fields
        { reference_settings with enable_gfx := false, color_depth := 16 }
        zero_freerdp).2 rfl).2.2 (by decide) (by decide)⟩

/-- C22: for every settings record, after `guac_rdp_push_settings` the engine's
`DeviceRedirection` flag is true if and only if `audio_enabled`,
`drive_enabled`, `printing_enabled` or `enable_webcam` is true, in the body
compiled with `HAVE_SETTERS_GETTERS` and in the body compiled without it. -/
theorem push_settings_device_redirection (E : Env) (s : guac_rdp_settings) (rdp : freerdp) :
    ((guac_rdp_push_settings E s rdp).settings.DeviceRedirection = true
      ↔ (s.audio_enabled = true ∨ s.drive_enabled = true ∨ s.printing_enabled = true
          ∨ s.enable_webcam = true))
    ∧ ((guac_rdp_push_settings_setters E s rdp).settings.DeviceRedirection = true
      ↔ (s.audio_enabled = true ∨ s.drive_enabled = true ∨ s.printing_enabled = true
          ∨ s.enable_webcam = true))
    ∧ ((guac_rdp_push_settings_fields E s rdp).settings.DeviceRedirection = true
      ↔ (s.audio_enabled = true ∨ s.drive_enabled = true ∨ s.printing_enabled = true
          ∨ s.enable_webcam = true)) := by
  have hor : ((s.audio_enabled || s.drive_enabled || s.printing_enabled || s.enable_webcam)
        = true
      ↔ (s.audio_enabled = true ∨ s.drive_enabled = true ∨ s.printing_enabled = true
          ∨ s.enable_webcam = true)) := by
    cases s.audio_enabled <;> cases s.drive_enabled <;> cases s.printing_enabled <;>
      cases s.enable_webcam <;> decide
  refine ⟨?_, ?_, ?_⟩
  · unfold guac_rdp_push_settings
    cases E.HAVE_SETTERS_GETTERS
    · rw [if_neg (by decide), push_settings_fields_DeviceRedirection]
      exact hor
    · rw [if_pos rfl, push_settings_setters_DeviceRedirection]
      exact hor
  · rw [push_settings_setters_DeviceRedirection]
    exact hor
  · rw [push_settings_fields_DeviceRedirection]
    exact hor

/-- C25 (fails on the code): the body of `guac_rdp_push_settings` compiled with
`HAVE_SETTERS_GETTERS` never assigns `TcpAckTimeout`, so the engine keeps the
value it had, while the body compiled without it stores `timeout * 1000`.  For
the record resolved from the blank argument vector (timeout 10) and an engine
configuration whose timeout is 0, the projection with setters leaves 0 and the
projection without setters gives 10000. -/
theorem push_settings_setters_drop_timeout :
    reference_env.HAVE_SETTERS_GETTERS = true
    ∧ guac_rdp_parse_args reference_env reference_user (RDP_ARGS_COUNT reference_env)
        (blank_args reference_env) = Except.ok (some reference_settings)
    ∧ reference_settings.timeout = 10
    ∧ (guac_rdp_push_settings reference_env reference_settings
        zero_freerdp).settings.TcpAckTimeout = 0
    ∧ (guac_rdp_push_settings reference_env_fields reference_settings
        zero_freerdp).settings.TcpAckTimeout = 10000
    ∧ (∀ (E : Env) (s : guac_rdp_settings) (rdp : freerdp),
        (guac_rdp_push_settings_setters E s rdp).settings.TcpAckTimeout
          = rdp.settings.TcpAckTimeout)
    ∧ (∀ (E : Env) (s : guac_rdp_settings) (rdp : freerdp),
        (guac_rdp_push_settings_fields E s rdp).settings.TcpAckTimeout
          = to_uint32 (to_int (s.timeout * 1000))) :=
  ⟨rfl, parse_args_blank, rfl, rfl, by decide, push_settings_setters_TcpAckTimeout,
    push_settings_fields_TcpAckTimeout⟩

/-- C29: after `guac_rdp_push_settings` (either body), the modes legacy RDP,
TLS, NLA and extended NLA leave exactly the matching one of `RdpSecurity`,
`TlsSecurity`, `NlaSecurity`, `ExtSecurity` true; VMConnect leaves `TlsSecurity`
and `NlaSecurity` true, `RdpSecurity` and `ExtSecurity` false and sets
`VmConnectMode`; negotiate-any without FIPS leaves `RdpSecurity`, `TlsSecurity`
and `NlaSecurity` true and `ExtSecurity` false.  The four flags are assigned
for every mode: their values do not depend on the engine configuration that the
projector starts from. -/
theorem push_settings_security_flags (E : Env) (s : guac_rdp_settings) (rdp : freerdp) :
    (s.security_mode = GUAC_SECURITY_RDP →
        (guac_rdp_push_settings E s rdp).settings.security_flags
          = (true, false, false, false))
    ∧ (s.security_mode = GUAC_SECURITY_TLS →
        (guac_rdp_push_settings E s rdp).settings.security_flags
          = (false, true, false, false))
    ∧ (s.security_mode = GUAC_SECURITY_NLA →
        (guac_rdp_push_settings E s rdp).settings.security_flags
          = (false, false, true, false))
    ∧ (s.security_mode = GUAC_SECURITY_EXTENDED_NLA →
        (guac_rdp_push_settings E s rdp).settings.security_flags
          = (false, false, false, true))
    ∧ (s.security_mode = GUAC_SECURITY_VMCONNECT →
        (guac_rdp_push_settings E s rdp).settings.security_flags
          = (false, true, true, false)
        ∧ (guac_rdp_push_settings E s rdp).settings.VmConnectMode = true)
    ∧ (s.security_mode = GUAC_SECURITY_ANY → E.guac_fips_enabled = false →
        (guac_rdp_push_settings E s rdp).settings.security_flags
          = (true, true, true, false))
    ∧ (∀ other : freerdp,
        (guac_rdp_push_settings E s other).settings.security_flags
          = (guac_rdp_push_settings E s rdp).settings.security_flags) := by
  obtain ⟨hflags, hvm⟩ := push_settings_security E s rdp
  refine ⟨?_, ?_, ?_, ?_, ?_, ?_, ?_⟩
  · intro hm
    rw [hflags, hm]
  · intro hm
    rw [hflags, hm]
  · intro hm
    rw [hflags, hm]
  · intro hm
    rw [hflags, hm]
  · intro hm
    rw [hflags, hvm, hm]
    exact ⟨rfl, rfl⟩
  · intro hm hfips
    rw [hflags, hm, hfips]
    rfl
  · intro other
    rw [hflags, (push_settings_security E s other).1]

/-- Witness of C29: the theorem applied to the reference settings with the
VMConnect mode, and to the reference settings (negotiate-any) under the
reference environment without FIPS. -/
theorem push_settings_security_flags_witness :
    ((guac_rdp_push_settings reference_env
        { reference_settings with security_mode := GUAC_SECURITY_VMCONNECT }
        zero_freerdp).settings.security_flags = (false, true, true, false)
      ∧ (guac_rdp_push_settings reference_env
        { reference_settings with security_mode := GUAC_SECURITY_VMCONNECT }
        zero_freerdp).settings.VmConnectMode = true)
    ∧ (guac_rdp_push_settings reference_env_no_fips reference_settings
        zero_freerdp).settings.security_flags = (true, true, true, false) :=
  ⟨(push_settings_security_flags reference_env
      { reference_settings with security_mode := GUAC_SECURITY_VMCONNECT }
      zero_freerdp).2.2.2.2.1 rfl,
   (push_settings_security_flags reference_env_no_fips reference_settings
      zero_freerdp).2.2.2.2.2.1 rfl rfl⟩

/-! ## Performance flags -/

theorem performance_flags_eq (E : Env) (s : guac_rdp_settings) :
    guac_rdp_get_performance_flags E s
      = E.PERF_FLAG_NONE
        ||| (if s.wallpaper_enabled then 0 else E.PERF_DISABLE_WALLPAPER)
        ||| (if s.theming_enabled then 0 else E.PERF_DISABLE_THEMING)
        ||| (if s.font_smoothing_enabled then E.PERF_ENABLE_FONT_SMOOTHING else 0)
        ||| (if s.full_window_drag_enabled then 0 else E.PERF_DISABLE_FULLWINDOWDRAG)
        ||| (if s.desktop_composition_enabled then E.PERF_ENABLE_DESKTOP_COMPOSITION else 0)
        ||| (if s.menu_animations_enabled then 0 else E.PERF_DISABLE_MENUANIMATIONS) := by
  unfold guac_rdp_get_performance_flags
  cases s.wallpaper_enabled <;> cases s.theming_enabled <;>
    cases s.font_smoothing_enabled <;> cases s.full_window_drag_enabled <;>
    cases s.desktop_composition_enabled <;> cases s.menu_animations_enabled <;>
    simp

theorem ite_land_zero (c : Bool) (a m : Nat) :
    (if c then a else 0) &&& m = if c then a &&& m else 0 := by
  cases c <;> simp

theorem ite_zero_land (c : Bool) (a m : Nat) :
    (if c then 0 else a) &&& m = if c then 0 else a &&& m := by
  cases c <;> simp

/-- A union of six selected masks meets a mask that is disjoint from all six in
no bit. -/
theorem selected_union_land_other (W T F D C M other : Nat) (w t f d c m : Bool)
    (hW : W &&& other = 0) (hT : T &&& other = 0) (hF : F &&& other = 0)
    (hD : D &&& other = 0) (hC : C &&& other = 0) (hM : M &&& other = 0) :
    ((if w then 0 else W)
        ||| (if t then 0 else T)
        ||| (if f then F else 0)
        ||| (if d then 0 else D)
        ||| (if c then C else 0)
        ||| (if m then 0 else M)) &&& other = 0 := by
  simp only [Nat.and_distrib_right, ite_land_zero, ite_zero_land, hW, hT, hF, hD, hC, hM,
    ite_self, Nat.zero_or]

/-- A union of six selected masks, no two of which have a bit in common, meets
each of the six in that mask if it is selected and in no bit otherwise. -/
theorem selected_union_land (W T F D C M : Nat) (w t f d c m : Bool)
    (hp : List.Pairwise (fun a b => a &&& b = 0) [W, T, F, D, C, M]) :
    ((if w then 0 else W)
        ||| (if t then 0 else T)
        ||| (if f then F else 0)
        ||| (if d then 0 else D)
        ||| (if c then C else 0)
        ||| (if m then 0 else M)) &&& W
        = (if w then 0 else W)
    ∧ ((if w then 0 else W)
        ||| (if t then 0 else T)
        ||| (if f then F else 0)
        ||| (if d then 0 else D)
        ||| (if c then C else 0)
        ||| (if m then 0 else M)) &&& T
        = (if t then 0 else T)
    ∧ ((if w then 0 else W)
        ||| (if t then 0 else T)
        ||| (if f then F else 0)
        ||| (if d then 0 else D)
        ||| (if c then C else 0)
        ||| (if m then 0 else M)) &&& F
        = (if f then F else 0)
    ∧ ((if w then 0 else W)
        ||| (if t then 0 else T)
        ||| (if f then F else 0)
        ||| (if d then 0 else D)
        ||| (if c then C else 0)
        ||| (if m then 0 else M)) &&& D
        = (if d then 0 else D)
    ∧ ((if w then 0 else W)
        ||| (if t then 0 else T)
        ||| (if f then F else 0)
        ||| (if d then 0 else D)
        ||| (if c then C else 0)
        ||| (if m then 0 else M)) &&& C
        = (if c then C else 0)
    ∧ ((if w then 0 else W)
        ||| (if t then 0 else T)
        ||| (if f then F else 0)
        ||| (if d then 0 else D)
        ||| (if c then C else 0)
        ||| (if m then 0 else M)) &&& M
        = (if m then 0 else M) := by
  simp only [List.pairwise_cons, List.mem_cons, List.mem_singleton, forall_eq_or_imp,
    forall_eq, List.not_mem_nil, false_implies, implies_true, and_true,
    List.Pairwise.nil, IsEmpty.forall_iff] at hp
  obtain ⟨⟨hWT, hWF, hWD, hWC, hWM⟩, ⟨hTF, hTD, hTC, hTM⟩, ⟨hFD, hFC, hFM⟩, ⟨hDC, hDM⟩, hCM⟩ :=
    hp
  have hTW := (Nat.land_comm T W).trans hWT
  have hFW := (Nat.land_comm F W).trans hWF
  have hDW := (Nat.land_comm D W).trans hWD
  have hCW := (Nat.land_comm C W).trans hWC
  have hMW := (Nat.land_comm M W).trans hWM
  have hFT := (Nat.land_comm F T).trans hTF
  have hDT := (Nat.land_comm D T).trans hTD
  have hCT := (Nat.land_comm C T).trans hTC
  have hMT := (Nat.land_comm M T).trans hTM
  have hDF := (Nat.land_comm D F).trans hFD
  have hCF := (Nat.land_comm C F).trans hFC
  have hMF := (Nat.land_comm M F).trans hFM
  have hCD := (Nat.land_comm C D).trans hDC
  have hMD := (Nat.land_comm M D).trans hDM
  have hMC := (Nat.land_comm M C).trans hCM
  refine ⟨?_, ?_, ?_, ?_, ?_, ?_⟩ <;>
    simp only [Nat.and_distrib_right, ite_land_zero, ite_zero_land, hWT, hWF, hWD, hWC, hWM,
      hTF, hTD, hTC, hTM, hFD, hFC, hFM, hDC, hDM, hCM, hTW, hFW, hDW, hCW, hMW, hFT, hDT,
      hCT, hMT, hDF, hCF, hMF, hCD, hMD, hMC, Nat.and_self, ite_self, Nat.zero_or,
      Nat.or_zero]

/-- C30: with performance flag macros that name six different bits,
`guac_rdp_get_performance_flags` returns the bitwise OR of
`PERF_DISABLE_WALLPAPER` if wallpaper is not enabled, `PERF_DISABLE_THEMING` if
theming is not enabled, `PERF_ENABLE_FONT_SMOOTHING` if font smoothing is
enabled, `PERF_DISABLE_FULLWINDOWDRAG` if full-window drag is not enabled,
`PERF_ENABLE_DESKTOP_COMPOSITION` if desktop composition is enabled and
`PERF_DISABLE_MENUANIMATIONS` if menu animations are not enabled: the result
holds each flag exactly under its condition and has no bit outside the six.
After `guac_rdp_push_settings` (either body) `PerformanceFlags` is that value
and each of its six bits is set exactly when the individually projected engine
flag (`DisableWallpaper`, `DisableThemes`, `AllowFontSmoothing`,
`DisableFullWindowDrag`, `AllowDesktopComposition`, `DisableMenuAnims`) is
true. -/
theorem performance_flags_exact (E : Env) (s : guac_rdp_settings) (rdp : freerdp)
    (hperf : PERF_flags_distinct E) :
    guac_rdp_get_performance_flags E s
      = ((if s.wallpaper_enabled then 0 else E.PERF_DISABLE_WALLPAPER)
          ||| (if s.theming_enabled then 0 else E.PERF_DISABLE_THEMING)
          ||| (if s.font_smoothing_enabled then E.PERF_ENABLE_FONT_SMOOTHING else 0)
          ||| (if s.full_window_drag_enabled then 0 else E.PERF_DISABLE_FULLWINDOWDRAG)
          ||| (if s.desktop_composition_enabled then E.PERF_ENABLE_DESKTOP_COMPOSITION else 0)
          ||| (if s.menu_animations_enabled then 0 else E.PERF_DISABLE_MENUANIMATIONS))
    ∧ guac_rdp_get_performance_flags E s &&& E.PERF_DISABLE_WALLPAPER
        = (if s.wallpaper_enabled then 0 else E.PERF_DISABLE_WALLPAPER)
    ∧ guac_rdp_get_performance_flags E s &&& E.PERF_DISABLE_THEMING
        = (if s.theming_enabled then 0 else E.PERF_DISABLE_THEMING)
    ∧ guac_rdp_get_performance_flags E s &&& E.PERF_ENABLE_FONT_SMOOTHING
        = (if s.font_smoothing_enabled then E.PERF_ENABLE_FONT_SMOOTHING else 0)
    ∧ guac_rdp_get_performance_flags E s &&& E.PERF_DISABLE_FULLWINDOWDRAG
        = (if s.full_window_drag_enabled then 0 else E.PERF_DISABLE_FULLWINDOWDRAG)
    ∧ guac_rdp_get_performance_flags E s &&& E.PERF_ENABLE_DESKTOP_COMPOSITION
        = (if s.desktop_composition_enabled then E.PERF_ENABLE_DESKTOP_COMPOSITION else 0)
    ∧ guac_rdp_get_performance_flags E s &&& E.PERF_DISABLE_MENUANIMATIONS
        = (if s.menu_animations_enabled then 0 else E.PERF_DISABLE_MENUANIMATIONS)
    ∧ (∀ other : Nat,
        E.PERF_DISABLE_WALLPAPER &&& other = 0 →
        E.PERF_DISABLE_THEMING &&& other = 0 →
        E.PERF_ENABLE_FONT_SMOOTHING &&& other = 0 →
        E.PERF_DISABLE_FULLWINDOWDRAG &&& other = 0 →
        E.PERF_ENABLE_DESKTOP_COMPOSITION &&& other = 0 →
        E.PERF_DISABLE_MENUANIMATIONS &&& other = 0 →
        guac_rdp_get_performance_flags E s &&& other = 0)
    ∧ (guac_rdp_push_settings E s rdp).settings.PerformanceFlags
        = guac_rdp_get_performance_flags E s
    ∧ ((guac_rdp_push_settings E s rdp).settings.PerformanceFlags &&& E.PERF_DISABLE_WALLPAPER ≠ 0
        ↔ (guac_rdp_push_settings E s rdp).settings.DisableWallpaper = true)
    ∧ ((guac_rdp_push_settings E s rdp).settings.PerformanceFlags &&& E.PERF_DISABLE_THEMING ≠ 0
        ↔ (guac_rdp_push_settings E s rdp).settings.DisableThemes = true)
    ∧ ((guac_rdp_push_settings E s rdp).settings.PerformanceFlags &&& E.PERF_ENABLE_FONT_SMOOTHING ≠ 0
        ↔ (guac_rdp_push_settings E s rdp).settings.AllowFontSmoothing = true)
    ∧ ((guac_rdp_push_settings E s rdp).settings.PerformanceFlags &&& E.PERF_DISABLE_FULLWINDOWDRAG ≠ 0
        ↔ (guac_rdp_push_settings E s rdp).settings.DisableFullWindowDrag = true)
    ∧ ((guac_rdp_push_settings E s rdp).settings.PerformanceFlags &&& E.PERF_ENABLE_DESKTOP_COMPOSITION ≠ 0
        ↔ (guac_rdp_push_settings E s rdp).settings.AllowDesktopComposition = true)
    ∧ ((guac_rdp_push_settings E s rdp).settings.PerformanceFlags &&& E.PERF_DISABLE_MENUANIMATIONS ≠ 0
        ↔ (guac_rdp_push_settings E s rdp).settings.DisableMenuAnims = true) := by
  obtain ⟨hnone, hpair, hnonzero⟩ := hperf
  simp only [List.mem_cons, List.mem_singleton, forall_eq_or_imp, forall_eq,
    List.not_mem_nil, false_implies, implies_true, and_true, IsEmpty.forall_iff]
    at hnonzero
  obtain ⟨nW, nT, nF, nD, nC, nM⟩ := hnonzero
  have hflags := performance_flags_eq E s
  rw [hnone, Nat.zero_or] at hflags
  obtain ⟨bW, bT, bF, bD, bC, bM⟩ := selected_union_land _ _ _ _ _ _
    s.wallpaper_enabled s.theming_enabled s.font_smoothing_enabled
    s.full_window_drag_enabled s.desktop_composition_enabled s.menu_animations_enabled hpair
  rw [← hflags] at bW bT bF bD bC bM
  obtain ⟨pflags, pW, pT, pF, pD, pC, pM⟩ := push_settings_performance E s rdp
  refine ⟨hflags, bW, bT, bF, bD, bC, bM, ?_, pflags, ?_, ?_, ?_, ?_, ?_, ?_⟩
  · intro other hW hT hF hD hC hM
    rw [hflags]
    exact selected_union_land_other _ _ _ _ _ _ other _ _ _ _ _ _ hW hT hF hD hC hM
  · rw [pflags, pW, bW]
    cases s.wallpaper_enabled <;> simp [nW]
  · rw [pflags, pT, bT]
    cases s.theming_enabled <;> simp [nT]
  · rw [pflags, pF, bF]
    cases s.font_smoothing_enabled <;> simp [nF]
  · rw [pflags, pD, bD]
    cases s.full_window_drag_enabled <;> simp [nD]
  · rw [pflags, pC, bC]
    cases s.desktop_composition_enabled <;> simp [nC]
  · rw [pflags, pM, bM]
    cases s.menu_animations_enabled <;> simp [nM]

/-- Witness of C30: the theorem applied to the reference environment (the flag
values of the RDP standard) and the reference settings with font smoothing and
wallpaper enabled. -/
theorem performance_flags_exact_witness :
    PERF_flags_distinct reference_env
    ∧ guac_rdp_get_performance_flags reference_env
        { reference_settings with font_smoothing_enabled := true, wallpaper_enabled := true }
      = 8 ||| 128 ||| 2 ||| 4
    ∧ guac_rdp_get_performance_flags reference_env
        { reference_settings with font_smoothing_enabled := true, wallpaper_enabled := true }
        &&& reference_env.PERF_DISABLE_WALLPAPER = 0 := by
  have hperf : PERF_flags_distinct reference_env := ⟨rfl, by decide, by decide⟩
  have h := performance_flags_exact reference_env
    { reference_settings with font_smoothing_enabled := true, wallpaper_enabled := true }
    zero_freerdp hperf
  exact ⟨hperf, h.1.trans (by decide), h.2.1⟩

/-! ## Recording flags, clipboard line endings and Wake-on-LAN fields of a returned record -/

theorem parse_args_recording_flags (E : Env) (user : guac_user) (argc : Int)
    (argv : List String) (s : guac_rdp_settings)
    (h : guac_rdp_parse_args E user argc argv = Except.ok (some s)) :
    s.recording_exclude_output
        = guac_user_parse_args_boolean argv (RDP_ARGS_IDX.val E IDX_RECORDING_EXCLUDE_OUTPUT)
            false
    ∧ s.recording_exclude_mouse
        = guac_user_parse_args_boolean argv (RDP_ARGS_IDX.val E IDX_RECORDING_EXCLUDE_MOUSE)
            false
    ∧ s.recording_exclude_touch
        = guac_user_parse_args_boolean argv (RDP_ARGS_IDX.val E IDX_RECORDING_EXCLUDE_TOUCH)
            false
    ∧ s.recording_include_keys
        = guac_user_parse_args_boolean argv (RDP_ARGS_IDX.val E IDX_RECORDING_INCLUDE_KEYS)
            false := by
  unfold guac_rdp_parse_args at h
  simp only [] at h
  split at h
  · cases h
  · split at h
    · cases h
    · split at h
      · cases h
      · injection h with h
        injection h with h
        subst h
        exact ⟨rfl, rfl, rfl, rfl⟩

theorem parse_args_clipboard_line_endings (E : Env) (user : guac_user) (argc : Int)
    (argv : List String) (s : guac_rdp_settings)
    (h : guac_rdp_parse_args E user argc argv = Except.ok (some s)) :
    s.normalize_clipboard
        = (if argv.getD (RDP_ARGS_IDX.val E IDX_NORMALIZE_CLIPBOARD) "" = "unix" then true
          else if argv.getD (RDP_ARGS_IDX.val E IDX_NORMALIZE_CLIPBOARD) "" = "windows" then
            true
          else if argv.getD (RDP_ARGS_IDX.val E IDX_NORMALIZE_CLIPBOARD) "" = "preserve" then
            false
          else false)
    ∧ s.clipboard_crlf
        = (if argv.getD (RDP_ARGS_IDX.val E IDX_NORMALIZE_CLIPBOARD) "" = "unix" then false
          else if argv.getD (RDP_ARGS_IDX.val E IDX_NORMALIZE_CLIPBOARD) "" = "windows" then
            true
          else if argv.getD (RDP_ARGS_IDX.val E IDX_NORMALIZE_CLIPBOARD) "" = "preserve" then
            false
          else false) := by
  unfold guac_rdp_parse_args at h
  simp only [] at h
  split at h
  · cases h
  · split at h
    · cases h
    · split at h
      · cases h
      · injection h with h
        injection h with h
        subst h
        exact ⟨rfl, rfl⟩

theorem parse_args_wol_fields (E : Env) (user : guac_user) (argc : Int)
    (argv : List String) (s : guac_rdp_settings)
    (h : guac_rdp_parse_args E user argc argv = Except.ok (some s)) :
    s.wol_broadcast_addr
        = (if guac_user_parse_args_boolean argv (RDP_ARGS_IDX.val E IDX_WOL_SEND_PACKET) false
              = true then
            guac_user_parse_args_string argv (RDP_ARGS_IDX.val E IDX_WOL_BROADCAST_ADDR)
              (some E.GUAC_WOL_LOCAL_IPV4_BROADCAST)
          else none)
    ∧ s.wol_udp_port
        = (if guac_user_parse_args_boolean argv (RDP_ARGS_IDX.val E IDX_WOL_SEND_PACKET) false
              = true then
            ((guac_user_parse_args_int argv (RDP_ARGS_IDX.val E IDX_WOL_UDP_PORT)
                E.GUAC_WOL_PORT) % 65536).toNat
          else 0)
    ∧ s.wol_wait_time
        = (if guac_user_parse_args_boolean argv (RDP_ARGS_IDX.val E IDX_WOL_SEND_PACKET) false
              = true then
            guac_user_parse_args_int argv (RDP_ARGS_IDX.val E IDX_WOL_WAIT_TIME)
              E.GUAC_WOL_DEFAULT_BOOT_WAIT_TIME
          else 0) := by
  unfold guac_rdp_parse_args at h
  simp only [] at h
  split at h
  · cases h
  · split at h
    · cases h
    · split at h
      · cases h
      · injection h with h
        injection h with h
        subst h
        exact ⟨rfl, rfl, rfl⟩

theorem parse_args_boolean_true_iff (argv : List String) (index : Nat) :
    guac_user_parse_args_boolean argv index false = true ↔ argv.getD index "" = "true" := by
  unfold guac_user_parse_args_boolean
  by_cases htrue : argv.getD index "" = "true"
  · refine ⟨fun _ => htrue, fun _ => ?_⟩
    rw [htrue]
    decide
  · refine ⟨fun h => ?_, fun h => absurd h htrue⟩
    exfalso
    revert h
    show ¬ _
    by_cases hblank : argv.getD index "" = ""
    · rw [if_pos hblank]
      decide
    · rw [if_neg hblank, if_neg htrue]
      by_cases hfalse : argv.getD index "" = "false"
      · rw [if_pos hfalse]
        decide
      · rw [if_neg hfalse]
        decide

/-- C23: in every returned record `recording_include_keys` is false when the
"recording-include-keys" string is empty, and `recording_exclude_output`,
`recording_exclude_mouse` and `recording_exclude_touch` are false when their
strings are empty; `recording_include_keys` is true exactly when the string is
"true". A record is returned whenever the argument count is right and the
reported resolution is not zero and no quotient of the geometry derivation is
`INT_MIN / -1`. -/
theorem parse_args_recording_defaults (E : Env) (user : guac_user) (argc : Int)
    (argv : List String) :
    (∀ s, guac_rdp_parse_args E user argc argv = Except.ok (some s) →
        (argv.getD (RDP_ARGS_IDX.val E IDX_RECORDING_INCLUDE_KEYS) "" = "" →
            s.recording_include_keys = false)
        ∧ (argv.getD (RDP_ARGS_IDX.val E IDX_RECORDING_EXCLUDE_OUTPUT) "" = "" →
            s.recording_exclude_output = false)
        ∧ (argv.getD (RDP_ARGS_IDX.val E IDX_RECORDING_EXCLUDE_MOUSE) "" = "" →
            s.recording_exclude_mouse = false)
        ∧ (argv.getD (RDP_ARGS_IDX.val E IDX_RECORDING_EXCLUDE_TOUCH) "" = "" →
            s.recording_exclude_touch = false)
        ∧ (s.recording_include_keys = true
            ↔ argv.getD (RDP_ARGS_IDX.val E IDX_RECORDING_INCLUDE_KEYS) "" = "true"))
    ∧ (argc = (RDP_ARGS_COUNT E : Int) → user.optimal_resolution ≠ 0 →
        ¬ quotient_overflows E user argv →
        ∃ s, guac_rdp_parse_args E user argc argv = Except.ok (some s)) := by
  refine ⟨?_, parse_args_returns E user argc argv⟩
  intro s h
  obtain ⟨houtput, hmouse, htouch, hkeys⟩ := parse_args_recording_flags E user argc argv s h
  refine ⟨?_, ?_, ?_, ?_, ?_⟩
  · intro hblank
    rw [hkeys, parse_args_boolean_blank argv _ _ hblank]
  · intro hblank
    rw [houtput, parse_args_boolean_blank argv _ _ hblank]
  · intro hblank
    rw [hmouse, parse_args_boolean_blank argv _ _ hblank]
  · intro hblank
    rw [htouch, parse_args_boolean_blank argv _ _ hblank]
  · rw [hkeys]
    exact parse_args_boolean_true_iff argv _

/-- Witness of C23: the theorem applied to the reference inputs with
"recording-include-keys" set to "true" and the exclusion strings empty. -/
theorem parse_args_recording_defaults_witness :
    ∃ s, guac_rdp_parse_args reference_env reference_user (RDP_ARGS_COUNT reference_env)
          (set_arg reference_env (blank_args reference_env) IDX_RECORDING_INCLUDE_KEYS "true")
        = Except.ok (some s)
      ∧ s.recording_include_keys = true ∧ s.recording_exclude_output = false
      ∧ s.recording_exclude_mouse = false ∧ s.recording_exclude_touch = false := by
  have h := parse_args_recording_defaults reference_env reference_user
    (RDP_ARGS_COUNT reference_env)
    (set_arg reference_env (blank_args reference_env) IDX_RECORDING_INCLUDE_KEYS "true")
  obtain ⟨s, hs⟩ := h.2 rfl (by decide)
    (fun hq => absurd hq.1 (by decide))
  obtain ⟨-, houtput, hmouse, htouch, hkeys⟩ := h.1 s hs
  exact ⟨s, hs, hkeys.2 (by decide), houtput (by decide), hmouse (by decide),
    htouch (by decide)⟩

/-- C28: in every returned record the clipboard line-ending mode is decided by
the "normalize-clipboard" string alone: "unix" gives `normalize_clipboard` true
and `clipboard_crlf` false, "windows" gives both true, and every other string
("preserve" and the empty string among them) gives both false; hence
`clipboard_crlf` implies `normalize_clipboard`. The call never returns NULL for
the right argument count and returns a record whenever the reported resolution
is not zero and no quotient of the geometry derivation is `INT_MIN / -1`. -/
theorem parse_args_clipboard_mode (E : Env) (user : guac_user) (argc : Int)
    (argv : List String) :
    (∀ s, guac_rdp_parse_args E user argc argv = Except.ok (some s) →
        (argv.getD (RDP_ARGS_IDX.val E IDX_NORMALIZE_CLIPBOARD) "" = "unix" →
            s.normalize_clipboard = true ∧ s.clipboard_crlf = false)
        ∧ (argv.getD (RDP_ARGS_IDX.val E IDX_NORMALIZE_CLIPBOARD) "" = "windows" →
            s.normalize_clipboard = true ∧ s.clipboard_crlf = true)
        ∧ (argv.getD (RDP_ARGS_IDX.val E IDX_NORMALIZE_CLIPBOARD) "" ≠ "unix" →
            argv.getD (RDP_ARGS_IDX.val E IDX_NORMALIZE_CLIPBOARD) "" ≠ "windows" →
            s.normalize_clipboard = false ∧ s.clipboard_crlf = false)
        ∧ (s.clipboard_crlf = true → s.normalize_clipboard = true))
    ∧ (argc = (RDP_ARGS_COUNT E : Int) →
        guac_rdp_parse_args E user argc argv ≠ Except.ok none)
    ∧ (argc = (RDP_ARGS_COUNT E : Int) → user.optimal_resolution ≠ 0 →
        ¬ quotient_overflows E user argv →
        ∃ s, guac_rdp_parse_args E user argc argv = Except.ok (some s)) := by
  refine ⟨?_, parse_args_not_null E user argc argv, parse_args_returns E user argc argv⟩
  intro s h
  obtain ⟨hnormalize, hcrlf⟩ := parse_args_clipboard_line_endings E user argc argv s h
  by_cases hunix : argv.getD (RDP_ARGS_IDX.val E IDX_NORMALIZE_CLIPBOARD) "" = "unix"
  · rw [if_pos hunix] at hnormalize hcrlf
    refine ⟨fun _ => ⟨hnormalize, hcrlf⟩, ?_, fun hne => absurd hunix hne, fun _ => hnormalize⟩
    intro hwindows
    rw [hunix] at hwindows
    exact absurd hwindows (by decide)
  · rw [if_neg hunix] at hnormalize hcrlf
    by_cases hwindows : argv.getD (RDP_ARGS_IDX.val E IDX_NORMALIZE_CLIPBOARD) "" = "windows"
    · rw [if_pos hwindows] at hnormalize hcrlf
      exact ⟨fun h => absurd h hunix, fun _ => ⟨hnormalize, hcrlf⟩,
        fun _ hne => absurd hwindows hne, fun _ => hnormalize⟩
    · rw [if_neg hwindows] at hnormalize hcrlf
      have hn : s.normalize_clipboard = false := by
        rw [hnormalize]
        split <;> rfl
      have hc : s.clipboard_crlf = false := by
        rw [hcrlf]
        split <;> rfl
      refine ⟨fun h => absurd h hunix, fun h => absurd h hwindows, fun _ _ => ⟨hn, hc⟩, ?_⟩
      intro htrue
      rw [hc] at htrue
      cases htrue

/-- Witness of C28: the theorem applied to the reference inputs with
"normalize-clipboard" set to "windows". -/
theorem parse_args_clipboard_mode_witness :
    ∃ s, guac_rdp_parse_args reference_env reference_user (RDP_ARGS_COUNT reference_env)
          (set_arg reference_env (blank_args reference_env) IDX_NORMALIZE_CLIPBOARD "windows")
        = Except.ok (some s)
      ∧ s.normalize_clipboard = true ∧ s.clipboard_crlf = true := by
  have h := parse_args_clipboard_mode reference_env reference_user
    (RDP_ARGS_COUNT reference_env)
    (set_arg reference_env (blank_args reference_env) IDX_NORMALIZE_CLIPBOARD "windows")
  obtain ⟨s, hs⟩ := h.2.2 rfl (by decide)
    (fun hq => absurd hq.1 (by decide))
  exact ⟨s, hs, (h.1 s hs).2.1 (by decide)⟩

/-- C24 (fails on the code): with "wol-send-packet" set to "true" and an empty
"wol-mac-addr" the returned record has `wol_send_packet` false, yet
`wol_broadcast_addr` is present and `wol_udp_port` is not zero. -/
theorem wol_subfields_kept_without_mac_address :
    ∃ s, guac_rdp_parse_args reference_env reference_user (RDP_ARGS_COUNT reference_env)
          (set_arg reference_env (blank_args reference_env) IDX_WOL_SEND_PACKET "true")
        = Except.ok (some s)
      ∧ s.wol_send_packet = false
      ∧ s.wol_broadcast_addr = some "255.255.255.255"
      ∧ s.wol_udp_port = 9 :=
  ⟨{ reference_settings with
      wol_broadcast_addr := some "255.255.255.255", wol_udp_port := 9 },
    rfl, rfl, rfl, rfl⟩

/-- C24 as amended: in every returned record `wol_mac_addr` is absent whenever
`wol_send_packet` is false; when Wake-on-LAN was not requested (the
"wol-send-packet" string does not parse to true) `wol_send_packet` is false,
`wol_mac_addr` and `wol_broadcast_addr` are absent and `wol_udp_port` and
`wol_wait_time` are zero; when it was requested, `wol_broadcast_addr`,
`wol_udp_port` and `wol_wait_time` hold the values resolved from their strings,
also when the flag is withdrawn for want of a MAC address. A record is returned
whenever the argument count is right and the reported resolution is not zero and
no quotient of the geometry derivation is `INT_MIN / -1`. -/
theorem parse_args_wol_subfields (E : Env) (user : guac_user) (argc : Int)
    (argv : List String) :
    (∀ s, guac_rdp_parse_args E user argc argv = Except.ok (some s) →
        (s.wol_send_packet = false → s.wol_mac_addr = none)
        ∧ (guac_user_parse_args_boolean argv (RDP_ARGS_IDX.val E IDX_WOL_SEND_PACKET) false
              = false →
            s.wol_send_packet = false ∧ s.wol_mac_addr = none ∧ s.wol_broadcast_addr = none
            ∧ s.wol_udp_port = 0 ∧ s.wol_wait_time = 0)
        ∧ (guac_user_parse_args_boolean argv (RDP_ARGS_IDX.val E IDX_WOL_SEND_PACKET) false
              = true →
            s.wol_send_packet
                = (if argv.getD (RDP_ARGS_IDX.val E IDX_WOL_MAC_ADDR) "" = "" then false
                    else true)
            ∧ s.wol_broadcast_addr
                = guac_user_parse_args_string argv (RDP_ARGS_IDX.val E IDX_WOL_BROADCAST_ADDR)
                    (some E.GUAC_WOL_LOCAL_IPV4_BROADCAST)
            ∧ s.wol_udp_port
                = ((guac_user_parse_args_int argv (RDP_ARGS_IDX.val E IDX_WOL_UDP_PORT)
                    E.GUAC_WOL_PORT) % 65536).toNat
            ∧ s.wol_wait_time
                = guac_user_parse_args_int argv (RDP_ARGS_IDX.val E IDX_WOL_WAIT_TIME)
                    E.GUAC_WOL_DEFAULT_BOOT_WAIT_TIME))
    ∧ (argc = (RDP_ARGS_COUNT E : Int) → user.optimal_resolution ≠ 0 →
        ¬ quotient_overflows E user argv →
        ∃ s, guac_rdp_parse_args E user argc argv = Except.ok (some s)) := by
  refine ⟨?_, parse_args_returns E user argc argv⟩
  intro s h
  obtain ⟨hsend, hmac⟩ := parse_args_wol E user argc argv s h
  obtain ⟨hbroadcast, hport, hwait⟩ := parse_args_wol_fields E user argc argv s h
  cases hb : guac_user_parse_args_boolean argv (RDP_ARGS_IDX.val E IDX_WOL_SEND_PACKET) false
  · rw [hb, if_neg Bool.false_ne_true] at hsend hmac hbroadcast hport hwait
    exact ⟨fun _ => hmac, fun _ => ⟨hsend, hmac, hbroadcast, hport, hwait⟩,
      fun habs => absurd habs Bool.false_ne_true⟩
  · rw [hb, if_pos rfl] at hsend hmac hbroadcast hport hwait
    refine ⟨?_, fun habs => absurd habs.symm Bool.false_ne_true,
      fun _ => ⟨hsend, hbroadcast, hport, hwait⟩⟩
    intro hoff
    by_cases hblank : argv.getD (RDP_ARGS_IDX.val E IDX_WOL_MAC_ADDR) "" = ""
    · rw [hmac]
      unfold guac_user_parse_args_string
      exact if_pos hblank
    · rw [hsend, if_neg hblank] at hoff
      cases hoff

/-- Witness of C24 as amended: the theorem applied to the reference inputs with
"wol-send-packet" set to "true" and no MAC address. -/
theorem parse_args_wol_subfields_witness :
    ∃ s, guac_rdp_parse_args reference_env reference_user (RDP_ARGS_COUNT reference_env)
          (set_arg reference_env (blank_args reference_env) IDX_WOL_SEND_PACKET "true")
        = Except.ok (some s)
      ∧ s.wol_send_packet = false ∧ s.wol_mac_addr = none := by
  have h := parse_args_wol_subfields reference_env reference_user
    (RDP_ARGS_COUNT reference_env)
    (set_arg reference_env (blank_args reference_env) IDX_WOL_SEND_PACKET "true")
  obtain ⟨s, hs⟩ := h.2 rfl (by decide)
    (fun hq => absurd hq.1 (by decide))
  obtain ⟨hmac, -, hrequested⟩ := h.1 s hs
  have hsend : s.wol_send_packet = false := (hrequested (by decide)).1.trans (by decide)
  exact ⟨s, hs, hsend, hmac hsend⟩

/-! ## The static bridge over a sequence of callbacks -/

theorem lock_held_after_append (first second : List Event) :
    ∀ held, lock_held_after held (first ++ second)
      = lock_held_after (lock_held_after held first) second := by
  induction first with
  | nil => intro held; rfl
  | cons call rest ih =>
    intro held
    cases call <;> simp [lock_held_after, ih]

theorem calls_under_lock_append (first second : List Event) :
    ∀ held, calls_under_lock held (first ++ second)
      = calls_under_lock held first ++ calls_under_lock (lock_held_after held first) second := by
  induction first with
  | nil => intro held; rfl
  | cons call rest ih =>
    intro held
    cases call <;> cases held <;> simp [calls_under_lock, lock_held_after, ih]

theorem calls_outside_lock_append (first second : List Event) :
    ∀ held, calls_outside_lock held (first ++ second)
      = calls_outside_lock held first
        ++ calls_outside_lock (lock_held_after held first) second := by
  induction first with
  | nil => intro held; rfl
  | cons call rest ih =>
    intro held
    cases call <;> cases held <;> simp [calls_outside_lock, lock_held_after, ih]

theorem webcam_stream_call_lock (call : webcam_stream_call) :
    lock_held_after false call.events = false
    ∧ (calls_under_lock false call.events).all (fun held_call => ! held_call.is_acknowledgement)
        = true
    ∧ (calls_outside_lock false call.events).all
        (fun free_call => ! free_call.is_transport_write) = true := by
  cases call with
  | handler rdp_client stream mimetype name =>
    obtain ⟨channel⟩ := rdp_client
    cases channel <;> exact ⟨rfl, rfl, rfl⟩
  | blob_handler rdp_client stream data length =>
    obtain ⟨channel⟩ := rdp_client
    cases channel <;> exact ⟨rfl, rfl, rfl⟩
  | end_handler rdp_client stream => exact ⟨rfl, rfl, rfl⟩

theorem webcam_stream_trace_lock (calls : List webcam_stream_call) :
    lock_held_after false (webcam_stream_trace calls) = false
    ∧ (calls_under_lock false (webcam_stream_trace calls)).all
        (fun held_call => ! held_call.is_acknowledgement) = true
    ∧ (calls_outside_lock false (webcam_stream_trace calls)).all
        (fun free_call => ! free_call.is_transport_write) = true := by
  induction calls with
  | nil => exact ⟨rfl, rfl, rfl⟩
  | cons call rest ih =>
    obtain ⟨hheld, hunder, houtside⟩ := webcam_stream_call_lock call
    obtain ⟨iheld, iunder, ioutside⟩ := ih
    unfold webcam_stream_trace
    rw [lock_held_after_append, calls_under_lock_append, calls_outside_lock_append, hheld,
      List.all_append, List.all_append, hunder, houtside, iunder, ioutside]
    exact ⟨iheld, rfl, rfl⟩

/-- C27: `guac_rdp_webcam_blob_handler` with a connected channel makes, in this
order, the calls Stream_New, lock of `message_lock`, one `Write`, unlock,
Stream_Free, and no call without one: the only call made while the lock is held
is the `Write`, no transport write is made while it is not held, and the lock
is released when the handler returns.  `guac_rdp_webcam_handler` and
`guac_rdp_webcam_end_handler` never lock.  Over any sequence of calls of the
three handlers, each on any session, no acknowledgement is sent while the lock
is held and every transport write is made while it is held. -/
theorem blob_handler_lock_scope (rdp_client : guac_rdp_client) (stream : guac_stream)
    (data : List Nat) (length : Int) (mimetype name : String)
    (calls : List webcam_stream_call) :
    (∀ channel : Nat,
        (guac_rdp_webcam_blob_handler { webcam_channel := some channel } stream data
            length).events
          = [Event.stream_new length]
            ++ [Event.mutex_lock,
                Event.channel_write channel (to_uint32 (data.take length.toNat).length)
                  (data.take length.toNat),
                Event.mutex_unlock]
            ++ [Event.stream_free]
        ∧ calls_under_lock false
            (guac_rdp_webcam_blob_handler { webcam_channel := some channel } stream data
              length).events
          = [Event.channel_write channel (to_uint32 (data.take length.toNat).length)
              (data.take length.toNat)]
        ∧ calls_outside_lock false
            (guac_rdp_webcam_blob_handler { webcam_channel := some channel } stream data
              length).events
          = [Event.stream_new length, Event.stream_free])
    ∧ (guac_rdp_webcam_blob_handler { webcam_channel := none } stream data length).events = []
    ∧ lock_held_after false
        (guac_rdp_webcam_blob_handler rdp_client stream data length).events = false
    ∧ Event.mutex_lock ∉ (guac_rdp_webcam_handler rdp_client stream mimetype name).events
    ∧ Event.mutex_lock ∉ (guac_rdp_webcam_end_handler rdp_client stream).events
    ∧ lock_held_after false (webcam_stream_trace calls) = false
    ∧ (calls_under_lock false (webcam_stream_trace calls)).all
        (fun held_call => ! held_call.is_acknowledgement) = true
    ∧ (calls_outside_lock false (webcam_stream_trace calls)).all
        (fun free_call => ! free_call.is_transport_write) = true := by
  refine ⟨fun channel => ⟨rfl, rfl, rfl⟩, rfl, ?_, ?_, ?_, webcam_stream_trace_lock calls⟩
  · exact (webcam_stream_call_lock
      (webcam_stream_call.blob_handler rdp_client stream data length)).1
  · obtain ⟨channel⟩ := rdp_client
    cases channel <;> simp [guac_rdp_webcam_handler]
  · simp [guac_rdp_webcam_end_handler]

/-! ## Desktop size, preconnection PDU and the two bodies of the projector -/

theorem push_settings_desktop_size (E : Env) (s : guac_rdp_settings) (rdp : freerdp) :
    (guac_rdp_push_settings E s rdp).settings.DesktopWidth = to_uint32 s.width
    ∧ (guac_rdp_push_settings E s rdp).settings.DesktopHeight = to_uint32 s.height := by
  unfold guac_rdp_push_settings
  cases E.HAVE_SETTERS_GETTERS
  · cases hm : s.security_mode <;>
      (unfold guac_rdp_push_settings_fields; rw [hm]) <;> exact ⟨rfl, rfl⟩
  · cases hm : s.security_mode <;>
      (unfold guac_rdp_push_settings_setters; rw [hm]) <;> exact ⟨rfl, rfl⟩

theorem push_settings_preconnection (E : Env) (s : guac_rdp_settings) (rdp : freerdp) :
    (guac_rdp_push_settings E s rdp).settings.PreconnectionId
        = (if decide (s.preconnection_id ≠ -1) then to_uint32 s.preconnection_id
            else rdp.settings.PreconnectionId)
    ∧ (guac_rdp_push_settings E s rdp).settings.SendPreconnectionPdu
        = (if s.preconnection_blob.isSome then true
            else if decide (s.preconnection_id ≠ -1) then true
            else rdp.settings.SendPreconnectionPdu)
    ∧ (guac_rdp_push_settings E s rdp).settings.NegotiateSecurityLayer
        = (if s.preconnection_blob.isSome then false
            else if decide (s.preconnection_id ≠ -1) then false
            else rdp.settings.NegotiateSecurityLayer) := by
  unfold guac_rdp_push_settings
  cases E.HAVE_SETTERS_GETTERS
  · cases hm : s.security_mode <;>
      (unfold guac_rdp_push_settings_fields; rw [hm]) <;> exact ⟨rfl, rfl, rfl⟩
  · cases hm : s.security_mode <;>
      (unfold guac_rdp_push_settings_setters; rw [hm]) <;> exact ⟨rfl, rfl, rfl⟩

theorem parse_args_preconnection_id (E : Env) (user : guac_user) (argc : Int)
    (argv : List String) (s : guac_rdp_settings)
    (h : guac_rdp_parse_args E user argc argv = Except.ok (some s)) :
    s.preconnection_id
      = (if argv.getD (RDP_ARGS_IDX.val E IDX_PRECONNECTION_ID) "" ≠ "" then
          if atoi (argv.getD (RDP_ARGS_IDX.val E IDX_PRECONNECTION_ID) "") < 0 then -1
          else atoi (argv.getD (RDP_ARGS_IDX.val E IDX_PRECONNECTION_ID) "")
        else -1) := by
  unfold guac_rdp_parse_args at h
  simp only [] at h
  split at h
  · cases h
  · split at h
    · cases h
    · split at h
      · cases h
      · injection h with h
        injection h with h
        subst h
        rfl

theorem push_settings_bodies_agree (E : Env) (s : guac_rdp_settings) (rdp : freerdp) :
    guac_rdp_push_settings_setters E s rdp
      = { settings :=
            { (guac_rdp_push_settings_fields E s rdp).settings with
              TcpAckTimeout := rdp.settings.TcpAckTimeout },
          TZ := (guac_rdp_push_settings_fields E s rdp).TZ } := by
  cases hm : s.security_mode <;>
    (unfold guac_rdp_push_settings_setters guac_rdp_push_settings_fields; rw [hm]) <;> rfl

/-- C31: for every settings record whose width, height and colour depth are
non-negative `int` values, after `guac_rdp_push_settings` (either body)
`guac_rdp_get_width` returns the width of the record, `guac_rdp_get_height` its
height, and `guac_rdp_get_depth` returns `RDP_GFX_REQUIRED_DEPTH` (an `int`)
when `enable_gfx` is true and the `color_depth` of the record otherwise. -/
theorem push_settings_getters_round_trip (E : Env) (s : guac_rdp_settings) (rdp : freerdp)
    (hwidth : 0 ≤ s.width ∧ s.width ≤ INT_MAX)
    (hheight : 0 ≤ s.height ∧ s.height ≤ INT_MAX)
    (hdepth : 0 ≤ s.color_depth ∧ s.color_depth ≤ INT_MAX)
    (hrequired : INT_MIN ≤ E.RDP_GFX_REQUIRED_DEPTH ∧ E.RDP_GFX_REQUIRED_DEPTH ≤ INT_MAX) :
    guac_rdp_get_width (guac_rdp_push_settings E s rdp) = s.width
    ∧ guac_rdp_get_height (guac_rdp_push_settings E s rdp) = s.height
    ∧ guac_rdp_get_depth (guac_rdp_push_settings E s rdp)
        = (if s.enable_gfx then E.RDP_GFX_REQUIRED_DEPTH else s.color_depth) := by
  obtain ⟨hw, hh⟩ := push_settings_desktop_size E s rdp
  obtain ⟨hd, -⟩ := push_settings_gfx E s rdp
  have hmin : INT_MIN ≤ 0 := by decide
  refine ⟨?_, ?_, ?_⟩
  · unfold guac_rdp_get_width
    rw [hw, to_int_to_uint32]
    exact to_int_of_range _ (le_trans hmin hwidth.1) hwidth.2
  · unfold guac_rdp_get_height
    rw [hh, to_int_to_uint32]
    exact to_int_of_range _ (le_trans hmin hheight.1) hheight.2
  · unfold guac_rdp_get_depth
    rw [hd]
    cases s.enable_gfx
    · rw [if_neg Bool.false_ne_true, if_neg Bool.false_ne_true, to_int_to_uint32]
      exact to_int_of_range _ (le_trans hmin hdepth.1) hdepth.2
    · rw [if_pos rfl, if_pos rfl, to_int_to_uint32]
      exact to_int_of_range _ hrequired.1 hrequired.2

/-- Witness of C31: the theorem applied to the reference settings (1920x1080,
graphics pipeline enabled) with a requested depth of 16, projected with the
body that uses setters. -/
theorem push_settings_getters_round_trip_witness :
    guac_rdp_get_width
        (guac_rdp_push_settings reference_env { reference_settings with color_depth := 16 }
          zero_freerdp) = 1920
    ∧ guac_rdp_get_height
        (guac_rdp_push_settings reference_env { reference_settings with color_depth := 16 }
          zero_freerdp) = 1080
    ∧ guac_rdp_get_depth
        (guac_rdp_push_settings reference_env { reference_settings with color_depth := 16 }
          zero_freerdp) = 32 :=
  push_settings_getters_round_trip reference_env { reference_settings with color_depth := 16 }
    zero_freerdp (by decide) (by decide) (by decide) (by decide)

/-- C36: a returned record whose "color-depth" string is a valid integer `d`
within `int` has `color_depth` equal to `d`, whether `enable_gfx` is true or
false: the resolver does not replace an explicit depth.  The replacement is
made by `guac_rdp_push_settings`, which for a record with `enable_gfx` true
stores `RDP_GFX_REQUIRED_DEPTH` in the `ColorDepth` of the engine configuration
and for a record with `enable_gfx` false stores `d`.  A record is returned
whenever the argument count is right, the reported resolution is not zero and
no quotient of the geometry derivation is `INT_MIN / -1`. -/
theorem parse_args_keeps_explicit_depth (E : Env) (user : guac_user) (argc : Int)
    (argv : List String) :
    (∀ s, guac_rdp_parse_args E user argc argv = Except.ok (some s) →
        ∀ d : Int, strtol_whole (argv.getD (RDP_ARGS_IDX.val E IDX_COLOR_DEPTH) "") = some d →
          INT_MIN ≤ d → d ≤ INT_MAX →
          s.color_depth = d
          ∧ (s.enable_gfx = true → ∀ rdp : freerdp,
              (guac_rdp_push_settings E s rdp).settings.ColorDepth
                = to_uint32 E.RDP_GFX_REQUIRED_DEPTH)
          ∧ (s.enable_gfx = false → ∀ rdp : freerdp,
              (guac_rdp_push_settings E s rdp).settings.ColorDepth = to_uint32 d))
    ∧ (argc = (RDP_ARGS_COUNT E : Int) → user.optimal_resolution ≠ 0 →
        ¬ quotient_overflows E user argv →
        ∃ s, guac_rdp_parse_args E user argc argv = Except.ok (some s)) := by
  refine ⟨?_, parse_args_returns E user argc argv⟩
  intro s h d hvalid hlo hhi
  obtain ⟨-, hdepth⟩ := parse_args_gfx_and_depth E user argc argv s h
  have hd : s.color_depth = d := by
    rw [hdepth]
    exact parse_args_int_valid argv _ _ d hvalid hlo hhi
  refine ⟨hd, ?_, ?_⟩
  · intro hgfx rdp
    rw [(push_settings_gfx E s rdp).1, hgfx, if_pos rfl]
  · intro hgfx rdp
    rw [(push_settings_gfx E s rdp).1, hgfx, if_neg Bool.false_ne_true, hd]

/-- Witness of C36: the theorem applied to the reference inputs with the
"color-depth" string "16" and the graphics pipeline left enabled. -/
theorem parse_args_keeps_explicit_depth_witness :
    ∃ s, guac_rdp_parse_args reference_env reference_user (RDP_ARGS_COUNT reference_env)
          (set_arg reference_env (blank_args reference_env) IDX_COLOR_DEPTH "16")
        = Except.ok (some s)
      ∧ s.enable_gfx = true ∧ s.color_depth = 16
      ∧ (guac_rdp_push_settings reference_env s zero_freerdp).settings.ColorDepth = 32 := by
  have h := parse_args_keeps_explicit_depth reference_env reference_user
    (RDP_ARGS_COUNT reference_env)
    (set_arg reference_env (blank_args reference_env) IDX_COLOR_DEPTH "16")
  obtain ⟨s, hs⟩ := h.2 rfl (by decide)
    (fun hq => absurd hq.1 (by decide))
  obtain ⟨hd, hgfx, -⟩ := h.1 s hs 16 (by decide) (by decide) (by decide)
  have henabled : s.enable_gfx = true := by
    rw [(parse_args_gfx_and_depth _ _ _ _ s hs).1]
    decide
  exact ⟨s, hs, henabled, hd, hgfx henabled zero_freerdp⟩

/-- C32: a returned record whose width string is not empty and reads (with
`atoi`) as 1, 2 or 3 has width exactly 0, whatever `RDP_DEFAULT_WIDTH` is: the
test `width <= 0` comes before the rounding down to a multiple of 4. Such
records exist: a record is returned whenever the argument count is right and the
reported resolution is not zero and no quotient of the geometry derivation is
`INT_MIN / -1`. -/
theorem parse_args_width_zero_below_4 (E : Env) (user : guac_user) (argc : Int)
    (argv : List String) :
    (∀ s, guac_rdp_parse_args E user argc argv = Except.ok (some s) →
        argv.getD (RDP_ARGS_IDX.val E IDX_WIDTH) "" ≠ "" →
        0 < atoi (argv.getD (RDP_ARGS_IDX.val E IDX_WIDTH) "") →
        atoi (argv.getD (RDP_ARGS_IDX.val E IDX_WIDTH) "") < 4 →
        s.width = 0)
    ∧ (argc = (RDP_ARGS_COUNT E : Int) → user.optimal_resolution ≠ 0 →
        ¬ quotient_overflows E user argv →
        ∃ s, guac_rdp_parse_args E user argc argv = Except.ok (some s)) := by
  refine ⟨?_, parse_args_returns E user argc argv⟩
  intro s h hgiven hpos hsmall
  obtain ⟨derived, candidate, -, hcandidate, hwidth⟩ := parse_args_width E user argc argv s h
  rw [if_pos hgiven] at hcandidate
  rw [hwidth, hcandidate, if_neg (not_le.mpr hpos),
    c_and_not_3_eq _ (by unfold INT_MIN; omega) (by unfold INT_MAX; omega)]
  omega

/-- Witness of C32: the theorem applied to the reference inputs (default width
1024) with the width strings "1", "2" and "3": each gives a record of width
0. -/
theorem parse_args_width_zero_below_4_witness :
    (∃ s, guac_rdp_parse_args reference_env reference_user (RDP_ARGS_COUNT reference_env)
          (set_arg reference_env (blank_args reference_env) IDX_WIDTH "1")
        = Except.ok (some s) ∧ s.width = 0)
    ∧ (∃ s, guac_rdp_parse_args reference_env reference_user (RDP_ARGS_COUNT reference_env)
          (set_arg reference_env (blank_args reference_env) IDX_WIDTH "2")
        = Except.ok (some s) ∧ s.width = 0)
    ∧ (∃ s, guac_rdp_parse_args reference_env reference_user (RDP_ARGS_COUNT reference_env)
          (set_arg reference_env (blank_args reference_env) IDX_WIDTH "3")
        = Except.ok (some s) ∧ s.width = 0) := by
  refine ⟨?_, ?_, ?_⟩
  · have h := parse_args_width_zero_below_4 reference_env reference_user
      (RDP_ARGS_COUNT reference_env)
      (set_arg reference_env (blank_args reference_env) IDX_WIDTH "1")
    obtain ⟨s, hs⟩ := h.2 rfl (by decide)
      (fun hq => absurd hq.1 (by decide))
    exact ⟨s, hs, h.1 s hs (by decide) (by decide) (by decide)⟩
  · have h := parse_args_width_zero_below_4 reference_env reference_user
      (RDP_ARGS_COUNT reference_env)
      (set_arg reference_env (blank_args reference_env) IDX_WIDTH "2")
    obtain ⟨s, hs⟩ := h.2 rfl (by decide)
      (fun hq => absurd hq.1 (by decide))
    exact ⟨s, hs, h.1 s hs (by decide) (by decide) (by decide)⟩
  · have h := parse_args_width_zero_below_4 reference_env reference_user
      (RDP_ARGS_COUNT reference_env)
      (set_arg reference_env (blank_args reference_env) IDX_WIDTH "3")
    obtain ⟨s, hs⟩ := h.2 rfl (by decide)
      (fun hq => absurd hq.1 (by decide))
    exact ⟨s, hs, h.1 s hs (by decide) (by decide) (by decide)⟩

/-- C33: with `RDP_DEFAULT_HEIGHT > 0`, every returned record has a strictly
positive height, for every argument vector and every reported geometry, and the
height is not rounded: a non-empty height string that reads (with `atoi`) as a
positive number `h` gives the height `h` itself. A record is returned whenever
the argument count is right and the reported resolution is not zero and no
quotient of the geometry derivation is `INT_MIN / -1`. -/
theorem parse_args_height_positive (E : Env) (user : guac_user) (argc : Int)
    (argv : List String) (hdefault : 0 < E.RDP_DEFAULT_HEIGHT) :
    (∀ s, guac_rdp_parse_args E user argc argv = Except.ok (some s) →
        0 < s.height
        ∧ (argv.getD (RDP_ARGS_IDX.val E IDX_HEIGHT) "" ≠ "" →
            0 < atoi (argv.getD (RDP_ARGS_IDX.val E IDX_HEIGHT) "") →
            s.height = atoi (argv.getD (RDP_ARGS_IDX.val E IDX_HEIGHT) "")))
    ∧ (argc = (RDP_ARGS_COUNT E : Int) → user.optimal_resolution ≠ 0 →
        ¬ quotient_overflows E user argv →
        ∃ s, guac_rdp_parse_args E user argc argv = Except.ok (some s)) := by
  refine ⟨?_, parse_args_returns E user argc argv⟩
  intro s h
  obtain ⟨-, derived_width, derived_height, -, -, -, hheight⟩ :=
    parse_args_geometry E user argc argv s h
  refine ⟨?_, ?_⟩
  · rw [hheight]
    by_cases hcandidate :
        (if argv.getD (RDP_ARGS_IDX.val E IDX_HEIGHT) "" ≠ ""
          then atoi (argv.getD (RDP_ARGS_IDX.val E IDX_HEIGHT) "")
          else derived_height) ≤ 0
    · rw [if_pos hcandidate]
      exact hdefault
    · rw [if_neg hcandidate]
      exact not_le.mp hcandidate
  · intro hgiven hpos
    rw [hheight, if_pos hgiven, if_neg (not_le.mpr hpos)]

/-- Witness of C33: the theorem applied to the reference inputs (default height
768) with the height string "1001", which is not a multiple of 4. -/
theorem parse_args_height_positive_witness :
    ∃ s, guac_rdp_parse_args reference_env reference_user (RDP_ARGS_COUNT reference_env)
          (set_arg reference_env (blank_args reference_env) IDX_HEIGHT "1001")
        = Except.ok (some s)
      ∧ 0 < s.height ∧ s.height = 1001 := by
  have h := parse_args_height_positive reference_env reference_user
    (RDP_ARGS_COUNT reference_env)
    (set_arg reference_env (blank_args reference_env) IDX_HEIGHT "1001") (by decide)
  obtain ⟨s, hs⟩ := h.2 rfl (by decide)
    (fun hq => absurd hq.1 (by decide))
  exact ⟨s, hs, (h.1 s hs).1, ((h.1 s hs).2 (by decide) (by decide)).trans (by decide)⟩

/-- C38 (fails on the code): for a user reporting the width 65536 and the
resolution -1 and an argument vector of the right length with the dpi string
"-32768", the reported resolution is not zero and both products lie within
`int` (the width product is `INT_MIN`), yet `guac_rdp_parse_args` returns no
record: the width quotient `INT_MIN / -1` does not fit `int` and the division
has no result. -/
theorem parse_args_quotient_overflow_no_settings :
    overflow_user.optimal_resolution ≠ 0
    ∧ (INT_MIN ≤ overflow_user.optimal_width * (-32768)
        ∧ overflow_user.optimal_width * (-32768) ≤ INT_MAX)
    ∧ (INT_MIN ≤ overflow_user.optimal_height * (-32768)
        ∧ overflow_user.optimal_height * (-32768) ≤ INT_MAX)
    ∧ guac_user_parse_args_int
        (set_arg reference_env (blank_args reference_env) IDX_DPI "-32768")
        (RDP_ARGS_IDX.val reference_env IDX_DPI)
        (reference_env.guac_rdp_suggest_resolution overflow_user) = -32768
    ∧ guac_rdp_parse_args reference_env overflow_user (RDP_ARGS_COUNT reference_env)
        (set_arg reference_env (blank_args reference_env) IDX_DPI "-32768")
      = Except.error Fault.division_overflow :=
  ⟨by decide, by decide, by decide, by decide,
    parse_args_quotient_overflows reference_env overflow_user _ _ rfl
      ⟨rfl, Or.inl (by decide)⟩⟩

/-- C38 as amended: for an argument vector of the right length
`guac_rdp_parse_args` divides by the reported `optimal_resolution` whatever the
width and height strings hold: with a resolution of zero the call ends in the
division by zero; with a resolution that is not zero the division by zero is
unreachable, and the call returns a record exactly when, in addition, neither
quotient is `INT_MIN / -1`, which is the case whenever both products lie
within `int` and, for the resolution -1, are not `INT_MIN`.  In a returned record the derived width
and height are the truncated quotients of the exact products when the products
fit `int`, the width is the width candidate (the number read from a non-empty
width string, the derived width otherwise), replaced by `RDP_DEFAULT_WIDTH` when
it is not positive, with its two low bits cleared, and the height is the height
candidate, replaced by `RDP_DEFAULT_HEIGHT` when it is not positive. -/
theorem parse_args_total_for_nonzero_resolution (E : Env) (user : guac_user) (argc : Int)
    (argv : List String) (hcount : argc = (RDP_ARGS_COUNT E : Int)) :
    (user.optimal_resolution = 0 →
        guac_rdp_parse_args E user argc argv = Except.error Fault.division_by_zero)
    ∧ (user.optimal_resolution ≠ 0 →
        guac_rdp_parse_args E user argc argv ≠ Except.error Fault.division_by_zero)
    ∧ ((∃ s, guac_rdp_parse_args E user argc argv = Except.ok (some s))
        ↔ (user.optimal_resolution ≠ 0 ∧ ¬ quotient_overflows E user argv))
    ∧ (INT_MIN ≤ user.optimal_width
          * guac_user_parse_args_int argv (RDP_ARGS_IDX.val E IDX_DPI)
              (E.guac_rdp_suggest_resolution user) →
        user.optimal_width
          * guac_user_parse_args_int argv (RDP_ARGS_IDX.val E IDX_DPI)
              (E.guac_rdp_suggest_resolution user) ≤ INT_MAX →
        INT_MIN ≤ user.optimal_height
          * guac_user_parse_args_int argv (RDP_ARGS_IDX.val E IDX_DPI)
              (E.guac_rdp_suggest_resolution user) →
        user.optimal_height
          * guac_user_parse_args_int argv (RDP_ARGS_IDX.val E IDX_DPI)
              (E.guac_rdp_suggest_resolution user) ≤ INT_MAX →
        (user.optimal_resolution = -1 →
          user.optimal_width
              * guac_user_parse_args_int argv (RDP_ARGS_IDX.val E IDX_DPI)
                  (E.guac_rdp_suggest_resolution user) ≠ INT_MIN
          ∧ user.optimal_height
              * guac_user_parse_args_int argv (RDP_ARGS_IDX.val E IDX_DPI)
                  (E.guac_rdp_suggest_resolution user) ≠ INT_MIN) →
        ¬ quotient_overflows E user argv)
    ∧ (∀ s, guac_rdp_parse_args E user argc argv = Except.ok (some s) →
        ∃ derived_width derived_height : Int,
          c_mul_div user.optimal_width s.resolution user.optimal_resolution
            = Except.ok derived_width
          ∧ c_mul_div user.optimal_height s.resolution user.optimal_resolution
            = Except.ok derived_height
          ∧ (INT_MIN < user.optimal_width * s.resolution →
              user.optimal_width * s.resolution ≤ INT_MAX →
              derived_width
                = Int.tdiv (user.optimal_width * s.resolution) user.optimal_resolution)
          ∧ (INT_MIN < user.optimal_height * s.resolution →
              user.optimal_height * s.resolution ≤ INT_MAX →
              derived_height
                = Int.tdiv (user.optimal_height * s.resolution) user.optimal_resolution)
          ∧ s.width
            = c_and_not_3
                (if (if argv.getD (RDP_ARGS_IDX.val E IDX_WIDTH) "" ≠ ""
                      then atoi (argv.getD (RDP_ARGS_IDX.val E IDX_WIDTH) "")
                      else derived_width) ≤ 0
                  then E.RDP_DEFAULT_WIDTH
                  else (if argv.getD (RDP_ARGS_IDX.val E IDX_WIDTH) "" ≠ ""
                      then atoi (argv.getD (RDP_ARGS_IDX.val E IDX_WIDTH) "")
                      else derived_width))
          ∧ s.height
            = (if (if argv.getD (RDP_ARGS_IDX.val E IDX_HEIGHT) "" ≠ ""
                      then atoi (argv.getD (RDP_ARGS_IDX.val E IDX_HEIGHT) "")
                      else derived_height) ≤ 0
                  then E.RDP_DEFAULT_HEIGHT
                  else (if argv.getD (RDP_ARGS_IDX.val E IDX_HEIGHT) "" ≠ ""
                      then atoi (argv.getD (RDP_ARGS_IDX.val E IDX_HEIGHT) "")
                      else derived_height))) := by
  refine ⟨parse_args_zero_resolution E user argc argv hcount, ?_, ?_, ?_, ?_⟩
  · intro hresolution habs
    by_cases hq : quotient_overflows E user argv
    · rw [parse_args_quotient_overflows E user argc argv hcount hq] at habs
      cases habs
    · obtain ⟨s, hs⟩ := parse_args_returns E user argc argv hcount hresolution hq
      rw [hs] at habs
      cases habs
  · constructor
    · intro ⟨s, hs⟩
      refine ⟨(parse_args_some_inv E user argc argv s hs).2, fun hq => ?_⟩
      rw [parse_args_quotient_overflows E user argc argv hcount hq] at hs
      cases hs
    · intro ⟨hresolution, hq⟩
      exact parse_args_returns E user argc argv hcount hresolution hq
  · intro hwlo hwhi hhlo hhhi hproducts hq
    obtain ⟨hminus, hproduct⟩ := hq
    rcases hproduct with hw | hh
    · rw [to_int_of_range _ hwlo hwhi] at hw
      exact (hproducts hminus).1 hw
    · rw [to_int_of_range _ hhlo hhhi] at hh
      exact (hproducts hminus).2 hh
  · intro s h
    obtain ⟨-, derived_width, derived_height, hwidth, hheight, hw, hh⟩ :=
      parse_args_geometry E user argc argv s h
    exact ⟨derived_width, derived_height, hwidth, hheight,
      c_mul_div_exact _ _ _ _ hwidth, c_mul_div_exact _ _ _ _ hheight, hw, hh⟩

/-- Witness of C38 as amended: the theorem applied to the reference environment
and the argument vector with the explicit width "800" and height "600": a user
reporting a resolution of zero ends in the division by zero, the reference user
(96 DPI) gets a record, of width 800 and height 600. -/
theorem parse_args_total_for_nonzero_resolution_witness :
    guac_rdp_parse_args reference_env zero_resolution_user (RDP_ARGS_COUNT reference_env)
        (set_arg reference_env (set_arg reference_env (blank_args reference_env)
          IDX_WIDTH "800") IDX_HEIGHT "600")
      = Except.error Fault.division_by_zero
    ∧ ∃ s, guac_rdp_parse_args reference_env reference_user (RDP_ARGS_COUNT reference_env)
        (set_arg reference_env (set_arg reference_env (blank_args reference_env)
          IDX_WIDTH "800") IDX_HEIGHT "600")
      = Except.ok (some s) ∧ s.width = 800 ∧ s.height = 600 := by
  refine ⟨(parse_args_total_for_nonzero_resolution reference_env zero_resolution_user
      (RDP_ARGS_COUNT reference_env)
      (set_arg reference_env (set_arg reference_env (blank_args reference_env)
        IDX_WIDTH "800") IDX_HEIGHT "600") rfl).1 rfl, ?_⟩
  have h := parse_args_total_for_nonzero_resolution reference_env reference_user
    (RDP_ARGS_COUNT reference_env)
    (set_arg reference_env (set_arg reference_env (blank_args reference_env)
      IDX_WIDTH "800") IDX_HEIGHT "600") rfl
  obtain ⟨s, hs⟩ := h.2.2.1.2 ⟨by decide, fun hq => absurd hq.1 (by decide)⟩
  obtain ⟨derived_width, derived_height, -, -, -, -, hwidth, hheight⟩ := h.2.2.2.2 s hs
  have hgiven_width :
      (set_arg reference_env (set_arg reference_env (blank_args reference_env)
        IDX_WIDTH "800") IDX_HEIGHT "600").getD (RDP_ARGS_IDX.val reference_env IDX_WIDTH) ""
      = "800" := by decide
  have hgiven_height :
      (set_arg reference_env (set_arg reference_env (blank_args reference_env)
        IDX_WIDTH "800") IDX_HEIGHT "600").getD (RDP_ARGS_IDX.val reference_env IDX_HEIGHT) ""
      = "600" := by decide
  refine ⟨s, hs, ?_, ?_⟩
  · rw [hwidth, hgiven_width, if_pos (show ("800" : String) ≠ "" by decide)]
    decide
  · rw [hheight, hgiven_height, if_pos (show ("600" : String) ≠ "" by decide)]
    decide

/-- C34: `guac_rdp_vc_close` clears `webcam_channel` whatever the session holds
and whichever callback record is closed.  After `guac_rdp_vc_new_connection`
for a channel `c1` and then for a channel `c2` the handle is `c2`; closing the
callback of `c1` leaves the handle absent, so a following
`guac_rdp_webcam_handler` call sends the "FAIL" acknowledgement and a following
`guac_rdp_webcam_blob_handler` call makes no call at all, although the callback
of `c2` has not been closed. -/
theorem vc_close_clears_newer_channel (rdp_client : guac_rdp_client)
    (listener : guac_rdp_vc_listener_callback) (c1 c2 : Nat) (stream : guac_stream)
    (mimetype name : String) (data : List Nat) (length : Int) :
    (∀ (session : guac_rdp_client) (vc_cb : guac_rdp_vc_channel_callback),
        (guac_rdp_vc_close session vc_cb).2.webcam_channel = none)
    ∧ (guac_rdp_vc_new_connection rdp_client listener c1).2.2.channel = c1
    ∧ (guac_rdp_vc_new_connection
        (guac_rdp_vc_new_connection rdp_client listener c1).2.1 listener c2).2.1.webcam_channel
        = some c2
    ∧ (guac_rdp_vc_close
        (guac_rdp_vc_new_connection
          (guac_rdp_vc_new_connection rdp_client listener c1).2.1 listener c2).2.1
        (guac_rdp_vc_new_connection rdp_client listener c1).2.2).2.webcam_channel = none
    ∧ (guac_rdp_webcam_handler
        (guac_rdp_vc_close
          (guac_rdp_vc_new_connection
            (guac_rdp_vc_new_connection rdp_client listener c1).2.1 listener c2).2.1
          (guac_rdp_vc_new_connection rdp_client listener c1).2.2).2
        stream mimetype name).events
        = [Event.send_ack stream.index "FAIL" GUAC_PROTOCOL_STATUS_SERVER_ERROR,
           Event.socket_flush]
    ∧ (guac_rdp_webcam_blob_handler
        (guac_rdp_vc_close
          (guac_rdp_vc_new_connection
            (guac_rdp_vc_new_connection rdp_client listener c1).2.1 listener c2).2.1
          (guac_rdp_vc_new_connection rdp_client listener c1).2.2).2
        stream data length).events = [] :=
  ⟨fun _ _ => rfl, rfl, rfl, rfl, rfl, rfl⟩

/-- C35: every returned record has `preconnection_id >= -1`; the value is -1
exactly when the "preconnection-id" string is empty or reads (with `atoi`) as a
negative number, and is the number read otherwise. A non-empty string that holds
no digit gives the ID 0, and `guac_rdp_push_settings` (either body) of such a
record sets `SendPreconnectionPdu`, clears `NegotiateSecurityLayer` and stores
the `PreconnectionId` 0. A record is returned whenever the argument count is
right and the reported resolution is not zero and no quotient of the geometry
derivation is `INT_MIN / -1`. -/
theorem parse_args_preconnection_id_range (E : Env) (user : guac_user) (argc : Int)
    (argv : List String) :
    (∀ s, guac_rdp_parse_args E user argc argv = Except.ok (some s) →
        -1 ≤ s.preconnection_id
        ∧ (s.preconnection_id = -1
            ↔ (argv.getD (RDP_ARGS_IDX.val E IDX_PRECONNECTION_ID) "" = ""
                ∨ atoi (argv.getD (RDP_ARGS_IDX.val E IDX_PRECONNECTION_ID) "") < 0))
        ∧ (argv.getD (RDP_ARGS_IDX.val E IDX_PRECONNECTION_ID) "" ≠ "" →
            0 ≤ atoi (argv.getD (RDP_ARGS_IDX.val E IDX_PRECONNECTION_ID) "") →
            s.preconnection_id = atoi (argv.getD (RDP_ARGS_IDX.val E IDX_PRECONNECTION_ID) ""))
        ∧ (argv.getD (RDP_ARGS_IDX.val E IDX_PRECONNECTION_ID) "" ≠ "" →
            (∀ c ∈ (argv.getD (RDP_ARGS_IDX.val E IDX_PRECONNECTION_ID) "").data,
                isdigit c = false) →
            s.preconnection_id = 0
            ∧ ∀ rdp : freerdp,
                (guac_rdp_push_settings E s rdp).settings.SendPreconnectionPdu = true
                ∧ (guac_rdp_push_settings E s rdp).settings.PreconnectionId = 0
                ∧ (guac_rdp_push_settings E s rdp).settings.NegotiateSecurityLayer = false))
    ∧ (argc = (RDP_ARGS_COUNT E : Int) → user.optimal_resolution ≠ 0 →
        ¬ quotient_overflows E user argv →
        ∃ s, guac_rdp_parse_args E user argc argv = Except.ok (some s)) := by
  refine ⟨?_, parse_args_returns E user argc argv⟩
  intro s h
  have hid := parse_args_preconnection_id E user argc argv s h
  have hgiven_nonneg : argv.getD (RDP_ARGS_IDX.val E IDX_PRECONNECTION_ID) "" ≠ "" →
      0 ≤ atoi (argv.getD (RDP_ARGS_IDX.val E IDX_PRECONNECTION_ID) "") →
      s.preconnection_id = atoi (argv.getD (RDP_ARGS_IDX.val E IDX_PRECONNECTION_ID) "") := by
    intro hgiven hnonneg
    rw [hid, if_pos hgiven, if_neg (not_lt.mpr hnonneg)]
  refine ⟨?_, ?_, hgiven_nonneg, ?_⟩
  · rw [hid]
    split
    · split
      · exact le_refl _
      · omega
    · exact le_refl _
  · by_cases hblank : argv.getD (RDP_ARGS_IDX.val E IDX_PRECONNECTION_ID) "" = ""
    · refine ⟨fun _ => Or.inl hblank, fun _ => ?_⟩
      rw [hid, if_neg (not_not.mpr hblank)]
    · by_cases hneg : atoi (argv.getD (RDP_ARGS_IDX.val E IDX_PRECONNECTION_ID) "") < 0
      · refine ⟨fun _ => Or.inr hneg, fun _ => ?_⟩
        rw [hid, if_pos hblank, if_pos hneg]
      · refine ⟨fun hminus => ?_, fun hor => ?_⟩
        · rw [hgiven_nonneg hblank (not_lt.mp hneg)] at hminus
          omega
        · rcases hor with hor | hor
          · exact absurd hor hblank
          · exact absurd hor hneg
  · intro hgiven hnodigit
    have hzero : s.preconnection_id = 0 := by
      rw [hgiven_nonneg hgiven (by rw [atoi_of_no_digit _ hnodigit]),
        atoi_of_no_digit _ hnodigit]
    refine ⟨hzero, fun rdp => ?_⟩
    obtain ⟨hpid, hsend, hnegotiate⟩ := push_settings_preconnection E s rdp
    rw [hzero] at hpid hsend hnegotiate
    refine ⟨?_, ?_, ?_⟩
    · rw [hsend]
      cases s.preconnection_blob.isSome <;> rfl
    · rw [hpid]
      rfl
    · rw [hnegotiate]
      cases s.preconnection_blob.isSome <;> rfl

/-- Witness of C35: the theorem applied to the reference inputs with the
"preconnection-id" string "abc". -/
theorem parse_args_preconnection_id_range_witness :
    ∃ s, guac_rdp_parse_args reference_env reference_user (RDP_ARGS_COUNT reference_env)
          (set_arg reference_env (blank_args reference_env) IDX_PRECONNECTION_ID "abc")
        = Except.ok (some s)
      ∧ s.preconnection_id = 0
      ∧ (guac_rdp_push_settings reference_env s zero_freerdp).settings.SendPreconnectionPdu
          = true
      ∧ (guac_rdp_push_settings reference_env s zero_freerdp).settings.PreconnectionId
          = 0 := by
  have h := parse_args_preconnection_id_range reference_env reference_user
    (RDP_ARGS_COUNT reference_env)
    (set_arg reference_env (blank_args reference_env) IDX_PRECONNECTION_ID "abc")
  obtain ⟨s, hs⟩ := h.2 rfl (by decide)
    (fun hq => absurd hq.1 (by decide))
  obtain ⟨hzero, hpush⟩ := (h.1 s hs).2.2.2 (by decide) (by decide)
  exact ⟨s, hs, hzero, (hpush zero_freerdp).1, (hpush zero_freerdp).2.1⟩

/-- C37: the body of `guac_rdp_push_settings` compiled with
`HAVE_SETTERS_GETTERS` and the body compiled without it leave the same engine
configuration and the same `TZ` for every settings record and every initial
engine configuration, in every field that both assign, whatever the order of
the assignments: the two results differ at most in `TcpAckTimeout`, which the
body without setters alone assigns.  In particular the desktop width and
height, the colour depth, the performance flags, the security flags and the
device redirection flag are the same. -/
theorem push_settings_variants_agree (E : Env) (s : guac_rdp_settings) (rdp : freerdp) :
    guac_rdp_push_settings_setters E s rdp
      = { settings :=
            { (guac_rdp_push_settings_fields E s rdp).settings with
              TcpAckTimeout := rdp.settings.TcpAckTimeout },
          TZ := (guac_rdp_push_settings_fields E s rdp).TZ }
    ∧ (guac_rdp_push_settings_setters E s rdp).settings.DesktopWidth
        = (guac_rdp_push_settings_fields E s rdp).settings.DesktopWidth
    ∧ (guac_rdp_push_settings_setters E s rdp).settings.DesktopHeight
        = (guac_rdp_push_settings_fields E s rdp).settings.DesktopHeight
    ∧ (guac_rdp_push_settings_setters E s rdp).settings.ColorDepth
        = (guac_rdp_push_settings_fields E s rdp).settings.ColorDepth
    ∧ (guac_rdp_push_settings_setters E s rdp).settings.PerformanceFlags
        = (guac_rdp_push_settings_fields E s rdp).settings.PerformanceFlags
    ∧ (guac_rdp_push_settings_setters E s rdp).settings.security_flags
        = (guac_rdp_push_settings_fields E s rdp).settings.security_flags
    ∧ (guac_rdp_push_settings_setters E s rdp).settings.DeviceRedirection
        = (guac_rdp_push_settings_fields E s rdp).settings.DeviceRedirection
    ∧ (∀ timeout : Nat,
        { (guac_rdp_push_settings_setters E s rdp).settings with TcpAckTimeout := timeout }
          = { (guac_rdp_push_settings_fields E s rdp).settings with
              TcpAckTimeout := timeout }) := by
  have h := push_settings_bodies_agree E s rdp
  refine ⟨h, ?_, ?_, ?_, ?_, ?_, ?_, ?_⟩
  · rw [h]
  · rw [h]
  · rw [h]
  · rw [h]
  · rw [h]
    rfl
  · rw [h]
  · intro timeout
    rw [h]

end GuacRdp
